import Mathlib

/-! APEX five-stage pipeline simulator (`cpu.c`)

A shallow embedding of the pipeline engine of `cpu.c`: the machine state, the
five stage operations `fetch`, `decode`, `execute`, `memory`, `writeback`, one
scheduler tick, and the run loop `APEX_cpu_run`.

Modelling conventions.

* A C `int` is a Lean `Int`.  Signed overflow is undefined in C, so the model
  agrees with the program on every execution whose arithmetic stays in range.
* An `int` array is a total map `Int → Int`; `arrSet` is the assignment
  `a[i] = v`.  The program never checks an index, and an index outside the
  declared bounds is undefined in C; in the model it names a cell that no
  in-bounds index can reach.
* `strcmp(stage->opcode, "ADD") == 0` is equality of strings.  The exclusive-or
  instruction is spelled `"EX-OR"` by `decode`, `execute` and `writeback`.
* The C stage functions test opcodes in a sequence of independent `if` blocks;
  the model keeps that sequence, in source order.
* Printing (`print_stage_content`, `NO_OP`, `display`, `Memorydisplay`) has no
  effect on the machine state and is left out, together with `cpu->simulate`,
  which only selects what is printed.
* The `while (1)` loop of `APEX_cpu_run` takes a bound on the number of ticks
  and answers `none` when the bound is used up before the loop exits.
* `memset(cpu->regs_valid, 1, ...)` writes the byte 1 into every byte of the
  array; with a four-byte `int` each readiness bit then holds `0x01010101`.

The file is laid out as follows: the embedding of `cpu.c`; auxiliary definitions
used by statements and proofs (closed forms of the stage operations, frames,
the expected pipeline contents of straight-line programs, concrete machines);
general lemmas about the stage operations; and the theorems that settle the
claims, each marked with its claim number.
-/

set_option maxRecDepth 100000
set_option maxHeartbeats 4000000

namespace APEX

/-- Modelled from the spec: `APEX_Instruction` is declared in `cpu.h`, which is
not part of the source tree; the fields are the ones `fetch` copies. -/
structure APEX_Instruction where
  opcode : String
  rd : Int
  rs1 : Int
  rs2 : Int
  imm : Int

/-- Modelled from the spec: `CPU_Stage` is declared in `cpu.h`, which is not part
of the source tree; the fields are the ones the stage functions of `cpu.c` use. -/
structure CPU_Stage where
  pc : Int
  opcode : String
  rs1 : Int
  rs2 : Int
  rd : Int
  imm : Int
  rs1_value : Int
  rs2_value : Int
  buffer : Int
  mem_address : Int
  busy : Int
  stalled : Int

/-- Modelled from the spec: `APEX_CPU` is declared in `cpu.h`, which is not part
of the source tree; the fields are the ones `cpu.c` uses.  `stage_F` … `stage_WB`
are `cpu->stage[F]` … `cpu->stage[WB]`. -/
structure APEX_CPU where
  clock : Int
  pc : Int
  regs : Int → Int
  regs_valid : Int → Int
  stage_F : CPU_Stage
  stage_DRF : CPU_Stage
  stage_EX : CPU_Stage
  stage_MEM : CPU_Stage
  stage_WB : CPU_Stage
  code_memory : Int → APEX_Instruction
  code_memory_size : Int
  data_memory : Int → Int
  ins_completed : Int
  zeroflag : Int

/-- Array assignment `a[i] = v`. -/
def arrSet {α : Type} (a : Int → α) (i : Int) (v : α) : Int → α :=
  fun j => if j = i then v else a j

/-- A stage latch after `memset(..., 0, ...)`: every field zero, the opcode the
empty string. -/
def zeroStage : CPU_Stage :=
  { pc := 0, opcode := "", rs1 := 0, rs2 := 0, rd := 0, imm := 0,
    rs1_value := 0, rs2_value := 0, buffer := 0, mem_address := 0,
    busy := 0, stalled := 0 }

/-- The value of an `int` every byte of which `memset` has set to `1`
(four-byte `int`): `0x01010101`. -/
def memsetOnes : Int := 16843009

/-- The body of `APEX_cpu_init` once `malloc` and `create_code_memory` have
succeeded.  `raw` is the block `malloc` returned: the fields the function does
not assign (`clock`, `ins_completed`, `zeroflag`) keep whatever it holds. -/
def initState (raw : APEX_CPU) (code : Int → APEX_Instruction) (size : Int) : APEX_CPU :=
  { raw with
    pc := 4000
    regs := fun _ => 0
    regs_valid := fun _ => memsetOnes
    data_memory := fun _ => 0
    code_memory := code
    code_memory_size := size
    stage_F := zeroStage
    stage_DRF := { zeroStage with busy := 1 }
    stage_EX := { zeroStage with busy := 1 }
    stage_MEM := { zeroStage with busy := 1 }
    stage_WB := { zeroStage with busy := 1 } }

/-- `APEX_cpu_init`.  `filename` is `none` for a null pointer, `raw` is `none`
when `malloc` fails, and `create_code_memory` (the loader, outside `cpu.c`)
answers `none` for a null pointer. -/
def APEX_cpu_init (filename : Option String) (raw : Option APEX_CPU)
    (create_code_memory : String → Option ((Int → APEX_Instruction) × Int)) :
    Option APEX_CPU :=
  match filename with
  | none => none
  | some name =>
    match raw with
    | none => none
    | some cpu =>
      match create_code_memory name with
      | none => none
      | some (code, size) => some (initState cpu code size)

/-- `get_code_index`: C division truncates toward zero. -/
def get_code_index (pc : Int) : Int :=
  Int.tdiv (pc - 4000) 4

/-- `fetch`. -/
def fetch (cpu : APEX_CPU) : APEX_CPU :=
  if cpu.stage_F.busy = 0 ∧ cpu.stage_F.stalled = 0 then
    let current_ins := cpu.code_memory (get_code_index cpu.pc)
    let cpu := { cpu with stage_F := { cpu.stage_F with
                   pc := cpu.pc
                   opcode := current_ins.opcode
                   rd := current_ins.rd
                   rs1 := current_ins.rs1
                   rs2 := current_ins.rs2
                   imm := current_ins.imm } }
    let cpu := { cpu with pc := cpu.pc + 4 }
    { cpu with stage_DRF := cpu.stage_F }
  else
    { cpu with stage_DRF := cpu.stage_F }

/-- The block `decode` runs for each of `ADD`, `SUB`, `AND`, `OR`, `EX-OR` and
`MUL` (six textually identical copies in the source). -/
def decode_alu (cpu : APEX_CPU) : APEX_CPU :=
  let cpu :=
    if cpu.stage_DRF.rd ≠ cpu.stage_DRF.rs1 ∧ cpu.stage_DRF.rd ≠ cpu.stage_DRF.rs2 then
      { cpu with regs_valid := arrSet cpu.regs_valid cpu.stage_DRF.rd 1 }
    else cpu
  if cpu.regs_valid cpu.stage_DRF.rs1 = 0 ∧ cpu.regs_valid cpu.stage_DRF.rs2 = 0 then
    { cpu with
      stage_F := { cpu.stage_F with stalled := 0 }
      stage_DRF := { cpu.stage_DRF with
        stalled := 0
        rs1_value := cpu.regs cpu.stage_DRF.rs1
        rs2_value := cpu.regs cpu.stage_DRF.rs2 } }
  else
    { cpu with
      stage_F := { cpu.stage_F with stalled := 1 }
      stage_DRF := { cpu.stage_DRF with stalled := 1 } }

/-- The `STORE` block of `decode`. -/
def decode_store (cpu : APEX_CPU) : APEX_CPU :=
  { cpu with stage_DRF := { cpu.stage_DRF with
      rs1_value := cpu.regs cpu.stage_DRF.rs1
      rs2_value := cpu.regs cpu.stage_DRF.rs2 } }

/-- The `LOAD` block of `decode`; the second snapshot is `regs[imm]`. -/
def decode_load (cpu : APEX_CPU) : APEX_CPU :=
  let cpu :=
    if cpu.stage_DRF.rd ≠ cpu.stage_DRF.rs1 ∧ cpu.stage_DRF.rd ≠ cpu.stage_DRF.rs2 then
      { cpu with regs_valid := arrSet cpu.regs_valid cpu.stage_DRF.rd 1 }
    else cpu
  { cpu with stage_DRF := { cpu.stage_DRF with
      rs1_value := cpu.regs cpu.stage_DRF.rs1
      rs2_value := cpu.regs cpu.stage_DRF.imm } }

/-- The `JUMP` block of `decode`. -/
def decode_jump (cpu : APEX_CPU) : APEX_CPU :=
  { cpu with stage_DRF := { cpu.stage_DRF with rs1_value := cpu.regs cpu.stage_DRF.rs1 } }

/-- The `HALT` block of `decode`. -/
def decode_halt (cpu : APEX_CPU) : APEX_CPU :=
  { cpu with stage_F := { cpu.stage_F with stalled := 1 } }

/-- `decode`. -/
def decode (cpu : APEX_CPU) : APEX_CPU :=
  if cpu.stage_DRF.busy = 0 ∧ cpu.stage_DRF.stalled = 0 then
    let cpu := if cpu.stage_DRF.opcode = "STORE" then decode_store cpu else cpu
    let cpu := if cpu.stage_DRF.opcode = "MOVC" then cpu else cpu
    let cpu := if cpu.stage_DRF.opcode = "ADD" then decode_alu cpu else cpu
    let cpu := if cpu.stage_DRF.opcode = "SUB" then decode_alu cpu else cpu
    let cpu := if cpu.stage_DRF.opcode = "AND" then decode_alu cpu else cpu
    let cpu := if cpu.stage_DRF.opcode = "OR" then decode_alu cpu else cpu
    let cpu := if cpu.stage_DRF.opcode = "EX-OR" then decode_alu cpu else cpu
    let cpu := if cpu.stage_DRF.opcode = "LOAD" then decode_load cpu else cpu
    let cpu := if cpu.stage_DRF.opcode = "MUL" then decode_alu cpu else cpu
    let cpu := if cpu.stage_DRF.opcode = "JUMP" then decode_jump cpu else cpu
    let cpu := if cpu.stage_DRF.opcode = "HALT" then decode_halt cpu else cpu
    { cpu with stage_EX := cpu.stage_DRF }
  else
    { cpu with stage_EX := cpu.stage_DRF }

/-- The zero-flag update that follows the `ADD`, `SUB` and `MUL` computations. -/
def setZeroFlag (cpu : APEX_CPU) : APEX_CPU :=
  if cpu.stage_EX.buffer = 0 then { cpu with zeroflag := 1 } else { cpu with zeroflag := 0 }

/-- The `ADD` block of `execute`: the zero tests read the register file. -/
def execute_add (cpu : APEX_CPU) : APEX_CPU :=
  let cpu :=
    if cpu.regs cpu.stage_EX.rs1 = 0 then
      { cpu with stage_EX := { cpu.stage_EX with
          buffer := cpu.stage_EX.rs2_value + cpu.stage_EX.imm } }
    else if cpu.regs cpu.stage_EX.rs2 = 0 then
      { cpu with stage_EX := { cpu.stage_EX with
          buffer := cpu.stage_EX.rs1_value + cpu.stage_EX.imm } }
    else
      { cpu with stage_EX := { cpu.stage_EX with
          buffer := cpu.stage_EX.rs1_value + cpu.stage_EX.rs2_value } }
  setZeroFlag cpu

/-- The `SUB` block of `execute`: the zero tests read the register indices. -/
def execute_sub (cpu : APEX_CPU) : APEX_CPU :=
  let cpu :=
    if cpu.stage_EX.rs1 = 0 then
      { cpu with stage_EX := { cpu.stage_EX with
          buffer := cpu.stage_EX.rs2_value - cpu.stage_EX.imm } }
    else if cpu.stage_EX.rs2 = 0 then
      { cpu with stage_EX := { cpu.stage_EX with
          buffer := cpu.stage_EX.rs1_value - cpu.stage_EX.imm } }
    else
      { cpu with stage_EX := { cpu.stage_EX with
          buffer := cpu.stage_EX.rs1_value - cpu.stage_EX.rs2_value } }
  setZeroFlag cpu

/-- The `MUL` block of `execute`, with the local variable `stallFlag`, which
`execute` sets to `1` on entry. -/
def execute_mul (stallFlag : Int) (cpu : APEX_CPU) : APEX_CPU :=
  let (stallFlag, cpu) :=
    if stallFlag = 1 then (stallFlag + 1, { cpu with clock := cpu.clock + 1 })
    else (stallFlag, cpu)
  let cpu :=
    if stallFlag = 2 then
      { cpu with stage_EX := { cpu.stage_EX with
          buffer := cpu.stage_EX.rs1_value * cpu.stage_EX.rs2_value
          stalled := 0 } }
    else cpu
  setZeroFlag cpu

/-- The `BZ` block of `execute`. -/
def execute_bz (cpu : APEX_CPU) : APEX_CPU :=
  if cpu.zeroflag = 1 then
    { cpu with pc := cpu.stage_EX.pc + cpu.stage_EX.imm, zeroflag := 0 }
  else cpu

/-- The `BNZ` block of `execute`. -/
def execute_bnz (cpu : APEX_CPU) : APEX_CPU :=
  if cpu.zeroflag = 0 then
    { cpu with pc := cpu.stage_EX.pc + cpu.stage_EX.imm }
  else cpu

/-- `execute`. -/
def execute (cpu : APEX_CPU) : APEX_CPU :=
  let stallFlag : Int := 1
  if cpu.stage_EX.busy = 0 ∧ cpu.stage_EX.stalled = 0 then
    let cpu := if cpu.stage_EX.opcode = "MOVC" then
      { cpu with stage_EX := { cpu.stage_EX with buffer := cpu.stage_EX.imm } } else cpu
    let cpu := if cpu.stage_EX.opcode = "STORE" then
      { cpu with stage_EX := { cpu.stage_EX with
          mem_address := cpu.stage_EX.rs2_value + cpu.stage_EX.imm } } else cpu
    let cpu := if cpu.stage_EX.opcode = "LOAD" then
      { cpu with stage_EX := { cpu.stage_EX with
          mem_address := cpu.stage_EX.rs1_value + cpu.stage_EX.imm } } else cpu
    let cpu := if cpu.stage_EX.opcode = "ADD" then execute_add cpu else cpu
    let cpu := if cpu.stage_EX.opcode = "SUB" then execute_sub cpu else cpu
    let cpu := if cpu.stage_EX.opcode = "AND" then
      { cpu with stage_EX := { cpu.stage_EX with
          buffer := Int.land cpu.stage_EX.rs1_value cpu.stage_EX.rs2_value } } else cpu
    let cpu := if cpu.stage_EX.opcode = "OR" then
      { cpu with stage_EX := { cpu.stage_EX with
          buffer := Int.lor cpu.stage_EX.rs1_value cpu.stage_EX.rs2_value } } else cpu
    let cpu := if cpu.stage_EX.opcode = "EX-OR" then
      { cpu with stage_EX := { cpu.stage_EX with
          buffer := Int.xor cpu.stage_EX.rs1_value cpu.stage_EX.rs2_value } } else cpu
    let cpu := if cpu.stage_EX.opcode = "MUL" then execute_mul stallFlag cpu else cpu
    let cpu := if cpu.stage_EX.opcode = "BZ" then execute_bz cpu else cpu
    let cpu := if cpu.stage_EX.opcode = "BNZ" then execute_bnz cpu else cpu
    let cpu := if cpu.stage_EX.opcode = "JUMP" then
      { cpu with pc := cpu.stage_EX.rs1_value + cpu.stage_EX.imm } else cpu
    let cpu := if cpu.stage_EX.opcode = "HALT" then cpu else cpu
    { cpu with stage_MEM := cpu.stage_EX }
  else
    { cpu with stage_MEM := cpu.stage_EX }

/-- `memory`.  The blocks for `ADD`, `SUB`, `MUL`, `OR`, `EX_OR` and `AND` are
empty in the source. -/
def memory (cpu : APEX_CPU) : APEX_CPU :=
  if cpu.stage_MEM.busy = 0 ∧ cpu.stage_MEM.stalled = 0 then
    let cpu := if cpu.stage_MEM.opcode = "STORE" then
      { cpu with
        data_memory := arrSet cpu.data_memory cpu.stage_MEM.mem_address (cpu.regs cpu.stage_MEM.rs1) }
      else cpu
    let cpu := if cpu.stage_MEM.opcode = "LOAD" then
      { cpu with stage_MEM := { cpu.stage_MEM with
          buffer := cpu.data_memory cpu.stage_MEM.mem_address } }
      else cpu
    { cpu with stage_WB := cpu.stage_MEM }
  else
    { cpu with stage_WB := cpu.stage_MEM }

/-- The block `writeback` runs for each of `MOVC`, `ADD`, `SUB`, `AND`, `EX-OR`,
`OR`, `LOAD` and `MUL` (eight textually identical copies in the source). -/
def writeback_commit (cpu : APEX_CPU) : APEX_CPU :=
  { cpu with
    regs := arrSet cpu.regs cpu.stage_WB.rd cpu.stage_WB.buffer
    regs_valid := arrSet cpu.regs_valid cpu.stage_WB.rd 0
    stage_DRF := { cpu.stage_DRF with stalled := 0 }
    stage_F := { cpu.stage_F with stalled := 0 } }

/-- `writeback`. -/
def writeback (cpu : APEX_CPU) : APEX_CPU :=
  if cpu.stage_WB.busy = 0 ∧ cpu.stage_WB.stalled = 0 then
    let cpu := if cpu.stage_WB.opcode = "MOVC" then writeback_commit cpu else cpu
    let cpu := if cpu.stage_WB.opcode = "ADD" then writeback_commit cpu else cpu
    let cpu := if cpu.stage_WB.opcode = "SUB" then writeback_commit cpu else cpu
    let cpu := if cpu.stage_WB.opcode = "AND" then writeback_commit cpu else cpu
    let cpu := if cpu.stage_WB.opcode = "EX-OR" then writeback_commit cpu else cpu
    let cpu := if cpu.stage_WB.opcode = "OR" then writeback_commit cpu else cpu
    let cpu := if cpu.stage_WB.opcode = "LOAD" then writeback_commit cpu else cpu
    let cpu := if cpu.stage_WB.opcode = "MUL" then writeback_commit cpu else cpu
    { cpu with ins_completed := cpu.ins_completed + 1 }
  else
    cpu

/-- One iteration of the loop of `APEX_cpu_run` past the exit test: the five
stage calls in source order, then `cpu->clock++`. -/
def tick (cpu : APEX_CPU) : APEX_CPU :=
  let cpu := writeback cpu
  let cpu := memory cpu
  let cpu := execute cpu
  let cpu := decode cpu
  let cpu := fetch cpu
  { cpu with clock := cpu.clock + 1 }

/-- `APEX_cpu_run`, with a bound on the number of ticks: the loop exits as soon
as `ins_completed == code_memory_size`; `none` when `fuel` ticks did not reach
the exit. -/
def APEX_cpu_run : Nat → APEX_CPU → Option APEX_CPU
  | fuel, cpu =>
    if cpu.ins_completed = cpu.code_memory_size then some cpu
    else
      match fuel with
      | 0 => none
      | fuel + 1 => APEX_cpu_run fuel (tick cpu)

/-- The machine after `n` ticks, the exit test left aside. -/
def ticks : Nat → APEX_CPU → APEX_CPU
  | 0, cpu => cpu
  | n + 1, cpu => ticks n (tick cpu)

/-! ## Auxiliary definitions used by the statements and proofs -/

/-- The opcodes for which `writeback` commits a result: `MOVC`, `ADD`, `SUB`,
`AND`, `EX-OR`, `OR`, `LOAD`, `MUL`. -/
abbrev isRegWriter (op : String) : Prop :=
  op = "MOVC" ∨ op = "ADD" ∨ op = "SUB" ∨ op = "AND" ∨ op = "EX-OR" ∨ op = "OR" ∨
    op = "LOAD" ∨ op = "MUL"

/-- The opcodes `decode` checks for a hazard: `ADD`, `SUB`, `AND`, `OR`, `EX-OR`,
`MUL`. -/
abbrev isALU (op : String) : Prop :=
  op = "ADD" ∨ op = "SUB" ∨ op = "AND" ∨ op = "OR" ∨ op = "EX-OR" ∨ op = "MUL"

/-- A latch whose instruction the stage processes: neither busy nor stalled. -/
abbrev live (l : CPU_Stage) : Prop := l.busy = 0 ∧ l.stalled = 0

/-- The opcode dispatch of `decode` as one nested conditional; `decode_eq` proves
it equal to the sequence of blocks of `decode`. -/
def decode_dispatch (cpu : APEX_CPU) : APEX_CPU :=
  if cpu.stage_DRF.opcode = "STORE" then decode_store cpu
  else if isALU cpu.stage_DRF.opcode then decode_alu cpu
  else if cpu.stage_DRF.opcode = "LOAD" then decode_load cpu
  else if cpu.stage_DRF.opcode = "JUMP" then decode_jump cpu
  else if cpu.stage_DRF.opcode = "HALT" then decode_halt cpu
  else cpu

/-- The opcode dispatch of `execute` as one nested conditional; `execute_eq`
proves it equal to the sequence of blocks of `execute`. -/
def execute_dispatch (cpu : APEX_CPU) : APEX_CPU :=
  if cpu.stage_EX.opcode = "MOVC" then
    { cpu with stage_EX := { cpu.stage_EX with buffer := cpu.stage_EX.imm } }
  else if cpu.stage_EX.opcode = "STORE" then
    { cpu with stage_EX := { cpu.stage_EX with
        mem_address := cpu.stage_EX.rs2_value + cpu.stage_EX.imm } }
  else if cpu.stage_EX.opcode = "LOAD" then
    { cpu with stage_EX := { cpu.stage_EX with
        mem_address := cpu.stage_EX.rs1_value + cpu.stage_EX.imm } }
  else if cpu.stage_EX.opcode = "ADD" then execute_add cpu
  else if cpu.stage_EX.opcode = "SUB" then execute_sub cpu
  else if cpu.stage_EX.opcode = "AND" then
    { cpu with stage_EX := { cpu.stage_EX with
        buffer := Int.land cpu.stage_EX.rs1_value cpu.stage_EX.rs2_value } }
  else if cpu.stage_EX.opcode = "OR" then
    { cpu with stage_EX := { cpu.stage_EX with
        buffer := Int.lor cpu.stage_EX.rs1_value cpu.stage_EX.rs2_value } }
  else if cpu.stage_EX.opcode = "EX-OR" then
    { cpu with stage_EX := { cpu.stage_EX with
        buffer := Int.xor cpu.stage_EX.rs1_value cpu.stage_EX.rs2_value } }
  else if cpu.stage_EX.opcode = "MUL" then execute_mul 1 cpu
  else if cpu.stage_EX.opcode = "BZ" then execute_bz cpu
  else if cpu.stage_EX.opcode = "BNZ" then execute_bnz cpu
  else if cpu.stage_EX.opcode = "JUMP" then
    { cpu with pc := cpu.stage_EX.rs1_value + cpu.stage_EX.imm }
  else cpu

/-- The value the `ADD` block of `execute` puts in the result buffer. -/
def add_result (cpu : APEX_CPU) : Int :=
  if cpu.regs cpu.stage_EX.rs1 = 0 then cpu.stage_EX.rs2_value + cpu.stage_EX.imm
  else if cpu.regs cpu.stage_EX.rs2 = 0 then cpu.stage_EX.rs1_value + cpu.stage_EX.imm
  else cpu.stage_EX.rs1_value + cpu.stage_EX.rs2_value

/-- The value the `SUB` block of `execute` puts in the result buffer. -/
def sub_result (cpu : APEX_CPU) : Int :=
  if cpu.stage_EX.rs1 = 0 then cpu.stage_EX.rs2_value - cpu.stage_EX.imm
  else if cpu.stage_EX.rs2 = 0 then cpu.stage_EX.rs1_value - cpu.stage_EX.imm
  else cpu.stage_EX.rs1_value - cpu.stage_EX.rs2_value

/-- The readiness bits after the marking step of `decode_alu` and `decode_load`. -/
def decode_mark (cpu : APEX_CPU) : Int → Int :=
  if cpu.stage_DRF.rd ≠ cpu.stage_DRF.rs1 ∧ cpu.stage_DRF.rd ≠ cpu.stage_DRF.rs2 then
    arrSet cpu.regs_valid cpu.stage_DRF.rd 1
  else cpu.regs_valid

/-- Every latch is busy or stalled: no stage processes an instruction. -/
abbrev allHeld (cpu : APEX_CPU) : Prop :=
  ¬ live cpu.stage_F ∧ ¬ live cpu.stage_DRF ∧ ¬ live cpu.stage_EX ∧ ¬ live cpu.stage_MEM
    ∧ ¬ live cpu.stage_WB

/-- The Fetch latch after `fetch` has copied `ins`, found at program counter
`pc`, into a latch that was zeroed at reset. -/
def fetchedLatch (pc : Int) (ins : APEX_Instruction) : CPU_Stage :=
  { zeroStage with
    pc := pc, opcode := ins.opcode, rd := ins.rd, rs1 := ins.rs1, rs2 := ins.rs2,
    imm := ins.imm }

/-- The machine on which `decode` is called in the tick that starts from `cpu`:
`writeback`, `memory` and `execute` have run. -/
abbrev atDecode (cpu : APEX_CPU) : APEX_CPU :=
  execute (memory (writeback cpu))

/-! ## Frames of the stage operations -/

/-- Frame of `writeback`: the fields `writeback` leaves alone, as equations between the machine before
(`cpu`) and after (`cpu1`). -/
structure WritebackFrame (cpu cpu1 : APEX_CPU) : Prop where
  clock : cpu1.clock = cpu.clock
  pc : cpu1.pc = cpu.pc
  stage_EX : cpu1.stage_EX = cpu.stage_EX
  stage_MEM : cpu1.stage_MEM = cpu.stage_MEM
  stage_WB : cpu1.stage_WB = cpu.stage_WB
  code_memory : cpu1.code_memory = cpu.code_memory
  code_memory_size : cpu1.code_memory_size = cpu.code_memory_size
  data_memory : cpu1.data_memory = cpu.data_memory
  zeroflag : cpu1.zeroflag = cpu.zeroflag
  stage_F_pc : cpu1.stage_F.pc = cpu.stage_F.pc
  stage_F_opcode : cpu1.stage_F.opcode = cpu.stage_F.opcode
  stage_F_rs1 : cpu1.stage_F.rs1 = cpu.stage_F.rs1
  stage_F_rs2 : cpu1.stage_F.rs2 = cpu.stage_F.rs2
  stage_F_rd : cpu1.stage_F.rd = cpu.stage_F.rd
  stage_F_imm : cpu1.stage_F.imm = cpu.stage_F.imm
  stage_F_rs1_value : cpu1.stage_F.rs1_value = cpu.stage_F.rs1_value
  stage_F_rs2_value : cpu1.stage_F.rs2_value = cpu.stage_F.rs2_value
  stage_F_buffer : cpu1.stage_F.buffer = cpu.stage_F.buffer
  stage_F_mem_address : cpu1.stage_F.mem_address = cpu.stage_F.mem_address
  stage_F_busy : cpu1.stage_F.busy = cpu.stage_F.busy
  stage_DRF_pc : cpu1.stage_DRF.pc = cpu.stage_DRF.pc
  stage_DRF_opcode : cpu1.stage_DRF.opcode = cpu.stage_DRF.opcode
  stage_DRF_rs1 : cpu1.stage_DRF.rs1 = cpu.stage_DRF.rs1
  stage_DRF_rs2 : cpu1.stage_DRF.rs2 = cpu.stage_DRF.rs2
  stage_DRF_rd : cpu1.stage_DRF.rd = cpu.stage_DRF.rd
  stage_DRF_imm : cpu1.stage_DRF.imm = cpu.stage_DRF.imm
  stage_DRF_rs1_value : cpu1.stage_DRF.rs1_value = cpu.stage_DRF.rs1_value
  stage_DRF_rs2_value : cpu1.stage_DRF.rs2_value = cpu.stage_DRF.rs2_value
  stage_DRF_buffer : cpu1.stage_DRF.buffer = cpu.stage_DRF.buffer
  stage_DRF_mem_address : cpu1.stage_DRF.mem_address = cpu.stage_DRF.mem_address
  stage_DRF_busy : cpu1.stage_DRF.busy = cpu.stage_DRF.busy

/-- Frame of `memory`: the fields `memory` leaves alone, as equations between the machine before
(`cpu`) and after (`cpu1`). -/
structure MemoryFrame (cpu cpu1 : APEX_CPU) : Prop where
  clock : cpu1.clock = cpu.clock
  pc : cpu1.pc = cpu.pc
  regs : cpu1.regs = cpu.regs
  regs_valid : cpu1.regs_valid = cpu.regs_valid
  stage_F : cpu1.stage_F = cpu.stage_F
  stage_DRF : cpu1.stage_DRF = cpu.stage_DRF
  stage_EX : cpu1.stage_EX = cpu.stage_EX
  code_memory : cpu1.code_memory = cpu.code_memory
  code_memory_size : cpu1.code_memory_size = cpu.code_memory_size
  ins_completed : cpu1.ins_completed = cpu.ins_completed
  zeroflag : cpu1.zeroflag = cpu.zeroflag
  stage_MEM_pc : cpu1.stage_MEM.pc = cpu.stage_MEM.pc
  stage_MEM_opcode : cpu1.stage_MEM.opcode = cpu.stage_MEM.opcode
  stage_MEM_rs1 : cpu1.stage_MEM.rs1 = cpu.stage_MEM.rs1
  stage_MEM_rs2 : cpu1.stage_MEM.rs2 = cpu.stage_MEM.rs2
  stage_MEM_rd : cpu1.stage_MEM.rd = cpu.stage_MEM.rd
  stage_MEM_imm : cpu1.stage_MEM.imm = cpu.stage_MEM.imm
  stage_MEM_rs1_value : cpu1.stage_MEM.rs1_value = cpu.stage_MEM.rs1_value
  stage_MEM_rs2_value : cpu1.stage_MEM.rs2_value = cpu.stage_MEM.rs2_value
  stage_MEM_mem_address : cpu1.stage_MEM.mem_address = cpu.stage_MEM.mem_address
  stage_MEM_busy : cpu1.stage_MEM.busy = cpu.stage_MEM.busy
  stage_MEM_stalled : cpu1.stage_MEM.stalled = cpu.stage_MEM.stalled

/-- Frame of `execute`: the fields `execute` leaves alone, as equations between the machine before
(`cpu`) and after (`cpu1`). -/
structure ExecuteFrame (cpu cpu1 : APEX_CPU) : Prop where
  regs : cpu1.regs = cpu.regs
  regs_valid : cpu1.regs_valid = cpu.regs_valid
  stage_F : cpu1.stage_F = cpu.stage_F
  stage_DRF : cpu1.stage_DRF = cpu.stage_DRF
  stage_WB : cpu1.stage_WB = cpu.stage_WB
  code_memory : cpu1.code_memory = cpu.code_memory
  code_memory_size : cpu1.code_memory_size = cpu.code_memory_size
  data_memory : cpu1.data_memory = cpu.data_memory
  ins_completed : cpu1.ins_completed = cpu.ins_completed
  stage_EX_pc : cpu1.stage_EX.pc = cpu.stage_EX.pc
  stage_EX_opcode : cpu1.stage_EX.opcode = cpu.stage_EX.opcode
  stage_EX_rs1 : cpu1.stage_EX.rs1 = cpu.stage_EX.rs1
  stage_EX_rs2 : cpu1.stage_EX.rs2 = cpu.stage_EX.rs2
  stage_EX_rd : cpu1.stage_EX.rd = cpu.stage_EX.rd
  stage_EX_imm : cpu1.stage_EX.imm = cpu.stage_EX.imm
  stage_EX_rs1_value : cpu1.stage_EX.rs1_value = cpu.stage_EX.rs1_value
  stage_EX_rs2_value : cpu1.stage_EX.rs2_value = cpu.stage_EX.rs2_value
  stage_EX_busy : cpu1.stage_EX.busy = cpu.stage_EX.busy

/-- Frame of `decode`: the fields `decode` leaves alone, as equations between the machine before
(`cpu`) and after (`cpu1`). -/
structure DecodeFrame (cpu cpu1 : APEX_CPU) : Prop where
  clock : cpu1.clock = cpu.clock
  pc : cpu1.pc = cpu.pc
  regs : cpu1.regs = cpu.regs
  stage_MEM : cpu1.stage_MEM = cpu.stage_MEM
  stage_WB : cpu1.stage_WB = cpu.stage_WB
  code_memory : cpu1.code_memory = cpu.code_memory
  code_memory_size : cpu1.code_memory_size = cpu.code_memory_size
  data_memory : cpu1.data_memory = cpu.data_memory
  ins_completed : cpu1.ins_completed = cpu.ins_completed
  zeroflag : cpu1.zeroflag = cpu.zeroflag
  stage_F_pc : cpu1.stage_F.pc = cpu.stage_F.pc
  stage_F_opcode : cpu1.stage_F.opcode = cpu.stage_F.opcode
  stage_F_rs1 : cpu1.stage_F.rs1 = cpu.stage_F.rs1
  stage_F_rs2 : cpu1.stage_F.rs2 = cpu.stage_F.rs2
  stage_F_rd : cpu1.stage_F.rd = cpu.stage_F.rd
  stage_F_imm : cpu1.stage_F.imm = cpu.stage_F.imm
  stage_F_rs1_value : cpu1.stage_F.rs1_value = cpu.stage_F.rs1_value
  stage_F_rs2_value : cpu1.stage_F.rs2_value = cpu.stage_F.rs2_value
  stage_F_buffer : cpu1.stage_F.buffer = cpu.stage_F.buffer
  stage_F_mem_address : cpu1.stage_F.mem_address = cpu.stage_F.mem_address
  stage_F_busy : cpu1.stage_F.busy = cpu.stage_F.busy
  stage_DRF_pc : cpu1.stage_DRF.pc = cpu.stage_DRF.pc
  stage_DRF_opcode : cpu1.stage_DRF.opcode = cpu.stage_DRF.opcode
  stage_DRF_rs1 : cpu1.stage_DRF.rs1 = cpu.stage_DRF.rs1
  stage_DRF_rs2 : cpu1.stage_DRF.rs2 = cpu.stage_DRF.rs2
  stage_DRF_rd : cpu1.stage_DRF.rd = cpu.stage_DRF.rd
  stage_DRF_imm : cpu1.stage_DRF.imm = cpu.stage_DRF.imm
  stage_DRF_buffer : cpu1.stage_DRF.buffer = cpu.stage_DRF.buffer
  stage_DRF_mem_address : cpu1.stage_DRF.mem_address = cpu.stage_DRF.mem_address
  stage_DRF_busy : cpu1.stage_DRF.busy = cpu.stage_DRF.busy

/-- Frame of `fetch`: the fields `fetch` leaves alone, as equations between the machine before
(`cpu`) and after (`cpu1`). -/
structure FetchFrame (cpu cpu1 : APEX_CPU) : Prop where
  clock : cpu1.clock = cpu.clock
  regs : cpu1.regs = cpu.regs
  regs_valid : cpu1.regs_valid = cpu.regs_valid
  stage_EX : cpu1.stage_EX = cpu.stage_EX
  stage_MEM : cpu1.stage_MEM = cpu.stage_MEM
  stage_WB : cpu1.stage_WB = cpu.stage_WB
  code_memory : cpu1.code_memory = cpu.code_memory
  code_memory_size : cpu1.code_memory_size = cpu.code_memory_size
  data_memory : cpu1.data_memory = cpu.data_memory
  ins_completed : cpu1.ins_completed = cpu.ins_completed
  zeroflag : cpu1.zeroflag = cpu.zeroflag
  stage_F_rs1_value : cpu1.stage_F.rs1_value = cpu.stage_F.rs1_value
  stage_F_rs2_value : cpu1.stage_F.rs2_value = cpu.stage_F.rs2_value
  stage_F_buffer : cpu1.stage_F.buffer = cpu.stage_F.buffer
  stage_F_mem_address : cpu1.stage_F.mem_address = cpu.stage_F.mem_address
  stage_F_busy : cpu1.stage_F.busy = cpu.stage_F.busy
  stage_F_stalled : cpu1.stage_F.stalled = cpu.stage_F.stalled

/-! ## Straight-line programs: the expected contents of the pipeline -/

/-- The latch that holds instruction `j` of the program on its way from Fetch to
Execute in a pipeline filled from reset; a negative `j` stands for one of the
busy latches of the reset state. -/
def latchOf (code : Int → APEX_Instruction) (j : Int) : CPU_Stage :=
  if j < 0 then { zeroStage with busy := 1 } else fetchedLatch (4000 + 4 * j) (code j)

/-- The latch that holds the `MOVC` at index `j` once `execute` has put its
immediate in the result buffer; a negative `j` stands for one of the busy
latches of the reset state. -/
def latchDone (code : Int → APEX_Instruction) (j : Int) : CPU_Stage :=
  if j < 0 then { zeroStage with busy := 1 }
  else { fetchedLatch (4000 + 4 * j) (code j) with buffer := (code j).imm }

/-- The register file after the first `k` instructions of the program, all of
them `MOVC`, have committed in order, starting from the zeroed registers. -/
def regsAfter (code : Int → APEX_Instruction) : Nat → Int → Int
  | 0 => fun _ => 0
  | k + 1 => arrSet (regsAfter code k) (code k).rd (code k).imm

/-- The machine after `t` ticks of a run from reset, while the instructions
fetched so far are all `MOVC`. -/
structure FillInv (code : Int → APEX_Instruction) (N t : Nat) (s : APEX_CPU) : Prop where
  code_memory : s.code_memory = code
  code_memory_size : s.code_memory_size = N
  pc : s.pc = 4000 + 4 * (t : Int)
  ins_completed : s.ins_completed = ((t - 4 : Nat) : Int)
  regs : s.regs = regsAfter code (t - 4)
  data_memory : s.data_memory = fun _ => 0
  stage_F : s.stage_F =
    if t = 0 then zeroStage
    else fetchedLatch (4000 + 4 * ((t : Int) - 1)) (code ((t : Int) - 1))
  stage_DRF : s.stage_DRF = latchOf code ((t : Int) - 1)
  stage_EX : s.stage_EX = latchOf code ((t : Int) - 2)
  stage_MEM : s.stage_MEM = latchDone code ((t : Int) - 3)
  stage_WB : s.stage_WB = latchDone code ((t : Int) - 4)

/-! ## Concrete machines at which the theorems are instantiated -/

/-- The instruction with an empty opcode and every operand field zero. -/
def nopInstruction : APEX_Instruction :=
  { opcode := "", rd := 0, rs1 := 0, rs2 := 0, imm := 0 }

/-- A machine with every field zero, an empty program and idle (not busy, not
stalled) latches holding the empty opcode. -/
def zeroCPU : APEX_CPU :=
  { clock := 0, pc := 4000, regs := fun _ => 0, regs_valid := fun _ => 0,
    stage_F := zeroStage, stage_DRF := zeroStage, stage_EX := zeroStage,
    stage_MEM := zeroStage, stage_WB := zeroStage,
    code_memory := fun _ => nopInstruction, code_memory_size := 0,
    data_memory := fun _ => 0, ins_completed := 0, zeroflag := 0 }

/-- The program `MOVC R0,#3; MOVC R1,#4; ADD R2,R0,R1; HALT`. -/
def endToEndProgram : Int → APEX_Instruction := fun i =>
  if i = 0 then { opcode := "MOVC", rd := 0, rs1 := 0, rs2 := 0, imm := 3 }
  else if i = 1 then { opcode := "MOVC", rd := 1, rs1 := 0, rs2 := 0, imm := 4 }
  else if i = 2 then { opcode := "ADD", rd := 2, rs1 := 0, rs2 := 1, imm := 0 }
  else if i = 3 then { opcode := "HALT", rd := 0, rs1 := 0, rs2 := 0, imm := 0 }
  else nopInstruction

/-- A latch holding a live instruction with the given opcode and operands. -/
def liveLatch (op : String) (rd rs1 rs2 imm : Int) : CPU_Stage :=
  { zeroStage with opcode := op, rd := rd, rs1 := rs1, rs2 := rs2, imm := imm }

/-- A machine whose Execute latch holds a live `SUB R3,R0,R1` with both operand
snapshots 5, the values of `R0` and `R1` in the register file. -/
def subFromR0 : APEX_CPU :=
  { zeroCPU with
    regs := fun r => if r = 0 ∨ r = 1 then 5 else 0
    stage_EX := { liveLatch "SUB" 3 0 1 0 with rs1_value := 5, rs2_value := 5 } }

/-- A machine whose Execute latch holds a live `BZ` and whose zero flag is 1. -/
def bzTaken : APEX_CPU :=
  { zeroCPU with
    zeroflag := 1
    stage_EX := { liveLatch "BZ" 0 0 0 16 with pc := 4008 } }

/-- A machine whose Execute latch holds a live `SUB R3,R1,R2` with equal operand
snapshots and whose Decode latch holds the `BZ` fetched at 4008 with
immediate 16. -/
def subThenBz : APEX_CPU :=
  { zeroCPU with
    stage_EX := { liveLatch "SUB" 3 1 2 0 with pc := 4004, rs1_value := 5, rs2_value := 5 }
    stage_DRF := { liveLatch "BZ" 0 0 0 16 with pc := 4008 }
    stage_F := { liveLatch "BZ" 0 0 0 16 with pc := 4008 } }

/-- A machine whose Execute latch holds a live `STORE` of `R1 = 42` to address
`0 + 100` and whose Decode latch holds a `LOAD R4` from address `R2 + 100`,
with `R2 = 0`. -/
def storeThenLoad : APEX_CPU :=
  { zeroCPU with
    regs := fun r => if r = 1 then 42 else 0
    stage_EX := { liveLatch "STORE" 0 1 2 100 with pc := 4000, rs1_value := 42, rs2_value := 0 }
    stage_DRF := { liveLatch "LOAD" 4 2 0 100 with pc := 4004 }
    stage_F := { liveLatch "LOAD" 4 2 0 100 with pc := 4004 } }

/-- A machine whose Execute latch holds a live `JUMP` to `R1 + 8` with snapshot
`R1 = 4000`, whose Decode and Fetch latches hold the `MOVC R5,#9` fetched at
4004, and whose program is the end-to-end program. -/
def jumpTaken : APEX_CPU :=
  { zeroCPU with
    pc := 4008
    code_memory := endToEndProgram
    code_memory_size := 4
    stage_EX := { liveLatch "JUMP" 0 1 0 8 with pc := 4000, rs1_value := 4000 }
    stage_DRF := { liveLatch "MOVC" 5 0 0 9 with pc := 4004 }
    stage_F := { liveLatch "MOVC" 5 0 0 9 with pc := 4004 } }

/-- The program `MOVC R0,#1; MOVC R0,#2; ADD R1,R0,R0; HALT`. -/
def movcTwiceThenAdd : Int → APEX_Instruction := fun i =>
  if i = 0 then { opcode := "MOVC", rd := 0, rs1 := 0, rs2 := 0, imm := 1 }
  else if i = 1 then { opcode := "MOVC", rd := 0, rs1 := 0, rs2 := 0, imm := 2 }
  else if i = 2 then { opcode := "ADD", rd := 1, rs1 := 0, rs2 := 0, imm := 0 }
  else if i = 3 then { opcode := "HALT", rd := 0, rs1 := 0, rs2 := 0, imm := 0 }
  else nopInstruction

/-- The three-instruction program `MOVC R0,#1; HALT; MOVC R1,#2`. -/
def haltInTheMiddle : Int → APEX_Instruction := fun i =>
  if i = 0 then { opcode := "MOVC", rd := 0, rs1 := 0, rs2 := 0, imm := 1 }
  else if i = 1 then { opcode := "HALT", rd := 0, rs1 := 0, rs2 := 0, imm := 0 }
  else if i = 2 then { opcode := "MOVC", rd := 1, rs1 := 0, rs2 := 0, imm := 2 }
  else nopInstruction

/-- The straight-line program `MOVC R0,#3; MOVC R1,#4; MOVC R0,#5; HALT`. -/
def movcProgram : Int → APEX_Instruction := fun i =>
  if i = 0 then { opcode := "MOVC", rd := 0, rs1 := 0, rs2 := 0, imm := 3 }
  else if i = 1 then { opcode := "MOVC", rd := 1, rs1 := 0, rs2 := 0, imm := 4 }
  else if i = 2 then { opcode := "MOVC", rd := 0, rs1 := 0, rs2 := 0, imm := 5 }
  else if i = 3 then { opcode := "HALT", rd := 0, rs1 := 0, rs2 := 0, imm := 0 }
  else nopInstruction

/-! ## The run loop and the tick iteration -/

theorem ticks_succ (n : Nat) : ∀ cpu : APEX_CPU, ticks (n + 1) cpu = tick (ticks n cpu) := by
  induction n with
  | zero => intro cpu; rfl
  | succ n ih => intro cpu; exact ih (tick cpu)

theorem ticks_add (m n : Nat) (cpu : APEX_CPU) :
    ticks (m + n) cpu = ticks n (ticks m cpu) := by
  induction m generalizing cpu with
  | zero => simp [ticks]
  | succ m ih => rw [Nat.succ_add]; exact ih (tick cpu)

/-- The loop exits after exactly `n` ticks when the exit test fails before each
of the first `n` ticks and holds after the `n`-th. -/
theorem APEX_cpu_run_of_ticks (n : Nat) : ∀ cpu : APEX_CPU,
    (∀ k, k < n → (ticks k cpu).ins_completed ≠ (ticks k cpu).code_memory_size) →
    (ticks n cpu).ins_completed = (ticks n cpu).code_memory_size →
    ∀ fuel, n ≤ fuel → APEX_cpu_run fuel cpu = some (ticks n cpu) := by
  induction n with
  | zero =>
    intro cpu _ h fuel _
    have h' : cpu.ins_completed = cpu.code_memory_size := h
    unfold APEX_cpu_run
    simp [h', ticks]
  | succ n ih =>
    intro cpu hk h fuel hf
    have h0 : cpu.ins_completed ≠ cpu.code_memory_size := hk 0 (Nat.succ_pos n)
    obtain ⟨f, rfl⟩ : ∃ f, fuel = f + 1 := ⟨fuel - 1, by omega⟩
    unfold APEX_cpu_run
    simp only [h0, if_false]
    exact ih (tick cpu) (fun k hk' => hk (k + 1) (by omega)) h f (by omega)

/-- The loop is still running after `n` ticks when the exit test fails before
each of them and after the last. -/
theorem APEX_cpu_run_none (n : Nat) : ∀ cpu : APEX_CPU,
    (∀ k, k ≤ n → (ticks k cpu).ins_completed ≠ (ticks k cpu).code_memory_size) →
    APEX_cpu_run n cpu = none := by
  induction n with
  | zero =>
    intro cpu hk
    have h0 : cpu.ins_completed ≠ cpu.code_memory_size := hk 0 (Nat.le_refl 0)
    unfold APEX_cpu_run
    simp [h0]
  | succ n ih =>
    intro cpu hk
    have h0 : cpu.ins_completed ≠ cpu.code_memory_size := hk 0 (Nat.zero_le _)
    unfold APEX_cpu_run
    simp only [h0, if_false]
    exact ih (tick cpu) (fun k hk' => hk (k + 1) (by omega))

theorem get_code_index_4000 : get_code_index 4000 = 0 := by decide
theorem get_code_index_4004 : get_code_index 4004 = 1 := by decide
theorem get_code_index_4008 : get_code_index 4008 = 2 := by decide
theorem get_code_index_4012 : get_code_index 4012 = 3 := by decide

/-! ## The stage operations as one conditional each -/

theorem writeback_eq (cpu : APEX_CPU) :
    writeback cpu =
      if live cpu.stage_WB then
        if isRegWriter cpu.stage_WB.opcode then
          { writeback_commit cpu with ins_completed := cpu.ins_completed + 1 }
        else { cpu with ins_completed := cpu.ins_completed + 1 }
      else cpu := by
  by_cases hl : cpu.stage_WB.busy = 0 ∧ cpu.stage_WB.stalled = 0
  · by_cases h1 : cpu.stage_WB.opcode = "MOVC"
    · simp [live, isRegWriter, writeback, hl, h1, writeback_commit]
    by_cases h2 : cpu.stage_WB.opcode = "ADD"
    · simp [live, isRegWriter, writeback, hl, h2, writeback_commit]
    by_cases h3 : cpu.stage_WB.opcode = "SUB"
    · simp [live, isRegWriter, writeback, hl, h3, writeback_commit]
    by_cases h4 : cpu.stage_WB.opcode = "AND"
    · simp [live, isRegWriter, writeback, hl, h4, writeback_commit]
    by_cases h5 : cpu.stage_WB.opcode = "EX-OR"
    · simp [live, isRegWriter, writeback, hl, h5, writeback_commit]
    by_cases h6 : cpu.stage_WB.opcode = "OR"
    · simp [live, isRegWriter, writeback, hl, h6, writeback_commit]
    by_cases h7 : cpu.stage_WB.opcode = "LOAD"
    · simp [live, isRegWriter, writeback, hl, h7, writeback_commit]
    by_cases h8 : cpu.stage_WB.opcode = "MUL"
    · simp [live, isRegWriter, writeback, hl, h8, writeback_commit]
    simp [live, isRegWriter, writeback, hl, h1, h2, h3, h4, h5, h6, h7, h8]
  · simp [live, isRegWriter, writeback, hl]

theorem memory_eq (cpu : APEX_CPU) :
    memory cpu =
      if live cpu.stage_MEM then
        if cpu.stage_MEM.opcode = "STORE" then
          { cpu with
            data_memory :=
              arrSet cpu.data_memory cpu.stage_MEM.mem_address (cpu.regs cpu.stage_MEM.rs1)
            stage_WB := cpu.stage_MEM }
        else if cpu.stage_MEM.opcode = "LOAD" then
          { cpu with
            stage_MEM := { cpu.stage_MEM with
              buffer := cpu.data_memory cpu.stage_MEM.mem_address }
            stage_WB := { cpu.stage_MEM with
              buffer := cpu.data_memory cpu.stage_MEM.mem_address } }
        else { cpu with stage_WB := cpu.stage_MEM }
      else { cpu with stage_WB := cpu.stage_MEM } := by
  by_cases hl : cpu.stage_MEM.busy = 0 ∧ cpu.stage_MEM.stalled = 0
  · by_cases h1 : cpu.stage_MEM.opcode = "STORE"
    · simp [live, memory, hl, h1]
    by_cases h2 : cpu.stage_MEM.opcode = "LOAD"
    · simp [live, memory, hl, h2]
    simp [live, memory, hl, h1, h2]
  · simp [live, memory, hl]

@[simp] theorem decode_alu_opcode (cpu : APEX_CPU) :
    (decode_alu cpu).stage_DRF.opcode = cpu.stage_DRF.opcode := by
  unfold decode_alu; dsimp only; split_ifs <;> rfl

@[simp] theorem decode_load_opcode (cpu : APEX_CPU) :
    (decode_load cpu).stage_DRF.opcode = cpu.stage_DRF.opcode := by
  unfold decode_load; dsimp only; split_ifs <;> rfl

theorem decode_eq (cpu : APEX_CPU) :
    decode cpu =
      if live cpu.stage_DRF then
        { decode_dispatch cpu with stage_EX := (decode_dispatch cpu).stage_DRF }
      else { cpu with stage_EX := cpu.stage_DRF } := by
  by_cases hl : cpu.stage_DRF.busy = 0 ∧ cpu.stage_DRF.stalled = 0
  · by_cases h1 : cpu.stage_DRF.opcode = "STORE"
    · simp [live, isALU, decode, decode_dispatch, hl, h1, decode_store]
    by_cases h2 : cpu.stage_DRF.opcode = "ADD"
    · simp [live, isALU, decode, decode_dispatch, hl, h2]
    by_cases h3 : cpu.stage_DRF.opcode = "SUB"
    · simp [live, isALU, decode, decode_dispatch, hl, h3]
    by_cases h4 : cpu.stage_DRF.opcode = "AND"
    · simp [live, isALU, decode, decode_dispatch, hl, h4]
    by_cases h5 : cpu.stage_DRF.opcode = "OR"
    · simp [live, isALU, decode, decode_dispatch, hl, h5]
    by_cases h6 : cpu.stage_DRF.opcode = "EX-OR"
    · simp [live, isALU, decode, decode_dispatch, hl, h6]
    by_cases h7 : cpu.stage_DRF.opcode = "LOAD"
    · simp [live, isALU, decode, decode_dispatch, hl, h7]
    by_cases h8 : cpu.stage_DRF.opcode = "MUL"
    · simp [live, isALU, decode, decode_dispatch, hl, h8]
    by_cases h9 : cpu.stage_DRF.opcode = "JUMP"
    · simp [live, isALU, decode, decode_dispatch, hl, h9, decode_jump]
    by_cases h10 : cpu.stage_DRF.opcode = "HALT"
    · simp [live, isALU, decode, decode_dispatch, hl, h10, decode_halt]
    simp [live, isALU, decode, decode_dispatch, hl, h1, h2, h3, h4, h5, h6, h7, h8, h9, h10]
  · simp [live, decode, hl]

@[simp] theorem setZeroFlag_stage_EX (cpu : APEX_CPU) :
    (setZeroFlag cpu).stage_EX = cpu.stage_EX := by
  unfold setZeroFlag; split_ifs <;> rfl

@[simp] theorem execute_add_opcode (cpu : APEX_CPU) :
    (execute_add cpu).stage_EX.opcode = cpu.stage_EX.opcode := by
  unfold execute_add; dsimp only; rw [setZeroFlag_stage_EX]; split_ifs <;> rfl

@[simp] theorem execute_sub_opcode (cpu : APEX_CPU) :
    (execute_sub cpu).stage_EX.opcode = cpu.stage_EX.opcode := by
  unfold execute_sub; dsimp only; rw [setZeroFlag_stage_EX]; split_ifs <;> rfl

@[simp] theorem execute_mul_opcode (cpu : APEX_CPU) :
    (execute_mul 1 cpu).stage_EX.opcode = cpu.stage_EX.opcode := by
  simp [execute_mul]

@[simp] theorem execute_bz_stage_EX (cpu : APEX_CPU) :
    (execute_bz cpu).stage_EX = cpu.stage_EX := by
  unfold execute_bz; split_ifs <;> rfl

@[simp] theorem execute_bnz_stage_EX (cpu : APEX_CPU) :
    (execute_bnz cpu).stage_EX = cpu.stage_EX := by
  unfold execute_bnz; split_ifs <;> rfl

theorem execute_eq (cpu : APEX_CPU) :
    execute cpu =
      if live cpu.stage_EX then
        { execute_dispatch cpu with stage_MEM := (execute_dispatch cpu).stage_EX }
      else { cpu with stage_MEM := cpu.stage_EX } := by
  by_cases hl : cpu.stage_EX.busy = 0 ∧ cpu.stage_EX.stalled = 0
  · by_cases h1 : cpu.stage_EX.opcode = "MOVC"
    · simp [live, execute, execute_dispatch, hl, h1]
    by_cases h2 : cpu.stage_EX.opcode = "STORE"
    · simp [live, execute, execute_dispatch, hl, h2]
    by_cases h3 : cpu.stage_EX.opcode = "LOAD"
    · simp [live, execute, execute_dispatch, hl, h3]
    by_cases h4 : cpu.stage_EX.opcode = "ADD"
    · simp [live, execute, execute_dispatch, hl, h4]
    by_cases h5 : cpu.stage_EX.opcode = "SUB"
    · simp [live, execute, execute_dispatch, hl, h5]
    by_cases h6 : cpu.stage_EX.opcode = "AND"
    · simp [live, execute, execute_dispatch, hl, h6]
    by_cases h7 : cpu.stage_EX.opcode = "OR"
    · simp [live, execute, execute_dispatch, hl, h7]
    by_cases h8 : cpu.stage_EX.opcode = "EX-OR"
    · simp [live, execute, execute_dispatch, hl, h8]
    by_cases h9 : cpu.stage_EX.opcode = "MUL"
    · simp [live, execute, execute_dispatch, hl, h9]
    by_cases h10 : cpu.stage_EX.opcode = "BZ"
    · simp [live, execute, execute_dispatch, hl, h10]
    by_cases h11 : cpu.stage_EX.opcode = "BNZ"
    · simp [live, execute, execute_dispatch, hl, h11]
    by_cases h12 : cpu.stage_EX.opcode = "JUMP"
    · simp [live, execute, execute_dispatch, hl, h12]
    simp [live, execute, execute_dispatch, hl, h1, h2, h3, h4, h5, h6, h7, h8, h9, h10, h11, h12]
  · simp [live, execute, hl]

/-! ## The blocks of `decode` and `execute` in closed form -/

theorem decode_mark_rs1 (cpu : APEX_CPU) :
    decode_mark cpu cpu.stage_DRF.rs1 = cpu.regs_valid cpu.stage_DRF.rs1 := by
  unfold decode_mark
  by_cases h1 : cpu.stage_DRF.rd ≠ cpu.stage_DRF.rs1 ∧ cpu.stage_DRF.rd ≠ cpu.stage_DRF.rs2
  · rw [if_pos h1]; unfold arrSet; rw [if_neg (Ne.symm h1.1)]
  · rw [if_neg h1]

theorem decode_mark_rs2 (cpu : APEX_CPU) :
    decode_mark cpu cpu.stage_DRF.rs2 = cpu.regs_valid cpu.stage_DRF.rs2 := by
  unfold decode_mark
  by_cases h1 : cpu.stage_DRF.rd ≠ cpu.stage_DRF.rs1 ∧ cpu.stage_DRF.rd ≠ cpu.stage_DRF.rs2
  · rw [if_pos h1]; unfold arrSet; rw [if_neg (Ne.symm h1.2)]
  · rw [if_neg h1]

theorem decode_alu_eq (cpu : APEX_CPU) :
    decode_alu cpu =
      if cpu.regs_valid cpu.stage_DRF.rs1 = 0 ∧ cpu.regs_valid cpu.stage_DRF.rs2 = 0 then
        { cpu with
          regs_valid := decode_mark cpu
          stage_F := { cpu.stage_F with stalled := 0 }
          stage_DRF := { cpu.stage_DRF with
            stalled := 0
            rs1_value := cpu.regs cpu.stage_DRF.rs1
            rs2_value := cpu.regs cpu.stage_DRF.rs2 } }
      else
        { cpu with
          regs_valid := decode_mark cpu
          stage_F := { cpu.stage_F with stalled := 1 }
          stage_DRF := { cpu.stage_DRF with stalled := 1 } } := by
  have e1 := decode_mark_rs1 cpu
  have e2 := decode_mark_rs2 cpu
  unfold decode_mark at e1 e2
  unfold decode_alu decode_mark
  by_cases hm : cpu.stage_DRF.rd ≠ cpu.stage_DRF.rs1 ∧ cpu.stage_DRF.rd ≠ cpu.stage_DRF.rs2
  · rw [if_pos hm] at e1 e2
    simp only [if_pos hm, e1, e2]
  · simp only [if_neg hm]

theorem decode_load_eq (cpu : APEX_CPU) :
    decode_load cpu =
      { cpu with
        regs_valid := decode_mark cpu
        stage_DRF := { cpu.stage_DRF with
          rs1_value := cpu.regs cpu.stage_DRF.rs1
          rs2_value := cpu.regs cpu.stage_DRF.imm } } := by
  unfold decode_load decode_mark
  dsimp only
  split_ifs <;> rfl

theorem execute_add_eq (cpu : APEX_CPU) :
    execute_add cpu =
      { cpu with
        stage_EX := { cpu.stage_EX with buffer := add_result cpu }
        zeroflag := if add_result cpu = 0 then 1 else 0 } := by
  unfold execute_add add_result setZeroFlag
  by_cases h1 : cpu.regs cpu.stage_EX.rs1 = 0
  · simp only [if_pos h1]; split_ifs <;> rfl
  · by_cases h2 : cpu.regs cpu.stage_EX.rs2 = 0
    · simp only [if_neg h1, if_pos h2]; split_ifs <;> rfl
    · simp only [if_neg h1, if_neg h2]; split_ifs <;> rfl

theorem execute_sub_eq (cpu : APEX_CPU) :
    execute_sub cpu =
      { cpu with
        stage_EX := { cpu.stage_EX with buffer := sub_result cpu }
        zeroflag := if sub_result cpu = 0 then 1 else 0 } := by
  unfold execute_sub sub_result setZeroFlag
  by_cases h1 : cpu.stage_EX.rs1 = 0
  · simp only [if_pos h1]; split_ifs <;> rfl
  · by_cases h2 : cpu.stage_EX.rs2 = 0
    · simp only [if_neg h1, if_pos h2]; split_ifs <;> rfl
    · simp only [if_neg h1, if_neg h2]; split_ifs <;> rfl

theorem execute_mul_eq (cpu : APEX_CPU) :
    execute_mul 1 cpu =
      { cpu with
        clock := cpu.clock + 1
        stage_EX := { cpu.stage_EX with
          buffer := cpu.stage_EX.rs1_value * cpu.stage_EX.rs2_value
          stalled := 0 }
        zeroflag := if cpu.stage_EX.rs1_value * cpu.stage_EX.rs2_value = 0 then 1 else 0 } := by
  unfold execute_mul setZeroFlag
  simp only [if_true, show ((1 : Int) + 1 = 2) from rfl]
  split_ifs <;> rfl

/-! ## Frames of the stage operations -/

/-- A property of both branches of a conditional holds of the conditional. -/
theorem ite_pred {α : Type} (P : α → Prop) (c : Prop) [Decidable c] (a b : α)
    (ha : P a) (hb : P b) : P (if c then a else b) := by
  split_ifs
  · exact ha
  · exact hb

theorem writeback_frame (cpu : APEX_CPU) : WritebackFrame cpu (writeback cpu) := by
  rw [writeback_eq]; unfold writeback_commit
  split_ifs <;> constructor <;> rfl

theorem memory_frame (cpu : APEX_CPU) : MemoryFrame cpu (memory cpu) := by
  rw [memory_eq]
  split_ifs <;> constructor <;> rfl

/-- Case analysis on a conditional, keeping the condition. -/
theorem ite_cases {α : Type} (P : α → Prop) (c : Prop) [Decidable c] (a b : α)
    (ha : c → P a) (hb : ¬ c → P b) : P (if c then a else b) := by
  split_ifs with h
  · exact ha h
  · exact hb h

theorem execute_dispatch_frame (cpu : APEX_CPU) : ExecuteFrame cpu (execute_dispatch cpu) := by
  unfold execute_dispatch
  repeat' with_reducible apply ite_pred (ExecuteFrame cpu)
  · constructor <;> rfl
  · constructor <;> rfl
  · constructor <;> rfl
  · rw [execute_add_eq]; constructor <;> rfl
  · rw [execute_sub_eq]; constructor <;> rfl
  · constructor <;> rfl
  · constructor <;> rfl
  · constructor <;> rfl
  · rw [execute_mul_eq]; constructor <;> rfl
  · unfold execute_bz; apply ite_pred (ExecuteFrame cpu) <;> constructor <;> rfl
  · unfold execute_bnz; apply ite_pred (ExecuteFrame cpu) <;> constructor <;> rfl
  · constructor <;> rfl
  · constructor <;> rfl

theorem execute_frame (cpu : APEX_CPU) : ExecuteFrame cpu (execute cpu) := by
  rw [execute_eq]
  have h := execute_dispatch_frame cpu
  split_ifs
  · exact ⟨h.regs, h.regs_valid, h.stage_F, h.stage_DRF, h.stage_WB, h.code_memory,
      h.code_memory_size, h.data_memory, h.ins_completed, h.stage_EX_pc, h.stage_EX_opcode,
      h.stage_EX_rs1, h.stage_EX_rs2, h.stage_EX_rd, h.stage_EX_imm, h.stage_EX_rs1_value,
      h.stage_EX_rs2_value, h.stage_EX_busy⟩
  · constructor <;> rfl

theorem decode_dispatch_frame (cpu : APEX_CPU) : DecodeFrame cpu (decode_dispatch cpu) := by
  unfold decode_dispatch
  repeat' with_reducible apply ite_pred (DecodeFrame cpu)
  · constructor <;> rfl
  · rw [decode_alu_eq]; apply ite_pred (DecodeFrame cpu) <;> constructor <;> rfl
  · rw [decode_load_eq]; constructor <;> rfl
  · constructor <;> rfl
  · constructor <;> rfl
  · constructor <;> rfl

theorem decode_frame (cpu : APEX_CPU) : DecodeFrame cpu (decode cpu) := by
  rw [decode_eq]
  have h := decode_dispatch_frame cpu
  split_ifs
  · exact ⟨h.clock, h.pc, h.regs, h.stage_MEM, h.stage_WB, h.code_memory, h.code_memory_size,
      h.data_memory, h.ins_completed, h.zeroflag, h.stage_F_pc, h.stage_F_opcode, h.stage_F_rs1,
      h.stage_F_rs2, h.stage_F_rd, h.stage_F_imm, h.stage_F_rs1_value, h.stage_F_rs2_value,
      h.stage_F_buffer, h.stage_F_mem_address, h.stage_F_busy, h.stage_DRF_pc,
      h.stage_DRF_opcode, h.stage_DRF_rs1, h.stage_DRF_rs2, h.stage_DRF_rd, h.stage_DRF_imm,
      h.stage_DRF_buffer, h.stage_DRF_mem_address, h.stage_DRF_busy⟩
  · constructor <;> rfl

theorem fetch_frame (cpu : APEX_CPU) : FetchFrame cpu (fetch cpu) := by
  unfold fetch; dsimp only
  split_ifs <;> constructor <;> rfl

@[simp] theorem writeback_clock (cpu : APEX_CPU) : (writeback cpu).clock = cpu.clock := (writeback_frame cpu).clock
@[simp] theorem writeback_pc (cpu : APEX_CPU) : (writeback cpu).pc = cpu.pc := (writeback_frame cpu).pc
@[simp] theorem writeback_stage_EX (cpu : APEX_CPU) : (writeback cpu).stage_EX = cpu.stage_EX := (writeback_frame cpu).stage_EX
@[simp] theorem writeback_stage_MEM (cpu : APEX_CPU) : (writeback cpu).stage_MEM = cpu.stage_MEM := (writeback_frame cpu).stage_MEM
@[simp] theorem writeback_stage_WB (cpu : APEX_CPU) : (writeback cpu).stage_WB = cpu.stage_WB := (writeback_frame cpu).stage_WB
@[simp] theorem writeback_code_memory (cpu : APEX_CPU) : (writeback cpu).code_memory = cpu.code_memory := (writeback_frame cpu).code_memory
@[simp] theorem writeback_code_memory_size (cpu : APEX_CPU) : (writeback cpu).code_memory_size = cpu.code_memory_size := (writeback_frame cpu).code_memory_size
@[simp] theorem writeback_data_memory (cpu : APEX_CPU) : (writeback cpu).data_memory = cpu.data_memory := (writeback_frame cpu).data_memory
@[simp] theorem writeback_zeroflag (cpu : APEX_CPU) : (writeback cpu).zeroflag = cpu.zeroflag := (writeback_frame cpu).zeroflag
@[simp] theorem writeback_stage_F_pc (cpu : APEX_CPU) : (writeback cpu).stage_F.pc = cpu.stage_F.pc := (writeback_frame cpu).stage_F_pc
@[simp] theorem writeback_stage_F_opcode (cpu : APEX_CPU) : (writeback cpu).stage_F.opcode = cpu.stage_F.opcode := (writeback_frame cpu).stage_F_opcode
@[simp] theorem writeback_stage_F_rs1 (cpu : APEX_CPU) : (writeback cpu).stage_F.rs1 = cpu.stage_F.rs1 := (writeback_frame cpu).stage_F_rs1
@[simp] theorem writeback_stage_F_rs2 (cpu : APEX_CPU) : (writeback cpu).stage_F.rs2 = cpu.stage_F.rs2 := (writeback_frame cpu).stage_F_rs2
@[simp] theorem writeback_stage_F_rd (cpu : APEX_CPU) : (writeback cpu).stage_F.rd = cpu.stage_F.rd := (writeback_frame cpu).stage_F_rd
@[simp] theorem writeback_stage_F_imm (cpu : APEX_CPU) : (writeback cpu).stage_F.imm = cpu.stage_F.imm := (writeback_frame cpu).stage_F_imm
@[simp] theorem writeback_stage_F_rs1_value (cpu : APEX_CPU) : (writeback cpu).stage_F.rs1_value = cpu.stage_F.rs1_value := (writeback_frame cpu).stage_F_rs1_value
@[simp] theorem writeback_stage_F_rs2_value (cpu : APEX_CPU) : (writeback cpu).stage_F.rs2_value = cpu.stage_F.rs2_value := (writeback_frame cpu).stage_F_rs2_value
@[simp] theorem writeback_stage_F_buffer (cpu : APEX_CPU) : (writeback cpu).stage_F.buffer = cpu.stage_F.buffer := (writeback_frame cpu).stage_F_buffer
@[simp] theorem writeback_stage_F_mem_address (cpu : APEX_CPU) : (writeback cpu).stage_F.mem_address = cpu.stage_F.mem_address := (writeback_frame cpu).stage_F_mem_address
@[simp] theorem writeback_stage_F_busy (cpu : APEX_CPU) : (writeback cpu).stage_F.busy = cpu.stage_F.busy := (writeback_frame cpu).stage_F_busy
@[simp] theorem writeback_stage_DRF_pc (cpu : APEX_CPU) : (writeback cpu).stage_DRF.pc = cpu.stage_DRF.pc := (writeback_frame cpu).stage_DRF_pc
@[simp] theorem writeback_stage_DRF_opcode (cpu : APEX_CPU) : (writeback cpu).stage_DRF.opcode = cpu.stage_DRF.opcode := (writeback_frame cpu).stage_DRF_opcode
@[simp] theorem writeback_stage_DRF_rs1 (cpu : APEX_CPU) : (writeback cpu).stage_DRF.rs1 = cpu.stage_DRF.rs1 := (writeback_frame cpu).stage_DRF_rs1
@[simp] theorem writeback_stage_DRF_rs2 (cpu : APEX_CPU) : (writeback cpu).stage_DRF.rs2 = cpu.stage_DRF.rs2 := (writeback_frame cpu).stage_DRF_rs2
@[simp] theorem writeback_stage_DRF_rd (cpu : APEX_CPU) : (writeback cpu).stage_DRF.rd = cpu.stage_DRF.rd := (writeback_frame cpu).stage_DRF_rd
@[simp] theorem writeback_stage_DRF_imm (cpu : APEX_CPU) : (writeback cpu).stage_DRF.imm = cpu.stage_DRF.imm := (writeback_frame cpu).stage_DRF_imm
@[simp] theorem writeback_stage_DRF_rs1_value (cpu : APEX_CPU) : (writeback cpu).stage_DRF.rs1_value = cpu.stage_DRF.rs1_value := (writeback_frame cpu).stage_DRF_rs1_value
@[simp] theorem writeback_stage_DRF_rs2_value (cpu : APEX_CPU) : (writeback cpu).stage_DRF.rs2_value = cpu.stage_DRF.rs2_value := (writeback_frame cpu).stage_DRF_rs2_value
@[simp] theorem writeback_stage_DRF_buffer (cpu : APEX_CPU) : (writeback cpu).stage_DRF.buffer = cpu.stage_DRF.buffer := (writeback_frame cpu).stage_DRF_buffer
@[simp] theorem writeback_stage_DRF_mem_address (cpu : APEX_CPU) : (writeback cpu).stage_DRF.mem_address = cpu.stage_DRF.mem_address := (writeback_frame cpu).stage_DRF_mem_address
@[simp] theorem writeback_stage_DRF_busy (cpu : APEX_CPU) : (writeback cpu).stage_DRF.busy = cpu.stage_DRF.busy := (writeback_frame cpu).stage_DRF_busy
@[simp] theorem memory_clock (cpu : APEX_CPU) : (memory cpu).clock = cpu.clock := (memory_frame cpu).clock
@[simp] theorem memory_pc (cpu : APEX_CPU) : (memory cpu).pc = cpu.pc := (memory_frame cpu).pc
@[simp] theorem memory_regs (cpu : APEX_CPU) : (memory cpu).regs = cpu.regs := (memory_frame cpu).regs
@[simp] theorem memory_regs_valid (cpu : APEX_CPU) : (memory cpu).regs_valid = cpu.regs_valid := (memory_frame cpu).regs_valid
@[simp] theorem memory_stage_F (cpu : APEX_CPU) : (memory cpu).stage_F = cpu.stage_F := (memory_frame cpu).stage_F
@[simp] theorem memory_stage_DRF (cpu : APEX_CPU) : (memory cpu).stage_DRF = cpu.stage_DRF := (memory_frame cpu).stage_DRF
@[simp] theorem memory_stage_EX (cpu : APEX_CPU) : (memory cpu).stage_EX = cpu.stage_EX := (memory_frame cpu).stage_EX
@[simp] theorem memory_code_memory (cpu : APEX_CPU) : (memory cpu).code_memory = cpu.code_memory := (memory_frame cpu).code_memory
@[simp] theorem memory_code_memory_size (cpu : APEX_CPU) : (memory cpu).code_memory_size = cpu.code_memory_size := (memory_frame cpu).code_memory_size
@[simp] theorem memory_ins_completed (cpu : APEX_CPU) : (memory cpu).ins_completed = cpu.ins_completed := (memory_frame cpu).ins_completed
@[simp] theorem memory_zeroflag (cpu : APEX_CPU) : (memory cpu).zeroflag = cpu.zeroflag := (memory_frame cpu).zeroflag
@[simp] theorem memory_stage_MEM_pc (cpu : APEX_CPU) : (memory cpu).stage_MEM.pc = cpu.stage_MEM.pc := (memory_frame cpu).stage_MEM_pc
@[simp] theorem memory_stage_MEM_opcode (cpu : APEX_CPU) : (memory cpu).stage_MEM.opcode = cpu.stage_MEM.opcode := (memory_frame cpu).stage_MEM_opcode
@[simp] theorem memory_stage_MEM_rs1 (cpu : APEX_CPU) : (memory cpu).stage_MEM.rs1 = cpu.stage_MEM.rs1 := (memory_frame cpu).stage_MEM_rs1
@[simp] theorem memory_stage_MEM_rs2 (cpu : APEX_CPU) : (memory cpu).stage_MEM.rs2 = cpu.stage_MEM.rs2 := (memory_frame cpu).stage_MEM_rs2
@[simp] theorem memory_stage_MEM_rd (cpu : APEX_CPU) : (memory cpu).stage_MEM.rd = cpu.stage_MEM.rd := (memory_frame cpu).stage_MEM_rd
@[simp] theorem memory_stage_MEM_imm (cpu : APEX_CPU) : (memory cpu).stage_MEM.imm = cpu.stage_MEM.imm := (memory_frame cpu).stage_MEM_imm
@[simp] theorem memory_stage_MEM_rs1_value (cpu : APEX_CPU) : (memory cpu).stage_MEM.rs1_value = cpu.stage_MEM.rs1_value := (memory_frame cpu).stage_MEM_rs1_value
@[simp] theorem memory_stage_MEM_rs2_value (cpu : APEX_CPU) : (memory cpu).stage_MEM.rs2_value = cpu.stage_MEM.rs2_value := (memory_frame cpu).stage_MEM_rs2_value
@[simp] theorem memory_stage_MEM_mem_address (cpu : APEX_CPU) : (memory cpu).stage_MEM.mem_address = cpu.stage_MEM.mem_address := (memory_frame cpu).stage_MEM_mem_address
@[simp] theorem memory_stage_MEM_busy (cpu : APEX_CPU) : (memory cpu).stage_MEM.busy = cpu.stage_MEM.busy := (memory_frame cpu).stage_MEM_busy
@[simp] theorem memory_stage_MEM_stalled (cpu : APEX_CPU) : (memory cpu).stage_MEM.stalled = cpu.stage_MEM.stalled := (memory_frame cpu).stage_MEM_stalled
@[simp] theorem execute_regs (cpu : APEX_CPU) : (execute cpu).regs = cpu.regs := (execute_frame cpu).regs
@[simp] theorem execute_regs_valid (cpu : APEX_CPU) : (execute cpu).regs_valid = cpu.regs_valid := (execute_frame cpu).regs_valid
@[simp] theorem execute_stage_F (cpu : APEX_CPU) : (execute cpu).stage_F = cpu.stage_F := (execute_frame cpu).stage_F
@[simp] theorem execute_stage_DRF (cpu : APEX_CPU) : (execute cpu).stage_DRF = cpu.stage_DRF := (execute_frame cpu).stage_DRF
@[simp] theorem execute_stage_WB (cpu : APEX_CPU) : (execute cpu).stage_WB = cpu.stage_WB := (execute_frame cpu).stage_WB
@[simp] theorem execute_code_memory (cpu : APEX_CPU) : (execute cpu).code_memory = cpu.code_memory := (execute_frame cpu).code_memory
@[simp] theorem execute_code_memory_size (cpu : APEX_CPU) : (execute cpu).code_memory_size = cpu.code_memory_size := (execute_frame cpu).code_memory_size
@[simp] theorem execute_data_memory (cpu : APEX_CPU) : (execute cpu).data_memory = cpu.data_memory := (execute_frame cpu).data_memory
@[simp] theorem execute_ins_completed (cpu : APEX_CPU) : (execute cpu).ins_completed = cpu.ins_completed := (execute_frame cpu).ins_completed
@[simp] theorem execute_stage_EX_pc (cpu : APEX_CPU) : (execute cpu).stage_EX.pc = cpu.stage_EX.pc := (execute_frame cpu).stage_EX_pc
@[simp] theorem execute_stage_EX_opcode (cpu : APEX_CPU) : (execute cpu).stage_EX.opcode = cpu.stage_EX.opcode := (execute_frame cpu).stage_EX_opcode
@[simp] theorem execute_stage_EX_rs1 (cpu : APEX_CPU) : (execute cpu).stage_EX.rs1 = cpu.stage_EX.rs1 := (execute_frame cpu).stage_EX_rs1
@[simp] theorem execute_stage_EX_rs2 (cpu : APEX_CPU) : (execute cpu).stage_EX.rs2 = cpu.stage_EX.rs2 := (execute_frame cpu).stage_EX_rs2
@[simp] theorem execute_stage_EX_rd (cpu : APEX_CPU) : (execute cpu).stage_EX.rd = cpu.stage_EX.rd := (execute_frame cpu).stage_EX_rd
@[simp] theorem execute_stage_EX_imm (cpu : APEX_CPU) : (execute cpu).stage_EX.imm = cpu.stage_EX.imm := (execute_frame cpu).stage_EX_imm
@[simp] theorem execute_stage_EX_rs1_value (cpu : APEX_CPU) : (execute cpu).stage_EX.rs1_value = cpu.stage_EX.rs1_value := (execute_frame cpu).stage_EX_rs1_value
@[simp] theorem execute_stage_EX_rs2_value (cpu : APEX_CPU) : (execute cpu).stage_EX.rs2_value = cpu.stage_EX.rs2_value := (execute_frame cpu).stage_EX_rs2_value
@[simp] theorem execute_stage_EX_busy (cpu : APEX_CPU) : (execute cpu).stage_EX.busy = cpu.stage_EX.busy := (execute_frame cpu).stage_EX_busy
@[simp] theorem decode_clock (cpu : APEX_CPU) : (decode cpu).clock = cpu.clock := (decode_frame cpu).clock
@[simp] theorem decode_pc (cpu : APEX_CPU) : (decode cpu).pc = cpu.pc := (decode_frame cpu).pc
@[simp] theorem decode_regs (cpu : APEX_CPU) : (decode cpu).regs = cpu.regs := (decode_frame cpu).regs
@[simp] theorem decode_stage_MEM (cpu : APEX_CPU) : (decode cpu).stage_MEM = cpu.stage_MEM := (decode_frame cpu).stage_MEM
@[simp] theorem decode_stage_WB (cpu : APEX_CPU) : (decode cpu).stage_WB = cpu.stage_WB := (decode_frame cpu).stage_WB
@[simp] theorem decode_code_memory (cpu : APEX_CPU) : (decode cpu).code_memory = cpu.code_memory := (decode_frame cpu).code_memory
@[simp] theorem decode_code_memory_size (cpu : APEX_CPU) : (decode cpu).code_memory_size = cpu.code_memory_size := (decode_frame cpu).code_memory_size
@[simp] theorem decode_data_memory (cpu : APEX_CPU) : (decode cpu).data_memory = cpu.data_memory := (decode_frame cpu).data_memory
@[simp] theorem decode_ins_completed (cpu : APEX_CPU) : (decode cpu).ins_completed = cpu.ins_completed := (decode_frame cpu).ins_completed
@[simp] theorem decode_zeroflag (cpu : APEX_CPU) : (decode cpu).zeroflag = cpu.zeroflag := (decode_frame cpu).zeroflag
@[simp] theorem decode_stage_F_pc (cpu : APEX_CPU) : (decode cpu).stage_F.pc = cpu.stage_F.pc := (decode_frame cpu).stage_F_pc
@[simp] theorem decode_stage_F_opcode (cpu : APEX_CPU) : (decode cpu).stage_F.opcode = cpu.stage_F.opcode := (decode_frame cpu).stage_F_opcode
@[simp] theorem decode_stage_F_rs1 (cpu : APEX_CPU) : (decode cpu).stage_F.rs1 = cpu.stage_F.rs1 := (decode_frame cpu).stage_F_rs1
@[simp] theorem decode_stage_F_rs2 (cpu : APEX_CPU) : (decode cpu).stage_F.rs2 = cpu.stage_F.rs2 := (decode_frame cpu).stage_F_rs2
@[simp] theorem decode_stage_F_rd (cpu : APEX_CPU) : (decode cpu).stage_F.rd = cpu.stage_F.rd := (decode_frame cpu).stage_F_rd
@[simp] theorem decode_stage_F_imm (cpu : APEX_CPU) : (decode cpu).stage_F.imm = cpu.stage_F.imm := (decode_frame cpu).stage_F_imm
@[simp] theorem decode_stage_F_rs1_value (cpu : APEX_CPU) : (decode cpu).stage_F.rs1_value = cpu.stage_F.rs1_value := (decode_frame cpu).stage_F_rs1_value
@[simp] theorem decode_stage_F_rs2_value (cpu : APEX_CPU) : (decode cpu).stage_F.rs2_value = cpu.stage_F.rs2_value := (decode_frame cpu).stage_F_rs2_value
@[simp] theorem decode_stage_F_buffer (cpu : APEX_CPU) : (decode cpu).stage_F.buffer = cpu.stage_F.buffer := (decode_frame cpu).stage_F_buffer
@[simp] theorem decode_stage_F_mem_address (cpu : APEX_CPU) : (decode cpu).stage_F.mem_address = cpu.stage_F.mem_address := (decode_frame cpu).stage_F_mem_address
@[simp] theorem decode_stage_F_busy (cpu : APEX_CPU) : (decode cpu).stage_F.busy = cpu.stage_F.busy := (decode_frame cpu).stage_F_busy
@[simp] theorem decode_stage_DRF_pc (cpu : APEX_CPU) : (decode cpu).stage_DRF.pc = cpu.stage_DRF.pc := (decode_frame cpu).stage_DRF_pc
@[simp] theorem decode_stage_DRF_opcode (cpu : APEX_CPU) : (decode cpu).stage_DRF.opcode = cpu.stage_DRF.opcode := (decode_frame cpu).stage_DRF_opcode
@[simp] theorem decode_stage_DRF_rs1 (cpu : APEX_CPU) : (decode cpu).stage_DRF.rs1 = cpu.stage_DRF.rs1 := (decode_frame cpu).stage_DRF_rs1
@[simp] theorem decode_stage_DRF_rs2 (cpu : APEX_CPU) : (decode cpu).stage_DRF.rs2 = cpu.stage_DRF.rs2 := (decode_frame cpu).stage_DRF_rs2
@[simp] theorem decode_stage_DRF_rd (cpu : APEX_CPU) : (decode cpu).stage_DRF.rd = cpu.stage_DRF.rd := (decode_frame cpu).stage_DRF_rd
@[simp] theorem decode_stage_DRF_imm (cpu : APEX_CPU) : (decode cpu).stage_DRF.imm = cpu.stage_DRF.imm := (decode_frame cpu).stage_DRF_imm
@[simp] theorem decode_stage_DRF_buffer (cpu : APEX_CPU) : (decode cpu).stage_DRF.buffer = cpu.stage_DRF.buffer := (decode_frame cpu).stage_DRF_buffer
@[simp] theorem decode_stage_DRF_mem_address (cpu : APEX_CPU) : (decode cpu).stage_DRF.mem_address = cpu.stage_DRF.mem_address := (decode_frame cpu).stage_DRF_mem_address
@[simp] theorem decode_stage_DRF_busy (cpu : APEX_CPU) : (decode cpu).stage_DRF.busy = cpu.stage_DRF.busy := (decode_frame cpu).stage_DRF_busy
@[simp] theorem fetch_clock (cpu : APEX_CPU) : (fetch cpu).clock = cpu.clock := (fetch_frame cpu).clock
@[simp] theorem fetch_regs (cpu : APEX_CPU) : (fetch cpu).regs = cpu.regs := (fetch_frame cpu).regs
@[simp] theorem fetch_regs_valid (cpu : APEX_CPU) : (fetch cpu).regs_valid = cpu.regs_valid := (fetch_frame cpu).regs_valid
@[simp] theorem fetch_stage_EX (cpu : APEX_CPU) : (fetch cpu).stage_EX = cpu.stage_EX := (fetch_frame cpu).stage_EX
@[simp] theorem fetch_stage_MEM (cpu : APEX_CPU) : (fetch cpu).stage_MEM = cpu.stage_MEM := (fetch_frame cpu).stage_MEM
@[simp] theorem fetch_stage_WB (cpu : APEX_CPU) : (fetch cpu).stage_WB = cpu.stage_WB := (fetch_frame cpu).stage_WB
@[simp] theorem fetch_code_memory (cpu : APEX_CPU) : (fetch cpu).code_memory = cpu.code_memory := (fetch_frame cpu).code_memory
@[simp] theorem fetch_code_memory_size (cpu : APEX_CPU) : (fetch cpu).code_memory_size = cpu.code_memory_size := (fetch_frame cpu).code_memory_size
@[simp] theorem fetch_data_memory (cpu : APEX_CPU) : (fetch cpu).data_memory = cpu.data_memory := (fetch_frame cpu).data_memory
@[simp] theorem fetch_ins_completed (cpu : APEX_CPU) : (fetch cpu).ins_completed = cpu.ins_completed := (fetch_frame cpu).ins_completed
@[simp] theorem fetch_zeroflag (cpu : APEX_CPU) : (fetch cpu).zeroflag = cpu.zeroflag := (fetch_frame cpu).zeroflag
@[simp] theorem fetch_stage_F_rs1_value (cpu : APEX_CPU) : (fetch cpu).stage_F.rs1_value = cpu.stage_F.rs1_value := (fetch_frame cpu).stage_F_rs1_value
@[simp] theorem fetch_stage_F_rs2_value (cpu : APEX_CPU) : (fetch cpu).stage_F.rs2_value = cpu.stage_F.rs2_value := (fetch_frame cpu).stage_F_rs2_value
@[simp] theorem fetch_stage_F_buffer (cpu : APEX_CPU) : (fetch cpu).stage_F.buffer = cpu.stage_F.buffer := (fetch_frame cpu).stage_F_buffer
@[simp] theorem fetch_stage_F_mem_address (cpu : APEX_CPU) : (fetch cpu).stage_F.mem_address = cpu.stage_F.mem_address := (fetch_frame cpu).stage_F_mem_address
@[simp] theorem fetch_stage_F_busy (cpu : APEX_CPU) : (fetch cpu).stage_F.busy = cpu.stage_F.busy := (fetch_frame cpu).stage_F_busy
@[simp] theorem fetch_stage_F_stalled (cpu : APEX_CPU) : (fetch cpu).stage_F.stalled = cpu.stage_F.stalled := (fetch_frame cpu).stage_F_stalled

/-! ## The dispatch of `decode` and `execute`, opcode by opcode -/

theorem execute_live (cpu : APEX_CPU) (hl : live cpu.stage_EX) :
    execute cpu =
      { execute_dispatch cpu with stage_MEM := (execute_dispatch cpu).stage_EX } := by
  rw [execute_eq, if_pos hl]

theorem execute_bubble (cpu : APEX_CPU) (hl : ¬ live cpu.stage_EX) :
    execute cpu = { cpu with stage_MEM := cpu.stage_EX } := by
  rw [execute_eq, if_neg hl]

theorem decode_live (cpu : APEX_CPU) (hl : live cpu.stage_DRF) :
    decode cpu = { decode_dispatch cpu with stage_EX := (decode_dispatch cpu).stage_DRF } := by
  rw [decode_eq, if_pos hl]

theorem decode_bubble (cpu : APEX_CPU) (hl : ¬ live cpu.stage_DRF) :
    decode cpu = { cpu with stage_EX := cpu.stage_DRF } := by
  rw [decode_eq, if_neg hl]

theorem execute_dispatch_MOVC (cpu : APEX_CPU) (h : cpu.stage_EX.opcode = "MOVC") :
    execute_dispatch cpu =
      { cpu with stage_EX := { cpu.stage_EX with buffer := cpu.stage_EX.imm } } := by
  unfold execute_dispatch; simp [h]

theorem execute_dispatch_STORE (cpu : APEX_CPU) (h : cpu.stage_EX.opcode = "STORE") :
    execute_dispatch cpu =
      { cpu with stage_EX := { cpu.stage_EX with
        mem_address := cpu.stage_EX.rs2_value + cpu.stage_EX.imm } } := by
  unfold execute_dispatch; simp [h]

theorem execute_dispatch_LOAD (cpu : APEX_CPU) (h : cpu.stage_EX.opcode = "LOAD") :
    execute_dispatch cpu =
      { cpu with stage_EX := { cpu.stage_EX with
        mem_address := cpu.stage_EX.rs1_value + cpu.stage_EX.imm } } := by
  unfold execute_dispatch; simp [h]

theorem execute_dispatch_ADD (cpu : APEX_CPU) (h : cpu.stage_EX.opcode = "ADD") :
    execute_dispatch cpu =
      execute_add cpu := by
  unfold execute_dispatch; simp [h]

theorem execute_dispatch_SUB (cpu : APEX_CPU) (h : cpu.stage_EX.opcode = "SUB") :
    execute_dispatch cpu =
      execute_sub cpu := by
  unfold execute_dispatch; simp [h]

theorem execute_dispatch_AND (cpu : APEX_CPU) (h : cpu.stage_EX.opcode = "AND") :
    execute_dispatch cpu =
      { cpu with stage_EX := { cpu.stage_EX with
        buffer := Int.land cpu.stage_EX.rs1_value cpu.stage_EX.rs2_value } } := by
  unfold execute_dispatch; simp [h]

theorem execute_dispatch_OR (cpu : APEX_CPU) (h : cpu.stage_EX.opcode = "OR") :
    execute_dispatch cpu =
      { cpu with stage_EX := { cpu.stage_EX with
        buffer := Int.lor cpu.stage_EX.rs1_value cpu.stage_EX.rs2_value } } := by
  unfold execute_dispatch; simp [h]

theorem execute_dispatch_EXOR (cpu : APEX_CPU) (h : cpu.stage_EX.opcode = "EX-OR") :
    execute_dispatch cpu =
      { cpu with stage_EX := { cpu.stage_EX with
        buffer := Int.xor cpu.stage_EX.rs1_value cpu.stage_EX.rs2_value } } := by
  unfold execute_dispatch; simp [h]

theorem execute_dispatch_MUL (cpu : APEX_CPU) (h : cpu.stage_EX.opcode = "MUL") :
    execute_dispatch cpu =
      execute_mul 1 cpu := by
  unfold execute_dispatch; simp [h]

theorem execute_dispatch_BZ (cpu : APEX_CPU) (h : cpu.stage_EX.opcode = "BZ") :
    execute_dispatch cpu =
      execute_bz cpu := by
  unfold execute_dispatch; simp [h]

theorem execute_dispatch_BNZ (cpu : APEX_CPU) (h : cpu.stage_EX.opcode = "BNZ") :
    execute_dispatch cpu =
      execute_bnz cpu := by
  unfold execute_dispatch; simp [h]

theorem execute_dispatch_JUMP (cpu : APEX_CPU) (h : cpu.stage_EX.opcode = "JUMP") :
    execute_dispatch cpu =
      { cpu with pc := cpu.stage_EX.rs1_value + cpu.stage_EX.imm } := by
  unfold execute_dispatch; simp [h]

theorem execute_dispatch_other (cpu : APEX_CPU)
    (h : cpu.stage_EX.opcode ∉
      ["MOVC", "STORE", "LOAD", "ADD", "SUB", "AND", "OR", "EX-OR", "MUL", "BZ", "BNZ", "JUMP"]) :
    execute_dispatch cpu = cpu := by
  simp only [List.mem_cons, List.mem_singleton, List.not_mem_nil, or_false, not_or] at h
  unfold execute_dispatch; simp [h]

theorem isALU_ne (op : String) (h : isALU op) :
    op ≠ "STORE" ∧ op ≠ "MOVC" ∧ op ≠ "LOAD" ∧ op ≠ "JUMP" ∧ op ≠ "HALT" ∧ op ≠ "BZ"
      ∧ op ≠ "BNZ" := by
  unfold isALU at h
  rcases h with h | h | h | h | h | h <;> rw [h] <;> decide

theorem decode_dispatch_STORE (cpu : APEX_CPU) (h : cpu.stage_DRF.opcode = "STORE") :
    decode_dispatch cpu = decode_store cpu := by
  unfold decode_dispatch; simp [h]

theorem decode_dispatch_ALU (cpu : APEX_CPU) (h : isALU cpu.stage_DRF.opcode) :
    decode_dispatch cpu = decode_alu cpu := by
  unfold decode_dispatch; rw [if_neg (isALU_ne _ h).1, if_pos h]

theorem decode_dispatch_LOAD (cpu : APEX_CPU) (h : cpu.stage_DRF.opcode = "LOAD") :
    decode_dispatch cpu = decode_load cpu := by
  unfold decode_dispatch; simp [h, isALU]

theorem decode_dispatch_JUMP (cpu : APEX_CPU) (h : cpu.stage_DRF.opcode = "JUMP") :
    decode_dispatch cpu = decode_jump cpu := by
  unfold decode_dispatch; simp [h, isALU]

theorem decode_dispatch_HALT (cpu : APEX_CPU) (h : cpu.stage_DRF.opcode = "HALT") :
    decode_dispatch cpu = decode_halt cpu := by
  unfold decode_dispatch; simp [h, isALU]

theorem decode_dispatch_other (cpu : APEX_CPU)
    (h : cpu.stage_DRF.opcode ∉
      ["STORE", "ADD", "SUB", "AND", "OR", "EX-OR", "MUL", "LOAD", "JUMP", "HALT"]) :
    decode_dispatch cpu = cpu := by
  simp only [List.mem_cons, List.mem_singleton, List.not_mem_nil, or_false, not_or] at h
  unfold decode_dispatch; simp [h, isALU]

/-! ## Each stage hands its own latch to the next stage -/

theorem decode_stage_EX (cpu : APEX_CPU) : (decode cpu).stage_EX = (decode cpu).stage_DRF := by
  rw [decode_eq]; split_ifs <;> rfl

theorem execute_stage_MEM (cpu : APEX_CPU) :
    (execute cpu).stage_MEM = (execute cpu).stage_EX := by
  rw [execute_eq]; split_ifs <;> rfl

theorem memory_stage_WB (cpu : APEX_CPU) : (memory cpu).stage_WB = (memory cpu).stage_MEM := by
  rw [memory_eq]; split_ifs <;> rfl

theorem fetch_stage_DRF (cpu : APEX_CPU) : (fetch cpu).stage_DRF = (fetch cpu).stage_F := by
  unfold fetch; dsimp only; split_ifs <;> rfl

/-! ## `decode` reads nothing that `execute` writes -/

/-- What `decode` does to the readiness bits and to the Fetch and Decode latches
depends only on the registers, the readiness bits and those two latches. -/
theorem decode_congr (s t : APEX_CPU) (hr : s.regs = t.regs) (hv : s.regs_valid = t.regs_valid)
    (hF : s.stage_F = t.stage_F) (hD : s.stage_DRF = t.stage_DRF) :
    (decode s).regs_valid = (decode t).regs_valid
    ∧ (decode s).stage_F = (decode t).stage_F
    ∧ (decode s).stage_DRF = (decode t).stage_DRF := by
  obtain ⟨c1, p1, r1, v1, F1, D1, E1, M1, W1, cm1, cs1, dm1, ic1, z1⟩ := s
  obtain ⟨c2, p2, r2, v2, F2, D2, E2, M2, W2, cm2, cs2, dm2, ic2, z2⟩ := t
  simp only at hr hv hF hD
  subst hr hv hF hD
  rw [decode_eq, decode_eq]
  by_cases hl : live D1
  · simp only [if_pos hl]
    unfold decode_dispatch
    simp only [decode_alu_eq, decode_load_eq, decode_store, decode_jump, decode_halt, decode_mark]
    split_ifs <;> exact ⟨rfl, rfl, rfl⟩
  · simp only [if_neg hl]
    exact ⟨trivial, trivial, trivial⟩

/-! ## The fields of the machine after one tick -/

theorem tick_regs (cpu : APEX_CPU) : (tick cpu).regs = (writeback cpu).regs := by
  unfold tick; simp

theorem tick_ins_completed (cpu : APEX_CPU) :
    (tick cpu).ins_completed = (writeback cpu).ins_completed := by
  unfold tick; simp

theorem tick_data_memory (cpu : APEX_CPU) :
    (tick cpu).data_memory = (memory (writeback cpu)).data_memory := by
  unfold tick; simp

theorem tick_stage_WB (cpu : APEX_CPU) :
    (tick cpu).stage_WB = (memory (writeback cpu)).stage_WB := by
  unfold tick; simp

theorem tick_stage_MEM (cpu : APEX_CPU) :
    (tick cpu).stage_MEM = (execute (memory (writeback cpu))).stage_MEM := by
  unfold tick; simp

theorem tick_zeroflag (cpu : APEX_CPU) :
    (tick cpu).zeroflag = (execute (memory (writeback cpu))).zeroflag := by
  unfold tick; simp

theorem tick_clock (cpu : APEX_CPU) :
    (tick cpu).clock = (execute (memory (writeback cpu))).clock + 1 := by
  unfold tick; simp

theorem tick_stage_EX (cpu : APEX_CPU) :
    (tick cpu).stage_EX = (decode (execute (memory (writeback cpu)))).stage_EX := by
  unfold tick; simp

theorem tick_regs_valid (cpu : APEX_CPU) :
    (tick cpu).regs_valid = (decode (execute (memory (writeback cpu)))).regs_valid := by
  unfold tick; simp

theorem tick_pc (cpu : APEX_CPU) :
    (tick cpu).pc = (fetch (decode (execute (memory (writeback cpu))))).pc := rfl

theorem tick_stage_F (cpu : APEX_CPU) :
    (tick cpu).stage_F = (fetch (decode (execute (memory (writeback cpu))))).stage_F := rfl

theorem tick_stage_DRF (cpu : APEX_CPU) : (tick cpu).stage_DRF = (tick cpu).stage_F := by
  unfold tick; exact fetch_stage_DRF _

theorem tick_code_memory (cpu : APEX_CPU) : (tick cpu).code_memory = cpu.code_memory := by
  unfold tick; simp

theorem tick_code_memory_size (cpu : APEX_CPU) :
    (tick cpu).code_memory_size = cpu.code_memory_size := by
  unfold tick; simp

theorem ticks_code_memory (n : Nat) : ∀ cpu : APEX_CPU,
    (ticks n cpu).code_memory = cpu.code_memory := by
  induction n with
  | zero => intro cpu; rfl
  | succ n ih => intro cpu; rw [ticks_succ, tick_code_memory, ih]

theorem ticks_code_memory_size (n : Nat) : ∀ cpu : APEX_CPU,
    (ticks n cpu).code_memory_size = cpu.code_memory_size := by
  induction n with
  | zero => intro cpu; rfl
  | succ n ih => intro cpu; rw [ticks_succ, tick_code_memory_size, ih]

/-! ## `fetch`, with the Fetch latch free and with it busy or stalled -/

theorem fetch_live (cpu : APEX_CPU) (h : cpu.stage_F.busy = 0 ∧ cpu.stage_F.stalled = 0) :
    fetch cpu =
      { cpu with
        pc := cpu.pc + 4
        stage_F := { cpu.stage_F with
          pc := cpu.pc
          opcode := (cpu.code_memory (get_code_index cpu.pc)).opcode
          rd := (cpu.code_memory (get_code_index cpu.pc)).rd
          rs1 := (cpu.code_memory (get_code_index cpu.pc)).rs1
          rs2 := (cpu.code_memory (get_code_index cpu.pc)).rs2
          imm := (cpu.code_memory (get_code_index cpu.pc)).imm }
        stage_DRF := { cpu.stage_F with
          pc := cpu.pc
          opcode := (cpu.code_memory (get_code_index cpu.pc)).opcode
          rd := (cpu.code_memory (get_code_index cpu.pc)).rd
          rs1 := (cpu.code_memory (get_code_index cpu.pc)).rs1
          rs2 := (cpu.code_memory (get_code_index cpu.pc)).rs2
          imm := (cpu.code_memory (get_code_index cpu.pc)).imm } } := by
  unfold fetch; rw [if_pos h]

theorem fetch_held (cpu : APEX_CPU) (h : ¬ (cpu.stage_F.busy = 0 ∧ cpu.stage_F.stalled = 0)) :
    fetch cpu = { cpu with stage_DRF := cpu.stage_F } := by
  unfold fetch; rw [if_neg h]

/-! ## A machine all of whose latches are busy or stalled -/

/-- When no latch is live, a tick only shifts the latches and counts a cycle. -/
theorem tick_allHeld (cpu : APEX_CPU) (h : allHeld cpu) :
    tick cpu =
      { cpu with
        clock := cpu.clock + 1
        stage_DRF := cpu.stage_F
        stage_EX := cpu.stage_DRF
        stage_MEM := cpu.stage_EX
        stage_WB := cpu.stage_MEM } := by
  obtain ⟨hF, hD, hE, hM, hW⟩ := h
  have e1 : writeback cpu = cpu := by rw [writeback_eq, if_neg hW]
  have e2 : memory cpu = { cpu with stage_WB := cpu.stage_MEM } := by
    rw [memory_eq, if_neg hM]
  have e3 : execute { cpu with stage_WB := cpu.stage_MEM }
      = { cpu with stage_WB := cpu.stage_MEM, stage_MEM := cpu.stage_EX } := by
    exact execute_bubble _ hE
  have e4 : decode { cpu with stage_WB := cpu.stage_MEM, stage_MEM := cpu.stage_EX }
      = { cpu with
          stage_WB := cpu.stage_MEM, stage_MEM := cpu.stage_EX, stage_EX := cpu.stage_DRF } := by
    exact decode_bubble _ hD
  have e5 : fetch { cpu with
          stage_WB := cpu.stage_MEM, stage_MEM := cpu.stage_EX, stage_EX := cpu.stage_DRF }
      = { cpu with
          stage_WB := cpu.stage_MEM, stage_MEM := cpu.stage_EX, stage_EX := cpu.stage_DRF,
          stage_DRF := cpu.stage_F } := by
    exact fetch_held _ hF
  show { fetch (decode (execute (memory (writeback cpu)))) with
    clock := (fetch (decode (execute (memory (writeback cpu))))).clock + 1 } = _
  rw [e1, e2, e3, e4, e5]

theorem allHeld_tick (cpu : APEX_CPU) (h : allHeld cpu) : allHeld (tick cpu) := by
  rw [tick_allHeld cpu h]
  obtain ⟨hF, hD, hE, hM, hW⟩ := h
  exact ⟨hF, hF, hD, hE, hM⟩

/-- From a machine with no live latch, no number of ticks changes anything but
the latches behind Fetch and the cycle counter. -/
theorem ticks_allHeld (n : Nat) : ∀ cpu : APEX_CPU, allHeld cpu →
    allHeld (ticks n cpu)
    ∧ (ticks n cpu).ins_completed = cpu.ins_completed
    ∧ (ticks n cpu).regs = cpu.regs
    ∧ (ticks n cpu).regs_valid = cpu.regs_valid
    ∧ (ticks n cpu).data_memory = cpu.data_memory
    ∧ (ticks n cpu).pc = cpu.pc
    ∧ (ticks n cpu).stage_F = cpu.stage_F := by
  induction n with
  | zero => intro cpu h; exact ⟨h, rfl, rfl, rfl, rfl, rfl, rfl⟩
  | succ n ih =>
    intro cpu h
    obtain ⟨a, b, c, d, e, f, g⟩ := ih (tick cpu) (allHeld_tick cpu h)
    have ht := tick_allHeld cpu h
    refine ⟨a, b.trans ?_, c.trans ?_, d.trans ?_, e.trans ?_, f.trans ?_, g.trans ?_⟩ <;>
      rw [ht]

/-! ## The first tick from the reset state -/

/-- The first tick fetches the instruction at 4000 and moves the three bubbles
of the reset state down the pipeline. -/
theorem tick_initState (raw : APEX_CPU) (code : Int → APEX_Instruction) (size : Int) :
    tick (initState raw code size) =
      { initState raw code size with
        clock := raw.clock + 1
        pc := 4004
        stage_F := fetchedLatch 4000 (code 0)
        stage_DRF := fetchedLatch 4000 (code 0) } := by
  have hW : ¬ live (initState raw code size).stage_WB := by
    intro h; exact absurd h.1 (show ¬ ((1 : Int) = 0) by decide)
  have e1 : writeback (initState raw code size) = initState raw code size := by
    rw [writeback_eq, if_neg hW]
  have e2 : memory (initState raw code size) = initState raw code size := by
    rw [memory_eq, if_neg (show ¬ live _ from fun h => absurd h.1 (show ¬ ((1 : Int) = 0) by decide))]; rfl
  have e3 : execute (initState raw code size) = initState raw code size := by
    rw [execute_eq, if_neg (show ¬ live _ from fun h => absurd h.1 (show ¬ ((1 : Int) = 0) by decide))]; rfl
  have e4 : decode (initState raw code size) = initState raw code size := by
    rw [decode_eq, if_neg (show ¬ live _ from fun h => absurd h.1 (show ¬ ((1 : Int) = 0) by decide))]; rfl
  show { fetch (decode (execute (memory (writeback (initState raw code size))))) with
    clock := (fetch (decode (execute (memory (writeback (initState raw code size)))))).clock
      + 1 } = _
  rw [e1, e2, e3, e4, fetch_live _ ⟨rfl, rfl⟩]
  show _ = _
  simp only [initState, get_code_index_4000, fetchedLatch, zeroStage]
  norm_num

/-! ## The Fetch latch during a run -/

theorem tick_stage_F_busy (cpu : APEX_CPU) : (tick cpu).stage_F.busy = cpu.stage_F.busy := by
  rw [tick_stage_F]; simp

/-- The Fetch latch is never busy in a run from reset. -/
theorem ticks_stage_F_busy (n : Nat) : ∀ cpu : APEX_CPU,
    (ticks n cpu).stage_F.busy = cpu.stage_F.busy := by
  induction n with
  | zero => intro cpu; rfl
  | succ n ih => intro cpu; rw [ticks_succ, tick_stage_F_busy, ih]

/-- What `writeback` does to the stalled flags of the Fetch and Decode latches:
it clears both or leaves both. -/
theorem writeback_stalled (cpu : APEX_CPU) :
    ((writeback cpu).stage_F.stalled = 0 ∧ (writeback cpu).stage_DRF.stalled = 0)
    ∨ ((writeback cpu).stage_F.stalled = cpu.stage_F.stalled
        ∧ (writeback cpu).stage_DRF.stalled = cpu.stage_DRF.stalled) := by
  rw [writeback_eq]
  split_ifs
  · exact Or.inl ⟨rfl, rfl⟩
  · exact Or.inr ⟨rfl, rfl⟩
  · exact Or.inr ⟨rfl, rfl⟩

/-- Once the Fetch and Decode latches both hold a `HALT` and are stalled, the
`decode` of the next tick leaves the Fetch latch stalled, so `fetch` does
nothing but copy it into the Decode latch, and the same holds after the tick. -/
theorem halt_hold_step (s : APEX_CPU)
    (hF : s.stage_F.opcode = "HALT" ∧ s.stage_F.busy = 0 ∧ s.stage_F.stalled = 1)
    (hD : s.stage_DRF.opcode = "HALT" ∧ s.stage_DRF.busy = 0 ∧ s.stage_DRF.stalled = 1) :
    (decode (execute (memory (writeback s)))).stage_F.stalled = 1
    ∧ (tick s).stage_F.opcode = "HALT" ∧ (tick s).stage_F.busy = 0
    ∧ (tick s).stage_F.stalled = 1
    ∧ (tick s).stage_DRF.opcode = "HALT" ∧ (tick s).stage_DRF.busy = 0
    ∧ (tick s).stage_DRF.stalled = 1 := by
  have hw := writeback_stalled s
  have wFo : (writeback s).stage_F.opcode = "HALT" := by rw [writeback_stage_F_opcode]; exact hF.1
  have wFb : (writeback s).stage_F.busy = 0 := by rw [writeback_stage_F_busy]; exact hF.2.1
  have wDo : (writeback s).stage_DRF.opcode = "HALT" := by
    rw [writeback_stage_DRF_opcode]; exact hD.1
  have wDb : (writeback s).stage_DRF.busy = 0 := by rw [writeback_stage_DRF_busy]; exact hD.2.1
  have xF : (execute (memory (writeback s))).stage_F = (writeback s).stage_F := by simp
  have xD : (execute (memory (writeback s))).stage_DRF = (writeback s).stage_DRF := by simp
  rw [tick_stage_DRF, tick_stage_F]
  generalize execute (memory (writeback s)) = x at xF xD
  rw [← xF] at wFo wFb hw
  rw [← xD] at wDo wDb hw
  have one : ¬ ((1 : Int) = 0) := by decide
  have hd : (decode x).stage_F.stalled = 1 := by
    by_cases hl : live x.stage_DRF
    · rw [decode_live x hl, decode_dispatch_HALT x wDo]; rfl
    · rw [decode_bubble x hl]
      show x.stage_F.stalled = 1
      rcases hw with ⟨_, h0⟩ | ⟨h1, _⟩
      · exact absurd ⟨wDb, h0⟩ hl
      · rw [h1]; exact hF.2.2
  have hfo : (decode x).stage_F.opcode = "HALT" := by rw [decode_stage_F_opcode]; exact wFo
  have hfb : (decode x).stage_F.busy = 0 := by rw [decode_stage_F_busy]; exact wFb
  have hf : fetch (decode x) = { decode x with stage_DRF := (decode x).stage_F } :=
    fetch_held _ (fun h => one (hd ▸ h.2))
  rw [hf]
  exact ⟨hd, hfo, hfb, hd, hfo, hfb, hd⟩

/-! ## `decode` of an ALU instruction, and the stall it starts -/

theorem decode_alu_pending (x : APEX_CPU) (hl : live x.stage_DRF)
    (hop : isALU x.stage_DRF.opcode)
    (hp : ¬ (x.regs_valid x.stage_DRF.rs1 = 0 ∧ x.regs_valid x.stage_DRF.rs2 = 0)) :
    decode x =
      { x with
        regs_valid := decode_mark x
        stage_F := { x.stage_F with stalled := 1 }
        stage_DRF := { x.stage_DRF with stalled := 1 }
        stage_EX := { x.stage_DRF with stalled := 1 } } := by
  rw [decode_live x hl, decode_dispatch_ALU x hop, decode_alu_eq, if_neg hp]

theorem decode_alu_ready (x : APEX_CPU) (hl : live x.stage_DRF)
    (hop : isALU x.stage_DRF.opcode)
    (hr : x.regs_valid x.stage_DRF.rs1 = 0 ∧ x.regs_valid x.stage_DRF.rs2 = 0) :
    decode x =
      { x with
        regs_valid := decode_mark x
        stage_F := { x.stage_F with stalled := 0 }
        stage_DRF := { x.stage_DRF with
          stalled := 0
          rs1_value := x.regs x.stage_DRF.rs1
          rs2_value := x.regs x.stage_DRF.rs2 }
        stage_EX := { x.stage_DRF with
          stalled := 0
          rs1_value := x.regs x.stage_DRF.rs1
          rs2_value := x.regs x.stage_DRF.rs2 } } := by
  rw [decode_live x hl, decode_dispatch_ALU x hop, decode_alu_eq, if_pos hr]

/-- What `writeback` does to the Fetch and Decode latches and to the readiness
bits: a commit clears the stalled flag of both latches; otherwise the latches
and the readiness bits are left alone. -/
theorem writeback_latches (cpu : APEX_CPU) :
    ((writeback cpu).stage_F = { cpu.stage_F with stalled := 0 }
      ∧ (writeback cpu).stage_DRF = { cpu.stage_DRF with stalled := 0 })
    ∨ ((writeback cpu).stage_F = cpu.stage_F ∧ (writeback cpu).stage_DRF = cpu.stage_DRF
      ∧ (writeback cpu).regs_valid = cpu.regs_valid ∧ (writeback cpu).regs = cpu.regs) := by
  rw [writeback_eq]
  split_ifs
  · exact Or.inl ⟨rfl, rfl⟩
  · exact Or.inr ⟨rfl, rfl, rfl, rfl⟩
  · exact Or.inr ⟨rfl, rfl, rfl, rfl⟩

/-- One tick of a stall: the Fetch and Decode latches hold the same stalled ALU
instruction, the Execute latch is not live, and the sources are still pending
after the `writeback` of the tick.  Then the tick changes neither the Fetch latch
nor the program counter, and the same situation holds after it. -/
theorem stall_step (s : APEX_CPU)
    (hDF : s.stage_DRF = s.stage_F) (hb : s.stage_F.busy = 0) (hst : s.stage_F.stalled = 1)
    (hop : isALU s.stage_F.opcode) (hE : ¬ live s.stage_EX)
    (hp : ¬ ((writeback s).regs_valid s.stage_F.rs1 = 0
      ∧ (writeback s).regs_valid s.stage_F.rs2 = 0)) :
    (tick s).stage_F = s.stage_F ∧ (tick s).stage_DRF = s.stage_F
    ∧ (tick s).pc = s.pc ∧ ¬ live (tick s).stage_EX
    ∧ fetch (decode (execute (memory (writeback s))))
        = { decode (execute (memory (writeback s))) with
            stage_DRF := (decode (execute (memory (writeback s)))).stage_F }
    ∧ (tick s).regs_valid s.stage_F.rs1 = (writeback s).regs_valid s.stage_F.rs1
    ∧ (tick s).regs_valid s.stage_F.rs2 = (writeback s).regs_valid s.stage_F.rs2 := by
  have one : ¬ ((1 : Int) = 0) := by decide
  have hE1 : ¬ live (memory (writeback s)).stage_EX := by simpa using hE
  have hx : execute (memory (writeback s))
      = { memory (writeback s) with stage_MEM := (memory (writeback s)).stage_EX } :=
    execute_bubble _ hE1
  have xF : (execute (memory (writeback s))).stage_F = (writeback s).stage_F := by simp
  have xD : (execute (memory (writeback s))).stage_DRF = (writeback s).stage_DRF := by simp
  have xv : (execute (memory (writeback s))).regs_valid = (writeback s).regs_valid := by simp
  have xpc : (execute (memory (writeback s))).pc = s.pc := by rw [hx]; simp
  rw [tick_stage_DRF, tick_stage_F, tick_pc, tick_stage_EX, tick_regs_valid]
  generalize execute (memory (writeback s)) = x at xF xD xv xpc ⊢
  have key : (decode x).stage_F = s.stage_F ∧ (decode x).stage_EX.stalled = 1
      ∧ (decode x).pc = s.pc
      ∧ (decode x).regs_valid s.stage_F.rs1 = (writeback s).regs_valid s.stage_F.rs1
      ∧ (decode x).regs_valid s.stage_F.rs2 = (writeback s).regs_valid s.stage_F.rs2 := by
    refine ⟨?_, ?_, by rw [decode_pc, xpc], ?_⟩
    · rcases writeback_latches s with ⟨wF, wD⟩ | ⟨wF, wD, _, _⟩
      · have hl : live x.stage_DRF := by rw [xD, wD, hDF]; exact ⟨hb, rfl⟩
        have ho : isALU x.stage_DRF.opcode := by rw [xD, wD, hDF]; exact hop
        have hp1 : ¬ (x.regs_valid x.stage_DRF.rs1 = 0 ∧ x.regs_valid x.stage_DRF.rs2 = 0) := by
          rw [xv, xD, wD, hDF]; exact hp
        rw [decode_alu_pending x hl ho hp1]
        show { x.stage_F with stalled := 1 } = _
        rw [xF, wF]
        cases hF : s.stage_F
        rw [hF] at hst
        simp only at hst ⊢
        rw [hst]
      · have hl : ¬ live x.stage_DRF := by
          rw [xD, wD, hDF]; exact fun h => one (hst ▸ h.2)
        rw [decode_bubble x hl]
        show x.stage_F = _
        rw [xF, wF]
    · rcases writeback_latches s with ⟨wF, wD⟩ | ⟨wF, wD, _, _⟩
      · have hl : live x.stage_DRF := by rw [xD, wD, hDF]; exact ⟨hb, rfl⟩
        have ho : isALU x.stage_DRF.opcode := by rw [xD, wD, hDF]; exact hop
        have hp1 : ¬ (x.regs_valid x.stage_DRF.rs1 = 0 ∧ x.regs_valid x.stage_DRF.rs2 = 0) := by
          rw [xv, xD, wD, hDF]; exact hp
        rw [decode_alu_pending x hl ho hp1]
      · have hl : ¬ live x.stage_DRF := by
          rw [xD, wD, hDF]; exact fun h => one (hst ▸ h.2)
        rw [decode_bubble x hl]
        show x.stage_DRF.stalled = 1
        rw [xD, wD, hDF, hst]
    · rcases writeback_latches s with ⟨wF, wD⟩ | ⟨wF, wD, _, _⟩
      · have hl : live x.stage_DRF := by rw [xD, wD, hDF]; exact ⟨hb, rfl⟩
        have ho : isALU x.stage_DRF.opcode := by rw [xD, wD, hDF]; exact hop
        have hp1 : ¬ (x.regs_valid x.stage_DRF.rs1 = 0 ∧ x.regs_valid x.stage_DRF.rs2 = 0) := by
          rw [xv, xD, wD, hDF]; exact hp
        have r1 : x.stage_DRF.rs1 = s.stage_F.rs1 := by rw [xD, wD, hDF]
        have r2 : x.stage_DRF.rs2 = s.stage_F.rs2 := by rw [xD, wD, hDF]
        have m1 := decode_mark_rs1 x
        have m2 := decode_mark_rs2 x
        rw [r1, xv] at m1
        rw [r2, xv] at m2
        rw [decode_alu_pending x hl ho hp1]
        exact ⟨m1, m2⟩
      · have hl : ¬ live x.stage_DRF := by
          rw [xD, wD, hDF]; exact fun h => one (hst ▸ h.2)
        rw [decode_bubble x hl]
        show x.regs_valid _ = _ ∧ x.regs_valid _ = _
        rw [xv]
        exact ⟨rfl, rfl⟩
  obtain ⟨kF, kE, kpc, kv1, kv2⟩ := key
  have hf : fetch (decode x) = { decode x with stage_DRF := (decode x).stage_F } :=
    fetch_held _ (by rw [kF]; exact fun h => one (hst ▸ h.2))
  rw [hf]
  exact ⟨kF, kF, kpc, fun h => one (kE ▸ h.2), rfl, kv1, kv2⟩

/-- The tick that ends a stall: the sources were pending before the `writeback`
of the tick and are both ready after it.  That `writeback` is a commit, so it
clears the stalled flags; `decode` captures the operand snapshots from the
register file and hands Execute a live latch, and `fetch` fetches again. -/
theorem stall_release (s : APEX_CPU)
    (hDF : s.stage_DRF = s.stage_F) (hb : s.stage_F.busy = 0)
    (hop : isALU s.stage_F.opcode) (hE : ¬ live s.stage_EX)
    (hp : ¬ (s.regs_valid s.stage_F.rs1 = 0 ∧ s.regs_valid s.stage_F.rs2 = 0))
    (hr : (writeback s).regs_valid s.stage_F.rs1 = 0
      ∧ (writeback s).regs_valid s.stage_F.rs2 = 0) :
    (tick s).stage_EX.opcode = s.stage_F.opcode
    ∧ (tick s).stage_EX.busy = 0 ∧ (tick s).stage_EX.stalled = 0
    ∧ (tick s).stage_EX.rs1_value = (writeback s).regs s.stage_F.rs1
    ∧ (tick s).stage_EX.rs2_value = (writeback s).regs s.stage_F.rs2
    ∧ (tick s).pc = s.pc + 4 := by
  have hE1 : ¬ live (memory (writeback s)).stage_EX := by simpa using hE
  have hx : execute (memory (writeback s))
      = { memory (writeback s) with stage_MEM := (memory (writeback s)).stage_EX } :=
    execute_bubble _ hE1
  have xF : (execute (memory (writeback s))).stage_F = (writeback s).stage_F := by simp
  have xD : (execute (memory (writeback s))).stage_DRF = (writeback s).stage_DRF := by simp
  have xv : (execute (memory (writeback s))).regs_valid = (writeback s).regs_valid := by simp
  have xr : (execute (memory (writeback s))).regs = (writeback s).regs := by simp
  have xpc : (execute (memory (writeback s))).pc = s.pc := by rw [hx]; simp
  rw [tick_pc, tick_stage_EX]
  generalize execute (memory (writeback s)) = x at xF xD xv xr xpc ⊢
  rcases writeback_latches s with ⟨wF, wD⟩ | ⟨_, _, wv, _⟩
  · have hl : live x.stage_DRF := by rw [xD, wD, hDF]; exact ⟨hb, rfl⟩
    have ho : isALU x.stage_DRF.opcode := by rw [xD, wD, hDF]; exact hop
    have hr1 : x.regs_valid x.stage_DRF.rs1 = 0 ∧ x.regs_valid x.stage_DRF.rs2 = 0 := by
      rw [xv, xD, wD, hDF]; exact hr
    have hd := decode_alu_ready x hl ho hr1
    have hf := fetch_live (decode x) (by rw [hd]; exact ⟨by rw [xF, wF]; exact hb, rfl⟩)
    rw [hf, hd]
    refine ⟨?_, ?_, rfl, ?_, ?_, ?_⟩
    · show x.stage_DRF.opcode = _
      rw [xD, wD, hDF]
    · show x.stage_DRF.busy = _
      rw [xD, wD, hDF]; exact hb
    · show x.regs x.stage_DRF.rs1 = _
      rw [xr, xD, wD, hDF]
    · show x.regs x.stage_DRF.rs2 = _
      rw [xr, xD, wD, hDF]
    · show x.pc + 4 = _
      rw [xpc]
  · rw [wv] at hr
    exact absurd hr hp

/-! ## Instructions that pass through a stage unchanged -/

theorem memory_pass (s : APEX_CPU)
    (h : s.stage_MEM.opcode ≠ "STORE" ∧ s.stage_MEM.opcode ≠ "LOAD") :
    memory s = { s with stage_WB := s.stage_MEM } := by
  rw [memory_eq, if_neg h.1, if_neg h.2]
  split_ifs <;> rfl

theorem execute_pass (s : APEX_CPU) (h : ¬ live s.stage_EX ∨ s.stage_EX.opcode = "HALT") :
    execute s = { s with stage_MEM := s.stage_EX } := by
  by_cases hl : live s.stage_EX
  · rcases h with h | h
    · exact absurd hl h
    · rw [execute_live s hl, execute_dispatch_other s (by rw [h]; decide)]
  · exact execute_bubble s hl

theorem execute_movc (s : APEX_CPU) (hl : live s.stage_EX) (h : s.stage_EX.opcode = "MOVC") :
    execute s =
      { s with
        stage_EX := { s.stage_EX with buffer := s.stage_EX.imm }
        stage_MEM := { s.stage_EX with buffer := s.stage_EX.imm } } := by
  rw [execute_live s hl, execute_dispatch_MOVC s h]

theorem decode_pass (s : APEX_CPU) (h : ¬ live s.stage_DRF ∨ s.stage_DRF.opcode = "MOVC") :
    decode s = { s with stage_EX := s.stage_DRF } := by
  by_cases hl : live s.stage_DRF
  · rcases h with h | h
    · exact absurd hl h
    · rw [decode_live s hl, decode_dispatch_other s (by rw [h]; decide)]
  · exact decode_bubble s hl

theorem decode_halt_live (s : APEX_CPU) (hl : live s.stage_DRF)
    (h : s.stage_DRF.opcode = "HALT") :
    decode s =
      { s with stage_F := { s.stage_F with stalled := 1 }, stage_EX := s.stage_DRF } := by
  rw [decode_live s hl, decode_dispatch_HALT s h]; rfl

theorem writeback_bubble (s : APEX_CPU) (h : ¬ live s.stage_WB) : writeback s = s := by
  rw [writeback_eq, if_neg h]

theorem writeback_movc (s : APEX_CPU) (hl : live s.stage_WB) (h : s.stage_WB.opcode = "MOVC") :
    writeback s = { writeback_commit s with ins_completed := s.ins_completed + 1 } := by
  rw [writeback_eq, if_pos hl, if_pos (Or.inl h)]

theorem writeback_halt (s : APEX_CPU) (hl : live s.stage_WB) (h : s.stage_WB.opcode = "HALT") :
    writeback s = { s with ins_completed := s.ins_completed + 1 } := by
  rw [writeback_eq, if_pos hl, if_neg (by rw [h]; unfold isRegWriter; decide)]

/-! ## One tick, latch by latch, for instructions that only pass through -/

/-- When the Fetch and Decode latches are not stalled, `writeback` leaves them
alone. -/
theorem writeback_latches_unstalled (s : APEX_CPU)
    (hF : s.stage_F.stalled = 0) (hD : s.stage_DRF.stalled = 0) :
    (writeback s).stage_F = s.stage_F ∧ (writeback s).stage_DRF = s.stage_DRF := by
  rcases writeback_latches s with ⟨wF, wD⟩ | ⟨wF, wD, _, _⟩
  · rw [wF, wD]
    cases hf : s.stage_F
    cases hd : s.stage_DRF
    rw [hf] at hF
    rw [hd] at hD
    simp only at hF hD
    subst hF hD
    exact ⟨rfl, rfl⟩
  · exact ⟨wF, wD⟩

/-- An instruction in the Memory latch that is neither `STORE` nor `LOAD` is
handed to Writeback as it is, and the data memory is left alone. -/
theorem tick_stage_WB_pass (s : APEX_CPU)
    (h : s.stage_MEM.opcode ≠ "STORE" ∧ s.stage_MEM.opcode ≠ "LOAD") :
    (tick s).stage_WB = s.stage_MEM ∧ (tick s).data_memory = s.data_memory := by
  have hw : (writeback s).stage_MEM = s.stage_MEM := writeback_stage_MEM s
  rw [tick_stage_WB, tick_data_memory, memory_pass (writeback s) (by rw [hw]; exact h)]
  exact ⟨hw, writeback_data_memory s⟩

/-- A bubble or a `HALT` in the Execute latch is handed to Memory as it is, and
the program counter is left alone by `execute`. -/
theorem tick_stage_MEM_pass (s : APEX_CPU)
    (h : ¬ live s.stage_EX ∨ s.stage_EX.opcode = "HALT") :
    (tick s).stage_MEM = s.stage_EX ∧ (atDecode s).pc = s.pc := by
  have hE : (memory (writeback s)).stage_EX = s.stage_EX := by simp
  have hp : (memory (writeback s)).pc = s.pc := by simp
  rw [tick_stage_MEM]
  unfold atDecode
  rw [execute_pass (memory (writeback s)) (by rw [hE]; exact h)]
  exact ⟨hE, hp⟩

/-- A live `MOVC` in the Execute latch is handed to Memory with its immediate in
the result buffer, and the program counter is left alone by `execute`. -/
theorem tick_stage_MEM_movc (s : APEX_CPU)
    (hl : live s.stage_EX) (h : s.stage_EX.opcode = "MOVC") :
    (tick s).stage_MEM = { s.stage_EX with buffer := s.stage_EX.imm }
    ∧ (atDecode s).pc = s.pc := by
  have hE : (memory (writeback s)).stage_EX = s.stage_EX := by simp
  have hp : (memory (writeback s)).pc = s.pc := by simp
  rw [tick_stage_MEM]
  unfold atDecode
  rw [execute_movc (memory (writeback s)) (by rw [hE]; exact hl) (by rw [hE]; exact h)]
  exact ⟨by rw [← hE], hp⟩

theorem atDecode_stage_F (s : APEX_CPU) : (atDecode s).stage_F = (writeback s).stage_F := by
  simp [atDecode]

theorem atDecode_stage_DRF (s : APEX_CPU) : (atDecode s).stage_DRF = (writeback s).stage_DRF := by
  simp [atDecode]

theorem atDecode_code_memory (s : APEX_CPU) : (atDecode s).code_memory = s.code_memory := by
  simp [atDecode]

/-- The end of a tick in which `decode` lets a bubble or a `MOVC` through and
the Fetch latch is free: the Decode latch goes to Execute and `fetch` fetches. -/
theorem tick_fetch_pass (s : APEX_CPU)
    (hD : ¬ live (atDecode s).stage_DRF ∨ (atDecode s).stage_DRF.opcode = "MOVC")
    (hF : (atDecode s).stage_F.busy = 0 ∧ (atDecode s).stage_F.stalled = 0) :
    (tick s).stage_EX = (atDecode s).stage_DRF
    ∧ (tick s).pc = (atDecode s).pc + 4
    ∧ (tick s).stage_F =
        { (atDecode s).stage_F with
          pc := (atDecode s).pc
          opcode := (s.code_memory (get_code_index (atDecode s).pc)).opcode
          rd := (s.code_memory (get_code_index (atDecode s).pc)).rd
          rs1 := (s.code_memory (get_code_index (atDecode s).pc)).rs1
          rs2 := (s.code_memory (get_code_index (atDecode s).pc)).rs2
          imm := (s.code_memory (get_code_index (atDecode s).pc)).imm } := by
  have hc := atDecode_code_memory s
  rw [tick_stage_EX, tick_pc, tick_stage_F]
  show (decode (atDecode s)).stage_EX = _ ∧ (fetch (decode (atDecode s))).pc = _
    ∧ (fetch (decode (atDecode s))).stage_F = _
  generalize atDecode s = x at hD hF hc ⊢
  have hf := fetch_live (decode x) (by rw [decode_pass x hD]; exact hF)
  rw [hf, decode_pass x hD]
  refine ⟨rfl, rfl, ?_⟩
  show { x.stage_F with
          pc := x.pc
          opcode := (x.code_memory (get_code_index x.pc)).opcode
          rd := (x.code_memory (get_code_index x.pc)).rd
          rs1 := (x.code_memory (get_code_index x.pc)).rs1
          rs2 := (x.code_memory (get_code_index x.pc)).rs2
          imm := (x.code_memory (get_code_index x.pc)).imm } = _
  rw [hc]

theorem get_code_index_word (i : Int) : get_code_index (4000 + 4 * i) = i := by
  unfold get_code_index
  rw [show 4000 + 4 * i - 4000 = i * 4 by ring]
  exact Int.mul_tdiv_cancel i (by decide)

/-! ## Filling the pipeline with `MOVC` instructions -/

theorem latchOf_neg (code : Int → APEX_Instruction) (j : Int) (h : j < 0) :
    latchOf code j = { zeroStage with busy := 1 } := by
  unfold latchOf; rw [if_pos h]

theorem latchOf_nonneg (code : Int → APEX_Instruction) (j : Int) (h : 0 ≤ j) :
    latchOf code j = fetchedLatch (4000 + 4 * j) (code j) := by
  unfold latchOf; rw [if_neg (by omega)]

theorem latchDone_neg (code : Int → APEX_Instruction) (j : Int) (h : j < 0) :
    latchDone code j = { zeroStage with busy := 1 } := by
  unfold latchDone; rw [if_pos h]

theorem latchDone_nonneg (code : Int → APEX_Instruction) (j : Int) (h : 0 ≤ j) :
    latchDone code j
      = { fetchedLatch (4000 + 4 * j) (code j) with buffer := (code j).imm } := by
  unfold latchDone; rw [if_neg (by omega)]

theorem not_live_busy : ¬ live ({ zeroStage with busy := 1 } : CPU_Stage) := by
  intro h; exact absurd h.1 (show ¬ ((1 : Int) = 0) by decide)

/-- The `writeback` of a tick whose Writeback latch holds a bubble of the reset
state (`t < 4`) or the `MOVC` at index `t - 4`: the registers and the counter
follow the commits in program order. -/
theorem tick_commit (code : Int → APEX_Instruction) (t : Nat) (s : APEX_CPU)
    (hW : s.stage_WB = latchDone code ((t : Int) - 4))
    (hr : s.regs = regsAfter code (t - 4)) (hc : s.ins_completed = ((t - 4 : Nat) : Int))
    (hm : ∀ k : Nat, t = k + 4 → (code k).opcode = "MOVC") :
    (tick s).regs = regsAfter code (t + 1 - 4)
    ∧ (tick s).ins_completed = ((t + 1 - 4 : Nat) : Int) := by
  rw [tick_regs, tick_ins_completed]
  rcases Nat.lt_or_ge t 4 with h4 | h4
  · rw [latchDone_neg code _ (by omega)] at hW
    rw [writeback_bubble s (by rw [hW]; exact not_live_busy), hr, hc]
    rw [show t - 4 = 0 by omega, show t + 1 - 4 = 0 by omega]
    exact ⟨rfl, rfl⟩
  · obtain ⟨k, rfl⟩ : ∃ k, t = k + 4 := ⟨t - 4, by omega⟩
    have e : ((k + 4 : Nat) : Int) - 4 = (k : Int) := by push_cast; ring
    rw [latchDone_nonneg code _ (by omega), e] at hW
    rw [writeback_movc s (by rw [hW]; exact ⟨rfl, rfl⟩) (by rw [hW]; exact hm k rfl)]
    rw [show k + 4 - 4 = k by omega] at hr hc
    rw [show k + 4 + 1 - 4 = k + 1 by omega]
    refine ⟨?_, ?_⟩
    · show arrSet s.regs s.stage_WB.rd s.stage_WB.buffer = _
      rw [hW, hr]; rfl
    · show s.ins_completed + 1 = _
      rw [hc]; push_cast; ring

/-- The reset state satisfies the invariant for `t = 0`. -/
theorem fillInv_zero (raw : APEX_CPU) (code : Int → APEX_Instruction) (N : Nat)
    (hi : raw.ins_completed = 0) :
    FillInv code N 0 (initState raw code N) := by
  constructor
  · rfl
  · rfl
  · rfl
  · exact hi
  · rfl
  · rfl
  · rfl
  · rfl
  · rfl
  · rfl
  · rfl

/-- One tick while the instruction in the Decode latch and all the ones ahead of
it are `MOVC`. -/
theorem fill_step (code : Int → APEX_Instruction) (N t : Nat) (s : APEX_CPU)
    (ht : t < N) (hm : ∀ i : Nat, i + 1 < N → (code i).opcode = "MOVC")
    (h : FillInv code N t s) : FillInv code N (t + 1) (tick s) := by
  have hF0 : s.stage_F.busy = 0 ∧ s.stage_F.stalled = 0 := by
    rw [h.stage_F]; split_ifs <;> exact ⟨rfl, rfl⟩
  have hD0 : s.stage_DRF.stalled = 0 := by
    rw [h.stage_DRF]; unfold latchOf; split_ifs <;> rfl
  obtain ⟨wF, wD⟩ := writeback_latches_unstalled s hF0.2 hD0
  -- the Memory latch goes to Writeback
  have hMop : s.stage_MEM.opcode ≠ "STORE" ∧ s.stage_MEM.opcode ≠ "LOAD" := by
    rw [h.stage_MEM]
    rcases Int.lt_or_le ((t : Int) - 3) 0 with hj | hj
    · rw [latchDone_neg code _ hj]; exact ⟨by decide, by decide⟩
    · rw [latchDone_nonneg code _ hj]
      obtain ⟨k, rfl⟩ : ∃ k, t = k + 3 := ⟨t - 3, by omega⟩
      have e : ((k + 3 : Nat) : Int) - 3 = (k : Int) := by push_cast; ring
      rw [e]
      show (code k).opcode ≠ "STORE" ∧ (code k).opcode ≠ "LOAD"
      rw [hm k (by omega)]; exact ⟨by decide, by decide⟩
  obtain ⟨tW, tdm⟩ := tick_stage_WB_pass s hMop
  -- the Execute latch goes to Memory
  have tM : (tick s).stage_MEM = latchDone code ((t : Int) - 2) ∧ (atDecode s).pc = s.pc := by
    rcases Int.lt_or_le ((t : Int) - 2) 0 with hj | hj
    · have hE := h.stage_EX
      rw [latchOf_neg code _ hj] at hE
      obtain ⟨a, b⟩ := tick_stage_MEM_pass s (Or.inl (by rw [hE]; exact not_live_busy))
      rw [latchDone_neg code _ hj]
      exact ⟨a.trans hE, b⟩
    · have hE := h.stage_EX
      rw [latchOf_nonneg code _ hj] at hE
      obtain ⟨k, rfl⟩ : ∃ k, t = k + 2 := ⟨t - 2, by omega⟩
      have e : ((k + 2 : Nat) : Int) - 2 = (k : Int) := by push_cast; ring
      rw [e] at hE
      obtain ⟨a, b⟩ := tick_stage_MEM_movc s (by rw [hE]; exact ⟨rfl, rfl⟩)
        (by rw [hE]; exact hm k (by omega))
      rw [latchDone_nonneg code _ hj, e]
      rw [hE] at a
      exact ⟨a, b⟩
  obtain ⟨tM, xpc⟩ := tM
  -- the Decode latch goes to Execute, and `fetch` fetches instruction `t`
  have xD : (atDecode s).stage_DRF = latchOf code ((t : Int) - 1) := by
    rw [atDecode_stage_DRF, wD, h.stage_DRF]
  have xF : (atDecode s).stage_F = s.stage_F := by rw [atDecode_stage_F, wF]
  have hDp : ¬ live (atDecode s).stage_DRF ∨ (atDecode s).stage_DRF.opcode = "MOVC" := by
    rw [xD]
    rcases Int.lt_or_le ((t : Int) - 1) 0 with hj | hj
    · rw [latchOf_neg code _ hj]; exact Or.inl not_live_busy
    · rw [latchOf_nonneg code _ hj]
      obtain ⟨k, rfl⟩ : ∃ k, t = k + 1 := ⟨t - 1, by omega⟩
      have e : ((k + 1 : Nat) : Int) - 1 = (k : Int) := by push_cast; ring
      rw [e]
      exact Or.inr (hm k (by omega))
  obtain ⟨tE, tpc, tF⟩ := tick_fetch_pass s hDp (by rw [xF]; exact hF0)
  rw [xpc, h.pc] at tpc tF
  rw [xF, h.code_memory, get_code_index_word] at tF
  have tF1 : (tick s).stage_F = fetchedLatch (4000 + 4 * (t : Int)) (code (t : Int)) := by
    rw [tF, h.stage_F]
    split_ifs <;> rfl
  have e1 : (((t + 1 : Nat) : Int) - 1) = (t : Int) := by push_cast; ring
  -- the registers and the counter
  have tR := tick_commit code t s h.stage_WB h.regs h.ins_completed
    (fun k hk => hm k (by omega))
  constructor
  · rw [tick_code_memory, h.code_memory]
  · rw [tick_code_memory_size, h.code_memory_size]
  · rw [tpc]; push_cast; ring
  · exact tR.2
  · exact tR.1
  · rw [tdm, h.data_memory]
  · rw [if_neg (Nat.succ_ne_zero t), e1]; exact tF1
  · rw [tick_stage_DRF, e1, latchOf_nonneg code _ (by omega)]; exact tF1
  · rw [tE, xD]
    congr 1; push_cast; ring
  · rw [tM]
    congr 1; push_cast; ring
  · rw [tW, h.stage_MEM]
    congr 1; push_cast; ring

/-- The pipeline invariant holds after each of the first `N` ticks of a run from
reset when the first `N - 1` instructions are `MOVC`. -/
theorem fillInv_ticks (raw : APEX_CPU) (code : Int → APEX_Instruction) (N : Nat)
    (hi : raw.ins_completed = 0)
    (hm : ∀ i : Nat, i + 1 < N → (code i).opcode = "MOVC") :
    ∀ t, t ≤ N → FillInv code N t (ticks t (initState raw code N)) := by
  intro t
  induction t with
  | zero => intro _; exact fillInv_zero raw code N hi
  | succ t ih =>
    intro ht
    rw [ticks_succ]
    exact fill_step code N t _ (by omega) hm (ih (by omega))

/-! ## Draining the pipeline once the `HALT` has been fetched -/

/-- The latch handed to Memory when the Execute latch holds a bubble of the
reset state or the `MOVC` at index `j`. -/
theorem tick_stage_MEM_latchOf (code : Int → APEX_Instruction) (j : Int) (s : APEX_CPU)
    (hE : s.stage_EX = latchOf code j) (hm : 0 ≤ j → (code j).opcode = "MOVC") :
    (tick s).stage_MEM = latchDone code j := by
  rcases Int.lt_or_le j 0 with hj | hj
  · rw [latchOf_neg code _ hj] at hE
    rw [latchDone_neg code _ hj,
      (tick_stage_MEM_pass s (Or.inl (by rw [hE]; exact not_live_busy))).1, hE]
  · rw [latchOf_nonneg code _ hj] at hE
    rw [latchDone_nonneg code _ hj,
      (tick_stage_MEM_movc s (by rw [hE]; exact ⟨rfl, rfl⟩) (by rw [hE]; exact hm hj)).1, hE]
    rfl

/-- The latch handed to Writeback when the Memory latch holds a bubble of the
reset state or the `MOVC` at index `j`. -/
theorem tick_stage_WB_latchDone (code : Int → APEX_Instruction) (j : Int) (s : APEX_CPU)
    (hM : s.stage_MEM = latchDone code j) (hm : 0 ≤ j → (code j).opcode = "MOVC") :
    (tick s).stage_WB = latchDone code j ∧ (tick s).data_memory = s.data_memory := by
  have hop : s.stage_MEM.opcode ≠ "STORE" ∧ s.stage_MEM.opcode ≠ "LOAD" := by
    rw [hM]
    rcases Int.lt_or_le j 0 with hj | hj
    · rw [latchDone_neg code _ hj]; exact ⟨by decide, by decide⟩
    · rw [latchDone_nonneg code _ hj]
      show (code j).opcode ≠ "STORE" ∧ (code j).opcode ≠ "LOAD"
      rw [hm hj]; exact ⟨by decide, by decide⟩
  obtain ⟨a, b⟩ := tick_stage_WB_pass s hop
  exact ⟨a.trans hM, b⟩

/-- A `HALT` in the Memory latch is handed to Writeback as it is. -/
theorem tick_stage_WB_halt (s : APEX_CPU) (h : s.stage_MEM.opcode = "HALT") :
    (tick s).stage_WB = s.stage_MEM ∧ (tick s).data_memory = s.data_memory :=
  tick_stage_WB_pass s (by rw [h]; exact ⟨by decide, by decide⟩)

/-- A live `HALT` in the Decode latch is handed to Execute as it is. -/
theorem tick_stage_EX_halt (s : APEX_CPU) (hF : s.stage_F.stalled = 0)
    (hD : s.stage_DRF.busy = 0 ∧ s.stage_DRF.stalled = 0) (h : s.stage_DRF.opcode = "HALT") :
    (tick s).stage_EX = s.stage_DRF := by
  obtain ⟨_, wD⟩ := writeback_latches_unstalled s hF hD.2
  have xD : (atDecode s).stage_DRF = s.stage_DRF := by rw [atDecode_stage_DRF, wD]
  rw [tick_stage_EX]
  show (decode (atDecode s)).stage_EX = _
  rw [decode_halt_live (atDecode s) (by rw [xD]; exact hD) (by rw [xD]; exact h)]
  exact xD

/-- The writeback of a live `HALT` only counts it. -/
theorem tick_commit_halt (s : APEX_CPU) (hl : live s.stage_WB)
    (h : s.stage_WB.opcode = "HALT") :
    (tick s).regs = s.regs ∧ (tick s).ins_completed = s.ins_completed + 1 := by
  rw [tick_regs, tick_ins_completed, writeback_halt s hl h]
  exact ⟨rfl, rfl⟩

/-! ## C1: the end-to-end scenario -/

/-- The completed-instruction counter of the end-to-end program after each of
its first ten ticks, `0,0,0,0,0,1,2,2,2,3,4`, and the registers and the data
memory after the tenth. -/
theorem endToEnd_trace (raw : APEX_CPU) (code : Int → APEX_Instruction)
    (hi : raw.ins_completed = 0)
    (h0 : (code 0).opcode = "MOVC" ∧ (code 0).rd = 0 ∧ (code 0).imm = 3)
    (h1 : (code 1).opcode = "MOVC" ∧ (code 1).rd = 1 ∧ (code 1).imm = 4)
    (h2 : (code 2).opcode = "ADD" ∧ (code 2).rd = 2 ∧ (code 2).rs1 = 0 ∧ (code 2).rs2 = 1)
    (h3 : (code 3).opcode = "HALT") :
    (ticks 0 (initState raw code 4)).ins_completed = 0
    ∧ (ticks 1 (initState raw code 4)).ins_completed = 0
    ∧ (ticks 2 (initState raw code 4)).ins_completed = 0
    ∧ (ticks 3 (initState raw code 4)).ins_completed = 0
    ∧ (ticks 4 (initState raw code 4)).ins_completed = 0
    ∧ (ticks 5 (initState raw code 4)).ins_completed = 1
    ∧ (ticks 6 (initState raw code 4)).ins_completed = 2
    ∧ (ticks 7 (initState raw code 4)).ins_completed = 2
    ∧ (ticks 8 (initState raw code 4)).ins_completed = 2
    ∧ (ticks 9 (initState raw code 4)).ins_completed = 3
    ∧ (ticks 10 (initState raw code 4)).ins_completed = 4
    ∧ (ticks 10 (initState raw code 4)).regs 0 = 3
    ∧ (ticks 10 (initState raw code 4)).regs 1 = 4
    ∧ (ticks 10 (initState raw code 4)).regs 2 = 7
    ∧ ∀ a, (ticks 10 (initState raw code 4)).data_memory a = 0 := by
  obtain ⟨h0a, h0b, h0c⟩ := h0
  obtain ⟨h1a, h1b, h1c⟩ := h1
  obtain ⟨h2a, h2b, h2c, h2d⟩ := h2
  simp [ticks, tick, initState, zeroStage, memsetOnes, writeback, writeback_commit, memory,
    execute, decode, fetch, decode_alu, decode_halt, execute_add, setZeroFlag, arrSet,
    get_code_index_4000, get_code_index_4004, get_code_index_4008, get_code_index_4012, *]

/-- C1. The program `[MOVC R0,#3; MOVC R1,#4; ADD R2,R0,R1; HALT]`, loaded at
4000, 4004, 4008 and 4012 (whatever the operand fields the instructions do not
use hold, and whatever lies in code memory past the program), run from the reset
state with the cycle counter, the completed-instruction counter and the zero flag
at 0, terminates: the loop exits after exactly ten ticks (less fuel does not
reach the exit, ten ticks or more do), with the completed-instruction counter at
4, R0 = 3, R1 = 4, R2 = 7 and every data-memory cell still 0. -/
theorem end_to_end_scenario (raw : APEX_CPU) (code : Int → APEX_Instruction)
    (hc : raw.clock = 0) (hi : raw.ins_completed = 0) (hz : raw.zeroflag = 0)
    (h0 : (code 0).opcode = "MOVC" ∧ (code 0).rd = 0 ∧ (code 0).imm = 3)
    (h1 : (code 1).opcode = "MOVC" ∧ (code 1).rd = 1 ∧ (code 1).imm = 4)
    (h2 : (code 2).opcode = "ADD" ∧ (code 2).rd = 2 ∧ (code 2).rs1 = 0 ∧ (code 2).rs2 = 1)
    (h3 : (code 3).opcode = "HALT") :
    ∃ final : APEX_CPU,
      (∀ fuel, 10 ≤ fuel → APEX_cpu_run fuel (initState raw code 4) = some final)
      ∧ (∀ fuel, fuel < 10 → APEX_cpu_run fuel (initState raw code 4) = none)
      ∧ final.ins_completed = 4
      ∧ final.regs 0 = 3 ∧ final.regs 1 = 4 ∧ final.regs 2 = 7
      ∧ ∀ a, final.data_memory a = 0 := by
  obtain ⟨t0, t1, t2, t3, t4, t5, t6, t7, t8, t9, t10, r0, r1, r2, dm⟩ :=
    endToEnd_trace raw code hi h0 h1 h2 h3
  have hsz : ∀ k, (ticks k (initState raw code 4)).code_memory_size = 4 := by
    intro k; rw [ticks_code_memory_size]; rfl
  have hlt : ∀ k, k < 10 →
      (ticks k (initState raw code 4)).ins_completed
        ≠ (ticks k (initState raw code 4)).code_memory_size := by
    intro k hk
    rw [hsz]
    interval_cases k
    · rw [t0]; decide
    · rw [t1]; decide
    · rw [t2]; decide
    · rw [t3]; decide
    · rw [t4]; decide
    · rw [t5]; decide
    · rw [t6]; decide
    · rw [t7]; decide
    · rw [t8]; decide
    · rw [t9]; decide
  refine ⟨ticks 10 (initState raw code 4), ?_, ?_, t10, r0, r1, r2, dm⟩
  · exact APEX_cpu_run_of_ticks 10 _ hlt (by rw [hsz, t10])
  · intro fuel hf
    exact APEX_cpu_run_none fuel _ (fun k hk => hlt k (by omega))

/-- C1 at the concrete program, loaded into a zeroed block: ten ticks of fuel
reach the exit, nine do not. -/
theorem end_to_end_scenario_witness :
    ∃ final : APEX_CPU,
      APEX_cpu_run 10 (initState zeroCPU endToEndProgram 4) = some final
      ∧ APEX_cpu_run 9 (initState zeroCPU endToEndProgram 4) = none
      ∧ final.ins_completed = 4
      ∧ final.regs 0 = 3 ∧ final.regs 1 = 4 ∧ final.regs 2 = 7 :=
  have h := end_to_end_scenario zeroCPU endToEndProgram rfl rfl rfl
    (by decide) (by decide) (by decide) (by decide)
  h.elim fun final hf =>
    ⟨final, hf.1 10 (Nat.le_refl 10), hf.2.1 9 (by decide), hf.2.2.1, hf.2.2.2.1,
      hf.2.2.2.2.1, hf.2.2.2.2.2.1⟩

/-! ## C2: stall correctness -/

/-- In a run from reset, the Decode latch is a copy of the Fetch latch whenever
it is not busy, also after the `writeback`, `memory` and `execute` of the next
tick. -/
theorem atDecode_latches (raw : APEX_CPU) (code : Int → APEX_Instruction) (size : Int) (n : Nat)
    (hb : (atDecode (ticks n (initState raw code size))).stage_DRF.busy = 0) :
    (atDecode (ticks n (initState raw code size))).stage_F
      = (atDecode (ticks n (initState raw code size))).stage_DRF := by
  have one : ¬ ((1 : Int) = 0) := by decide
  have xF : ∀ s : APEX_CPU, (atDecode s).stage_F = (writeback s).stage_F := by
    intro s; simp [atDecode]
  have xD : ∀ s : APEX_CPU, (atDecode s).stage_DRF = (writeback s).stage_DRF := by
    intro s; simp [atDecode]
  rw [xD] at hb
  rw [xF, xD]
  cases n with
  | zero =>
    exfalso
    rw [writeback_stage_DRF_busy] at hb
    exact one hb
  | succ m =>
    have hDF := tick_stage_DRF (ticks m (initState raw code size))
    rw [← ticks_succ] at hDF
    rcases writeback_latches (ticks (m + 1) (initState raw code size)) with
      ⟨wF, wD⟩ | ⟨wF, wD, _, _⟩
    · rw [wF, wD, hDF]
    · rw [wF, wD, hDF]

/-- C2. Stall correctness: in a run from reset, suppose that in tick `n + 1`
`decode` processes (Decode latch neither busy nor stalled) an `ADD`, `SUB`,
`AND`, `OR`, `EX-OR` or `MUL` whose `rs1` or `rs2` readiness bit is non-zero.
Then (1) `decode` sets `stalled` on the Fetch and Decode latches, leaves the
operand snapshots of the latch and every register as they were, and hands
Execute a stalled latch, and the `fetch` of that tick only copies the Fetch
latch into the Decode latch (no fetch, no program-counter advance); (2) as long
as the source bits are not both 0 after the `writeback` of each later tick, at
the end of that tick the Fetch and Decode latches are still stalled and are the
latches the stalling tick left (so no snapshot has been captured), and the
program counter has not moved; (3) in the first tick whose `writeback` leaves
both source bits 0, `decode` captures the two snapshots from the register file
and hands Execute a live latch, and `fetch` advances the program counter. -/
theorem stall_correctness (raw : APEX_CPU) (code : Int → APEX_Instruction) (size : Int)
    (n : Nat)
    (hb : (atDecode (ticks n (initState raw code size))).stage_DRF.busy = 0)
    (hs : (atDecode (ticks n (initState raw code size))).stage_DRF.stalled = 0)
    (hop : (atDecode (ticks n (initState raw code size))).stage_DRF.opcode
      ∈ ["ADD", "SUB", "AND", "OR", "EX-OR", "MUL"])
    (hpend : (atDecode (ticks n (initState raw code size))).regs_valid
        (atDecode (ticks n (initState raw code size))).stage_DRF.rs1 ≠ 0
      ∨ (atDecode (ticks n (initState raw code size))).regs_valid
        (atDecode (ticks n (initState raw code size))).stage_DRF.rs2 ≠ 0) :
    ((decode (atDecode (ticks n (initState raw code size)))).stage_F.stalled = 1
      ∧ (decode (atDecode (ticks n (initState raw code size)))).stage_DRF.stalled = 1
      ∧ (decode (atDecode (ticks n (initState raw code size)))).stage_DRF.rs1_value
          = (atDecode (ticks n (initState raw code size))).stage_DRF.rs1_value
      ∧ (decode (atDecode (ticks n (initState raw code size)))).stage_DRF.rs2_value
          = (atDecode (ticks n (initState raw code size))).stage_DRF.rs2_value
      ∧ (decode (atDecode (ticks n (initState raw code size)))).regs
          = (atDecode (ticks n (initState raw code size))).regs
      ∧ (decode (atDecode (ticks n (initState raw code size)))).stage_EX.stalled = 1
      ∧ fetch (decode (atDecode (ticks n (initState raw code size))))
          = { decode (atDecode (ticks n (initState raw code size))) with
              stage_DRF := (decode (atDecode (ticks n (initState raw code size)))).stage_F })
    ∧ ∀ k,
      (∀ j, j < k →
        ¬ ((writeback (ticks (n + 1 + j) (initState raw code size))).regs_valid
              (atDecode (ticks n (initState raw code size))).stage_DRF.rs1 = 0
          ∧ (writeback (ticks (n + 1 + j) (initState raw code size))).regs_valid
              (atDecode (ticks n (initState raw code size))).stage_DRF.rs2 = 0)) →
      ((ticks (n + 1 + k) (initState raw code size)).stage_F.stalled = 1
        ∧ (ticks (n + 1 + k) (initState raw code size)).stage_DRF.stalled = 1
        ∧ (ticks (n + 1 + k) (initState raw code size)).stage_F
            = (ticks (n + 1) (initState raw code size)).stage_F
        ∧ (ticks (n + 1 + k) (initState raw code size)).stage_DRF
            = (ticks (n + 1) (initState raw code size)).stage_DRF
        ∧ (ticks (n + 1 + k) (initState raw code size)).pc
            = (ticks (n + 1) (initState raw code size)).pc)
      ∧ ((writeback (ticks (n + 1 + k) (initState raw code size))).regs_valid
              (atDecode (ticks n (initState raw code size))).stage_DRF.rs1 = 0
          ∧ (writeback (ticks (n + 1 + k) (initState raw code size))).regs_valid
              (atDecode (ticks n (initState raw code size))).stage_DRF.rs2 = 0 →
        (ticks (n + 1 + k + 1) (initState raw code size)).stage_EX.opcode
            = (atDecode (ticks n (initState raw code size))).stage_DRF.opcode
        ∧ (ticks (n + 1 + k + 1) (initState raw code size)).stage_EX.busy = 0
        ∧ (ticks (n + 1 + k + 1) (initState raw code size)).stage_EX.stalled = 0
        ∧ (ticks (n + 1 + k + 1) (initState raw code size)).stage_EX.rs1_value
            = (writeback (ticks (n + 1 + k) (initState raw code size))).regs
                (atDecode (ticks n (initState raw code size))).stage_DRF.rs1
        ∧ (ticks (n + 1 + k + 1) (initState raw code size)).stage_EX.rs2_value
            = (writeback (ticks (n + 1 + k) (initState raw code size))).regs
                (atDecode (ticks n (initState raw code size))).stage_DRF.rs2
        ∧ (ticks (n + 1 + k + 1) (initState raw code size)).pc
            = (ticks (n + 1) (initState raw code size)).pc + 4) := by
  have one : ¬ ((1 : Int) = 0) := by decide
  have ha : isALU (atDecode (ticks n (initState raw code size))).stage_DRF.opcode := by
    simp only [List.mem_cons, List.mem_singleton, List.not_mem_nil, or_false] at hop
    exact hop
  have hFD := atDecode_latches raw code size n hb
  have hp : ¬ ((atDecode (ticks n (initState raw code size))).regs_valid
        (atDecode (ticks n (initState raw code size))).stage_DRF.rs1 = 0
      ∧ (atDecode (ticks n (initState raw code size))).regs_valid
        (atDecode (ticks n (initState raw code size))).stage_DRF.rs2 = 0) := by
    intro h; rcases hpend with h1 | h2
    · exact h1 h.1
    · exact h2 h.2
  have hd := decode_alu_pending _ ⟨hb, hs⟩ ha hp
  have hf : fetch (decode (atDecode (ticks n (initState raw code size))))
      = { decode (atDecode (ticks n (initState raw code size))) with
          stage_DRF := (decode (atDecode (ticks n (initState raw code size)))).stage_F } :=
    fetch_held _ (by rw [hd]; exact fun h => one h.2)
  -- the machine at the end of the stalling tick
  have t1 : ticks (n + 1) (initState raw code size)
      = { fetch (decode (atDecode (ticks n (initState raw code size)))) with
          clock := (fetch (decode (atDecode (ticks n (initState raw code size))))).clock + 1 } := by
    rw [ticks_succ]; rfl
  have m1 := decode_mark_rs1 (atDecode (ticks n (initState raw code size)))
  have m2 := decode_mark_rs2 (atDecode (ticks n (initState raw code size)))
  generalize atDecode (ticks n (initState raw code size)) = x at *
  have s1F : (ticks (n + 1) (initState raw code size)).stage_F
      = { x.stage_DRF with stalled := 1 } := by
    rw [t1, hf, hd]; show { x.stage_F with stalled := 1 } = _; rw [hFD]
  have s1D : (ticks (n + 1) (initState raw code size)).stage_DRF
      = (ticks (n + 1) (initState raw code size)).stage_F := by
    rw [ticks_succ, tick_stage_DRF]
  have s1E : (ticks (n + 1) (initState raw code size)).stage_EX.stalled = 1 := by
    rw [t1, hf, hd]
  have s1v : (ticks (n + 1) (initState raw code size)).regs_valid = decode_mark x := by
    rw [t1, hf, hd]
  refine ⟨?_, ?_⟩
  · rw [hd]
    exact ⟨rfl, rfl, rfl, rfl, rfl, rfl, by rw [← hd]; exact hf⟩
  · generalize hs1 : ticks (n + 1) (initState raw code size) = s1 at *
    have inv : ∀ k, (∀ j, j < k →
        ¬ ((writeback (ticks (n + 1 + j) (initState raw code size))).regs_valid
              x.stage_DRF.rs1 = 0
          ∧ (writeback (ticks (n + 1 + j) (initState raw code size))).regs_valid
              x.stage_DRF.rs2 = 0)) →
        (ticks (n + 1 + k) (initState raw code size)).stage_F = s1.stage_F
        ∧ (ticks (n + 1 + k) (initState raw code size)).stage_DRF = s1.stage_F
        ∧ (ticks (n + 1 + k) (initState raw code size)).pc = s1.pc
        ∧ ¬ live (ticks (n + 1 + k) (initState raw code size)).stage_EX
        ∧ ¬ ((ticks (n + 1 + k) (initState raw code size)).regs_valid x.stage_DRF.rs1 = 0
          ∧ (ticks (n + 1 + k) (initState raw code size)).regs_valid x.stage_DRF.rs2 = 0) := by
      intro k
      induction k with
      | zero =>
        intro _
        rw [show n + 1 + 0 = n + 1 from rfl, hs1]
        refine ⟨rfl, s1D, rfl, fun h => one (s1E ▸ h.2), ?_⟩
        rw [s1v, m1, m2]; exact hp
      | succ k ih =>
        intro hj
        obtain ⟨iF, iD, ipc, iE, iv⟩ := ih (fun j hjk => hj j (Nat.lt_succ_of_lt hjk))
        have hk := hj k (Nat.lt_succ_self k)
        have st := stall_step (ticks (n + 1 + k) (initState raw code size))
          (by rw [iD, iF]) (by rw [iF, s1F]; exact hb) (by rw [iF, s1F]) (by rw [iF, s1F]; exact ha)
          iE (by rw [iF, s1F]; exact hk)
        rw [← ticks_succ] at st
        rw [show n + 1 + (k + 1) = n + 1 + k + 1 from rfl]
        obtain ⟨a, b, c, d, _, v1, v2⟩ := st
        refine ⟨a.trans iF, b.trans iF, c.trans ipc, d, ?_⟩
        rw [iF, s1F] at v1 v2
        rw [show ({ x.stage_DRF with stalled := 1 } : CPU_Stage).rs1 = x.stage_DRF.rs1 from rfl] at v1
        rw [show ({ x.stage_DRF with stalled := 1 } : CPU_Stage).rs2 = x.stage_DRF.rs2 from rfl] at v2
        rw [v1, v2]; exact hk
    intro k hj
    obtain ⟨iF, iD, ipc, iE, iv⟩ := inv k hj
    refine ⟨⟨by rw [iF, s1F], by rw [iD, s1F], iF, by rw [iD, s1D], ipc⟩, ?_⟩
    intro hr
    have rl := stall_release (ticks (n + 1 + k) (initState raw code size))
      (by rw [iD, iF]) (by rw [iF, s1F]; exact hb) (by rw [iF, s1F]; exact ha) iE
      (by rw [iF, s1F]; exact iv) (by rw [iF, s1F]; exact hr)
    rw [← ticks_succ, iF, s1F, ipc] at rl
    exact rl

/-- C2 at a concrete run: in the end-to-end program `decode` finds the `ADD`
with `R0` and `R1` pending in tick 4; the `writeback` of tick 5 commits `R0`
only, so the stall lasts through tick 5; the `writeback` of tick 6 commits `R1`,
and `decode` then captures `R0 = 3` and `R1 = 4`. -/
theorem stall_correctness_witness :
    (ticks (3 + 1 + 1) (initState zeroCPU endToEndProgram 4)).stage_F.stalled = 1
    ∧ (ticks (3 + 1 + 1) (initState zeroCPU endToEndProgram 4)).pc
        = (ticks (3 + 1) (initState zeroCPU endToEndProgram 4)).pc
    ∧ (ticks (3 + 1 + 1 + 1) (initState zeroCPU endToEndProgram 4)).stage_EX.stalled = 0
    ∧ (ticks (3 + 1 + 1 + 1) (initState zeroCPU endToEndProgram 4)).stage_EX.rs1_value
        = (writeback (ticks (3 + 1 + 1) (initState zeroCPU endToEndProgram 4))).regs 0 :=
  have h := (stall_correctness zeroCPU endToEndProgram 4 3 (by decide) (by decide) (by decide)
    (by decide)).2 1 (fun j hj => by interval_cases j; decide)
  ⟨h.1.1, h.1.2.2.2.2, (h.2 (by decide)).2.2.1, (h.2 (by decide)).2.2.2.1⟩

/-! ## C3: straight-line programs terminate after `N + 4` ticks -/

theorem regsAfter_none (code : Int → APEX_Instruction) (r : Int) (k : Nat)
    (h : ∀ i : Nat, i < k → (code i).rd ≠ r) : regsAfter code k r = 0 := by
  induction k with
  | zero => rfl
  | succ k ih =>
    show arrSet (regsAfter code k) (code k).rd (code k).imm r = 0
    unfold arrSet
    rw [if_neg (fun e => h k (Nat.lt_succ_self k) e.symm)]
    exact ih (fun i hi => h i (Nat.lt_succ_of_lt hi))

theorem regsAfter_last (code : Int → APEX_Instruction) (r : Int) (i : Nat) (k : Nat)
    (hi : i < k) (hrd : (code i).rd = r)
    (hlast : ∀ j : Nat, i < j → j < k → (code j).rd ≠ r) :
    regsAfter code k r = (code i).imm := by
  induction k with
  | zero => exact absurd hi (Nat.not_lt_zero i)
  | succ k ih =>
    show arrSet (regsAfter code k) (code k).rd (code k).imm r = _
    unfold arrSet
    rcases Nat.lt_or_ge i k with hik | hik
    · rw [if_neg (fun e => hlast k hik (Nat.lt_succ_self k) e.symm)]
      exact ih hik (fun j h1 h2 => hlast j h1 (Nat.lt_succ_of_lt h2))
    · have e : i = k := by omega
      subst e
      rw [if_pos hrd.symm]

/-- The counter and the registers after each of the `N + 4` ticks of a
straight-line program. -/
theorem straight_line_trace (raw : APEX_CPU) (code : Int → APEX_Instruction) (N : Nat)
    (hN : 1 ≤ N) (hi : raw.ins_completed = 0)
    (hm : ∀ i : Nat, i + 1 < N → (code i).opcode = "MOVC")
    (hh : (code ((N : Int) - 1)).opcode = "HALT") :
    (∀ t, t ≤ N + 4 → (ticks t (initState raw code N)).ins_completed = ((t - 4 : Nat) : Int))
    ∧ (ticks (N + 4) (initState raw code N)).regs = regsAfter code (N - 1) := by
  have fill := fillInv_ticks raw code N hi hm
  have hA := fill N (Nat.le_refl N)
  have eN : ∀ d : Nat, d ≤ 3 → ((N + d : Nat) : Int) - 4 = (N : Int) - (4 - d) := by
    intro d _; push_cast; ring
  have hmI : ∀ j : Int, j < (N : Int) - 1 → 0 ≤ j → (code j).opcode = "MOVC" := by
    intro j h1 h2
    obtain ⟨k, rfl⟩ : ∃ k : Nat, j = (k : Int) := ⟨j.toNat, by omega⟩
    exact hm k (by omega)
  have hH : latchOf code ((N : Int) - 1)
      = fetchedLatch (4000 + 4 * ((N : Int) - 1)) (code ((N : Int) - 1)) :=
    latchOf_nonneg code _ (by omega)
  -- tick N + 1: the `HALT` enters Execute
  have c1 := tick_commit code N _ hA.stage_WB hA.regs hA.ins_completed
    (fun k hk => hm k (by omega))
  have E1 : (tick (ticks N (initState raw code N))).stage_EX = latchOf code ((N : Int) - 1) := by
    rw [tick_stage_EX_halt _ (by rw [hA.stage_F, if_neg (by omega)]; rfl)
      (by rw [hA.stage_DRF, hH]; exact ⟨rfl, rfl⟩) (by rw [hA.stage_DRF, hH]; exact hh)]
    exact hA.stage_DRF
  have M1 := tick_stage_MEM_latchOf code _ _ hA.stage_EX (hmI _ (by omega))
  have W1 := (tick_stage_WB_latchDone code _ _ hA.stage_MEM (hmI _ (by omega))).1
  rw [← ticks_succ] at c1 E1 M1 W1
  -- tick N + 2
  have c2 := tick_commit code (N + 1) _ (by rw [W1]; congr 1; push_cast; ring) c1.1 c1.2
    (fun k hk => hm k (by omega))
  have M2 := (tick_stage_MEM_pass (ticks (N + 1) (initState raw code N))
    (Or.inr (by rw [E1, hH]; exact hh))).1
  have W2 := (tick_stage_WB_latchDone code _ _ M1 (hmI _ (by omega))).1
  rw [← ticks_succ] at c2 M2 W2
  rw [E1] at M2
  -- tick N + 3
  have c3 := tick_commit code (N + 2) _ (by rw [W2]; congr 1; push_cast; ring) c2.1 c2.2
    (fun k hk => hm k (by omega))
  have W3 := (tick_stage_WB_halt (ticks (N + 2) (initState raw code N))
    (by rw [M2, hH]; exact hh)).1
  rw [← ticks_succ] at c3 W3
  rw [M2] at W3
  -- tick N + 4: the `HALT` is counted
  have c4 := tick_commit_halt (ticks (N + 3) (initState raw code N))
    (by rw [W3, hH]; exact ⟨rfl, rfl⟩) (by rw [W3, hH]; exact hh)
  rw [← ticks_succ] at c4
  refine ⟨?_, ?_⟩
  · intro t ht
    rcases Nat.lt_or_ge N t with h1 | h1
    · obtain ⟨d, rfl⟩ : ∃ d, t = N + d := ⟨t - N, by omega⟩
      have hd : d = 1 ∨ d = 2 ∨ d = 3 ∨ d = 4 := by omega
      rcases hd with rfl | rfl | rfl | rfl
      · exact c1.2
      · exact c2.2
      · exact c3.2
      · rw [c4.2, c3.2]
        have : N + 2 + 1 - 4 + 1 = N + 4 - 4 := by omega
        rw [← this]; push_cast; ring
    · exact (fill t h1).ins_completed
  · rw [c4.1, c3.1]
    congr 1

/-- C3. Termination of straight-line programs: for every `N ≥ 1` and every
program of `N` instructions whose first `N - 1` instructions are `MOVC` (with
destination index in `0..31`) and whose last instruction is `HALT`, the run from
reset with the completed-instruction counter at 0 performs exactly `N + 4` ticks
and then exits (`N + 4` ticks of fuel or more reach the exit, fewer do not); the
counter differs from `N` after each of the ticks before and equals `N` at the
exit; and each register holds the immediate of the last `MOVC` that names it as
destination, or 0 when no `MOVC` names it. -/
theorem straight_line_termination (raw : APEX_CPU) (code : Int → APEX_Instruction) (N : Nat)
    (hN : 1 ≤ N) (hi : raw.ins_completed = 0)
    (hm : ∀ i : Nat, i + 1 < N →
      (code i).opcode = "MOVC" ∧ 0 ≤ (code i).rd ∧ (code i).rd ≤ 31)
    (hh : (code ((N : Int) - 1)).opcode = "HALT") :
    (∀ fuel, N + 4 ≤ fuel →
      APEX_cpu_run fuel (initState raw code N) = some (ticks (N + 4) (initState raw code N)))
    ∧ (∀ fuel, fuel < N + 4 → APEX_cpu_run fuel (initState raw code N) = none)
    ∧ (∀ t, t < N + 4 → (ticks t (initState raw code N)).ins_completed ≠ (N : Int))
    ∧ (ticks (N + 4) (initState raw code N)).ins_completed = (N : Int)
    ∧ (∀ r, (∀ i : Nat, i + 1 < N → (code i).rd ≠ r) →
        (ticks (N + 4) (initState raw code N)).regs r = 0)
    ∧ (∀ r (i : Nat), i + 1 < N → (code i).rd = r →
        (∀ j : Nat, i < j → j + 1 < N → (code j).rd ≠ r) →
        (ticks (N + 4) (initState raw code N)).regs r = (code i).imm) := by
  obtain ⟨hc, hr⟩ := straight_line_trace raw code N hN hi (fun i h => (hm i h).1) hh
  have hsz : ∀ k, (ticks k (initState raw code N)).code_memory_size = (N : Int) := by
    intro k; rw [ticks_code_memory_size]; rfl
  have hlt : ∀ t, t < N + 4 → (ticks t (initState raw code N)).ins_completed ≠ (N : Int) := by
    intro t ht
    rw [hc t (by omega)]
    intro e
    have : t - 4 = N := by exact_mod_cast e
    omega
  have hend : (ticks (N + 4) (initState raw code N)).ins_completed = (N : Int) := by
    rw [hc (N + 4) (Nat.le_refl _)]
    congr 1
  refine ⟨?_, ?_, hlt, hend, ?_, ?_⟩
  · exact APEX_cpu_run_of_ticks (N + 4) _ (fun k hk => by rw [hsz]; exact hlt k hk)
      (by rw [hsz]; exact hend)
  · intro fuel hf
    exact APEX_cpu_run_none fuel _ (fun k hk => by rw [hsz]; exact hlt k (by omega))
  · intro r h
    rw [hr]
    exact regsAfter_none code r (N - 1) (fun i hi => h i (by omega))
  · intro r i hi hrd hlast
    rw [hr]
    exact regsAfter_last code r i (N - 1) (by omega) hrd (fun j h1 h2 => hlast j h1 (by omega))

/-- C3 at a concrete program: `MOVC R0,#3; MOVC R1,#4; MOVC R0,#5; HALT` exits
after 8 ticks with the counter at 4 and `R0 = 5`, the immediate of the last
`MOVC` to `R0`. -/
theorem straight_line_termination_witness :
    APEX_cpu_run 8 (initState zeroCPU movcProgram (4 : Nat))
        = some (ticks (4 + 4) (initState zeroCPU movcProgram (4 : Nat)))
    ∧ APEX_cpu_run 7 (initState zeroCPU movcProgram (4 : Nat)) = none
    ∧ (ticks (4 + 4) (initState zeroCPU movcProgram (4 : Nat))).ins_completed = (4 : Nat)
    ∧ (ticks (4 + 4) (initState zeroCPU movcProgram (4 : Nat))).regs 0
        = (movcProgram (2 : Nat)).imm :=
  have h := straight_line_termination zeroCPU movcProgram 4 (by decide) rfl
    (fun i hi => by
      have hi3 : i < 3 := by omega
      interval_cases i <;> decide) (by decide)
  ⟨h.1 8 (by decide), h.2.1 7 (by decide), h.2.2.2.1,
    h.2.2.2.2.2 0 2 (by decide) (by decide) (fun j h1 h2 => by omega)⟩

/-! ## C4: branch redirection -/

/-- C4. Branch redirection: let a tick start with a live `SUB` in the Execute
latch whose computed result (the buffer `execute` produces in that tick) is 0.
The next `execute` call is the one of the following tick, on the machine
`memory (writeback (tick cpu))`.  If the Execute latch then holds a live `BZ`
with fetched pc `p` and immediate `i`, that call leaves the program counter at
`p + i` and the zero flag cleared; if it holds a live `BNZ`, that call leaves
the program counter unchanged. -/
theorem branch_redirection (cpu : APEX_CPU)
    (hb : cpu.stage_EX.busy = 0) (hs : cpu.stage_EX.stalled = 0)
    (hop : cpu.stage_EX.opcode = "SUB")
    (hres : (execute (memory (writeback cpu))).stage_EX.buffer = 0) :
    ((memory (writeback (tick cpu))).stage_EX.busy = 0
        ∧ (memory (writeback (tick cpu))).stage_EX.stalled = 0
        ∧ (memory (writeback (tick cpu))).stage_EX.opcode = "BZ" →
      (execute (memory (writeback (tick cpu)))).pc
          = (memory (writeback (tick cpu))).stage_EX.pc
            + (memory (writeback (tick cpu))).stage_EX.imm
      ∧ (execute (memory (writeback (tick cpu)))).zeroflag = 0)
    ∧ ((memory (writeback (tick cpu))).stage_EX.busy = 0
        ∧ (memory (writeback (tick cpu))).stage_EX.stalled = 0
        ∧ (memory (writeback (tick cpu))).stage_EX.opcode = "BNZ" →
      (execute (memory (writeback (tick cpu)))).pc = (memory (writeback (tick cpu))).pc) := by
  have hEX : (memory (writeback cpu)).stage_EX = cpu.stage_EX := by simp
  have hl0 : live (memory (writeback cpu)).stage_EX := by rw [hEX]; exact ⟨hb, hs⟩
  have hop0 : (memory (writeback cpu)).stage_EX.opcode = "SUB" := by rw [hEX]; exact hop
  have hz0 : (execute (memory (writeback cpu))).zeroflag = 1 := by
    rw [execute_live _ hl0, execute_dispatch_SUB _ hop0, execute_sub_eq] at hres ⊢
    have hres1 : sub_result (memory (writeback cpu)) = 0 := hres
    show (if sub_result (memory (writeback cpu)) = 0 then (1 : Int) else 0) = 1
    rw [if_pos hres1]
  have hz : (memory (writeback (tick cpu))).zeroflag = 1 := by
    unfold tick; simpa using hz0
  generalize memory (writeback (tick cpu)) = s at hz
  constructor
  · rintro ⟨hb1, hs1, hop1⟩
    rw [execute_live s ⟨hb1, hs1⟩, execute_dispatch_BZ s hop1]
    unfold execute_bz
    rw [if_pos hz]
    exact ⟨rfl, rfl⟩
  · rintro ⟨hb1, hs1, hop1⟩
    rw [execute_live s ⟨hb1, hs1⟩, execute_dispatch_BNZ s hop1]
    unfold execute_bnz
    rw [if_neg (by rw [hz]; decide)]

/-- C4 at a concrete machine: `SUB` of 5 and 5 in Execute, followed by the `BZ`
fetched at 4008 with immediate 16; the branch moves the program counter to 4024. -/
theorem branch_redirection_witness :
    (execute (memory (writeback (tick subThenBz)))).pc = 4008 + 16
    ∧ (execute (memory (writeback (tick subThenBz)))).zeroflag = 0 :=
  (branch_redirection subThenBz rfl rfl rfl (by decide)).1 ⟨by decide, by decide, by decide⟩

/-! ## C5: store, then load -/

/-- C5. Store/Load round trip: let a tick start with a live `STORE` in the
Execute latch whose `rs2 snapshot + imm` is an address `a` in `0..3999`.  That
tick passes the `STORE` through `execute`; the `memory` call of the next tick
writes the value the register file then holds at the `rs1` of the `STORE` to data
cell `a` and changes no other data cell.  If the instruction right behind the
`STORE` (in the Execute latch at the end of the first tick) is a live `LOAD`
whose `rs1 snapshot + imm` is `a`, then the following two ticks pass it through
`execute` and `memory`, and the `writeback` after them leaves register `rd` of
the `LOAD` equal to the stored value. -/
theorem store_load_round_trip (cpu : APEX_CPU) (a : Int) (ha : 0 ≤ a ∧ a ≤ 3999)
    (hb : cpu.stage_EX.busy = 0) (hs : cpu.stage_EX.stalled = 0)
    (hop : cpu.stage_EX.opcode = "STORE")
    (haddr : cpu.stage_EX.rs2_value + cpu.stage_EX.imm = a) :
    (memory (writeback (tick cpu))).data_memory a
        = (writeback (tick cpu)).regs cpu.stage_EX.rs1
    ∧ (∀ b, b ≠ a → (memory (writeback (tick cpu))).data_memory b = (tick cpu).data_memory b)
    ∧ ((tick cpu).stage_EX.busy = 0 ∧ (tick cpu).stage_EX.stalled = 0
        ∧ (tick cpu).stage_EX.opcode = "LOAD"
        ∧ (tick cpu).stage_EX.rs1_value + (tick cpu).stage_EX.imm = a →
      (writeback (tick (tick (tick cpu)))).regs (tick cpu).stage_EX.rd
        = (memory (writeback (tick cpu))).data_memory a) := by
  have hEX : (memory (writeback cpu)).stage_EX = cpu.stage_EX := by simp
  have hl0 : live (memory (writeback cpu)).stage_EX := by rw [hEX]; exact ⟨hb, hs⟩
  have hop0 : (memory (writeback cpu)).stage_EX.opcode = "STORE" := by rw [hEX]; exact hop
  -- the latch Execute hands to Memory in the first tick
  have hM : (tick cpu).stage_MEM
      = { cpu.stage_EX with mem_address := a } := by
    have : (tick cpu).stage_MEM = (execute (memory (writeback cpu))).stage_MEM := by
      unfold tick; simp
    rw [this, execute_live _ hl0, execute_dispatch_STORE _ hop0]
    show { (memory (writeback cpu)).stage_EX with
        mem_address := (memory (writeback cpu)).stage_EX.rs2_value
          + (memory (writeback cpu)).stage_EX.imm } = _
    rw [hEX, haddr]
  have hM1 : (writeback (tick cpu)).stage_MEM = { cpu.stage_EX with mem_address := a } := by
    rw [writeback_stage_MEM, hM]
  have hlM : live (writeback (tick cpu)).stage_MEM := by rw [hM1]; exact ⟨hb, hs⟩
  -- the STORE passes through Memory
  have hmem : (memory (writeback (tick cpu))).data_memory
      = arrSet (tick cpu).data_memory a ((writeback (tick cpu)).regs cpu.stage_EX.rs1) := by
    rw [memory_eq, if_pos hlM, if_pos (by rw [hM1]; exact hop)]
    show arrSet (writeback (tick cpu)).data_memory (writeback (tick cpu)).stage_MEM.mem_address
      ((writeback (tick cpu)).regs (writeback (tick cpu)).stage_MEM.rs1) = _
    rw [hM1, writeback_data_memory]
  refine ⟨by rw [hmem]; simp [arrSet], fun b hb' => by rw [hmem]; simp [arrSet, hb'], ?_⟩
  rintro ⟨hb1, hs1, hop1, haddr1⟩
  -- second tick: the LOAD passes through Execute
  have hEX1 : (memory (writeback (tick cpu))).stage_EX = (tick cpu).stage_EX := by simp
  have hl1 : live (memory (writeback (tick cpu))).stage_EX := by rw [hEX1]; exact ⟨hb1, hs1⟩
  have hM2 : (tick (tick cpu)).stage_MEM = { (tick cpu).stage_EX with mem_address := a } := by
    have : (tick (tick cpu)).stage_MEM = (execute (memory (writeback (tick cpu)))).stage_MEM := by
      rw [show tick (tick cpu) = _ from rfl]; unfold tick; simp
    rw [this, execute_live _ hl1, execute_dispatch_LOAD _ (by rw [hEX1]; exact hop1)]
    show { (memory (writeback (tick cpu))).stage_EX with
        mem_address := (memory (writeback (tick cpu))).stage_EX.rs1_value
          + (memory (writeback (tick cpu))).stage_EX.imm } = _
    rw [hEX1, haddr1]
  have hD2 : (tick (tick cpu)).data_memory = (memory (writeback (tick cpu))).data_memory := by
    rw [show tick (tick cpu) = _ from rfl]; unfold tick; simp
  -- third tick: the LOAD passes through Memory
  generalize tick (tick cpu) = s2 at hM2 hD2
  have hM3 : (writeback s2).stage_MEM = { (tick cpu).stage_EX with mem_address := a } := by
    rw [writeback_stage_MEM, hM2]
  have hlM3 : live (writeback s2).stage_MEM := by rw [hM3]; exact ⟨hb1, hs1⟩
  have hne : (writeback s2).stage_MEM.opcode ≠ "STORE" := by
    rw [hM3]; show (tick cpu).stage_EX.opcode ≠ "STORE"; rw [hop1]; decide
  have hW3 : (tick s2).stage_WB
      = { (tick cpu).stage_EX with
          mem_address := a, buffer := (memory (writeback (tick cpu))).data_memory a } := by
    have : (tick s2).stage_WB = (memory (writeback s2)).stage_WB := by
      unfold tick; simp
    rw [this, memory_eq, if_pos hlM3, if_neg hne, if_pos (by rw [hM3]; exact hop1)]
    show { (writeback s2).stage_MEM with
        buffer := (writeback s2).data_memory (writeback s2).stage_MEM.mem_address } = _
    rw [hM3, writeback_data_memory, hD2]
  -- the Writeback of the LOAD
  generalize tick s2 = s3 at hW3
  have hlW : live s3.stage_WB := by rw [hW3]; exact ⟨hb1, hs1⟩
  have hw : isRegWriter s3.stage_WB.opcode := by
    rw [hW3]; show isRegWriter (tick cpu).stage_EX.opcode; rw [hop1]; unfold isRegWriter; decide
  rw [writeback_eq, if_pos hlW, if_pos hw]
  show arrSet s3.regs s3.stage_WB.rd s3.stage_WB.buffer (tick cpu).stage_EX.rd = _
  rw [hW3]
  simp [arrSet]

/-- C5 at a concrete machine: `STORE` of `R1 = 42` to address 100 followed by a
`LOAD R4` from address 100. -/
theorem store_load_round_trip_witness :
    (memory (writeback (tick storeThenLoad))).data_memory 100
        = (writeback (tick storeThenLoad)).regs 1
    ∧ (writeback (tick (tick (tick storeThenLoad)))).regs 4
        = (memory (writeback (tick storeThenLoad))).data_memory 100 :=
  have h := store_load_round_trip storeThenLoad 100 (by decide) rfl rfl rfl (by decide)
  ⟨h.1, h.2.2 ⟨by decide, by decide, by decide, by decide⟩⟩

/-! ## C6: the same-register exception of Decode -/

/-- C6. Same-register exception: when `decode` processes (Decode latch neither
busy nor stalled) an `ADD`, `SUB`, `AND`, `OR`, `EX-OR` or `MUL`: if `rd` equals
`rs1` or `rs2`, no readiness bit changes at all; if `rd` differs from both, the
readiness bit of `rd` becomes 1 and no other readiness bit changes. -/
theorem decode_same_register_exception (cpu : APEX_CPU)
    (hb : cpu.stage_DRF.busy = 0) (hs : cpu.stage_DRF.stalled = 0)
    (hop : cpu.stage_DRF.opcode ∈ ["ADD", "SUB", "AND", "OR", "EX-OR", "MUL"]) :
    (cpu.stage_DRF.rd = cpu.stage_DRF.rs1 ∨ cpu.stage_DRF.rd = cpu.stage_DRF.rs2 →
      (decode cpu).regs_valid = cpu.regs_valid)
    ∧ (cpu.stage_DRF.rd ≠ cpu.stage_DRF.rs1 ∧ cpu.stage_DRF.rd ≠ cpu.stage_DRF.rs2 →
      (decode cpu).regs_valid cpu.stage_DRF.rd = 1
      ∧ ∀ r, r ≠ cpu.stage_DRF.rd → (decode cpu).regs_valid r = cpu.regs_valid r) := by
  have hl : live cpu.stage_DRF := ⟨hb, hs⟩
  have ha : isALU cpu.stage_DRF.opcode := by
    simp only [List.mem_cons, List.mem_singleton, List.not_mem_nil, or_false] at hop
    exact hop
  have hv : (decode cpu).regs_valid = decode_mark cpu := by
    rw [decode_live cpu hl, decode_dispatch_ALU cpu ha, decode_alu_eq]
    split_ifs <;> rfl
  rw [hv]
  unfold decode_mark
  constructor
  · intro h
    rw [if_neg (by tauto)]
  · intro h
    rw [if_pos h]
    refine ⟨by simp [arrSet], ?_⟩
    intro r hr
    simp [arrSet, hr]

/-- C6 at a concrete machine: `ADD R1,R1,R2` in the Decode latch marks nothing. -/
theorem decode_same_register_exception_witness :
    (decode { zeroCPU with stage_DRF := liveLatch "ADD" 1 1 2 0 }).regs_valid
      = zeroCPU.regs_valid :=
  (decode_same_register_exception { zeroCPU with stage_DRF := liveLatch "ADD" 1 1 2 0 }
    rfl rfl (by decide)).1 (Or.inl rfl)

/-! ## C7: the extra cycle of `MUL` -/

/-- C7. `MUL` timing: one scheduler tick raises the cycle counter by exactly 2
when the Execute latch holds a `MUL` and is neither busy nor stalled, and by
exactly 1 in every other case (in particular for an `ADD`); and the product of
the two operand snapshots is in the result buffer that the single `execute` call
of that tick hands to Memory. -/
theorem mul_takes_one_extra_cycle (cpu : APEX_CPU) :
    (cpu.stage_EX.busy = 0 ∧ cpu.stage_EX.stalled = 0 ∧ cpu.stage_EX.opcode = "MUL" →
      (tick cpu).clock = cpu.clock + 2
      ∧ (execute (memory (writeback cpu))).stage_MEM.buffer
          = cpu.stage_EX.rs1_value * cpu.stage_EX.rs2_value)
    ∧ (¬ (cpu.stage_EX.busy = 0 ∧ cpu.stage_EX.stalled = 0 ∧ cpu.stage_EX.opcode = "MUL") →
      (tick cpu).clock = cpu.clock + 1) := by
  have hEX : (memory (writeback cpu)).stage_EX = cpu.stage_EX := by simp
  have hclk : (memory (writeback cpu)).clock = cpu.clock := by simp
  have htick : (tick cpu).clock = (execute (memory (writeback cpu))).clock + 1 := by
    unfold tick; simp
  rw [htick]
  generalize memory (writeback cpu) = s at hEX hclk
  constructor
  · rintro ⟨hb, hs, hop⟩
    have hl : live s.stage_EX := by rw [hEX]; exact ⟨hb, hs⟩
    have hop1 : s.stage_EX.opcode = "MUL" := by rw [hEX]; exact hop
    rw [execute_live s hl, execute_dispatch_MUL s hop1, execute_mul_eq]
    refine ⟨?_, ?_⟩
    · show s.clock + 1 + 1 = cpu.clock + 2
      rw [hclk]; ring
    · show s.stage_EX.rs1_value * s.stage_EX.rs2_value = _
      rw [hEX]
  · intro h
    by_cases hl : live s.stage_EX
    · have hne : s.stage_EX.opcode ≠ "MUL" := by
        intro hop
        rw [hEX] at hl hop
        exact h ⟨hl.1, hl.2, hop⟩
      have hc : (execute_dispatch s).clock = s.clock := by
        unfold execute_dispatch
        repeat' first
          | intro hc
          | with_reducible apply ite_cases (fun c : APEX_CPU => c.clock = s.clock)
        all_goals first
          | rfl
          | (rw [execute_add_eq])
          | (rw [execute_sub_eq])
          | (exact absurd hc hne)
          | (unfold execute_bz; split_ifs <;> rfl)
          | (unfold execute_bnz; split_ifs <;> rfl)
      rw [execute_live s hl]
      show (execute_dispatch s).clock + 1 = _
      rw [hc, hclk]
    · rw [execute_bubble s hl]
      show s.clock + 1 = _
      rw [hclk]

/-- C7 at a concrete machine: a live `MUL` of 6 and 7 in the Execute latch. -/
theorem mul_takes_one_extra_cycle_witness :
    (tick { zeroCPU with stage_EX :=
        { liveLatch "MUL" 3 1 2 0 with rs1_value := 6, rs2_value := 7 } }).clock = 0 + 2
    ∧ (execute (memory (writeback { zeroCPU with stage_EX :=
        { liveLatch "MUL" 3 1 2 0 with rs1_value := 6, rs2_value := 7 } }))).stage_MEM.buffer
        = 6 * 7 :=
  (mul_takes_one_extra_cycle { zeroCPU with stage_EX :=
    { liveLatch "MUL" 3 1 2 0 with rs1_value := 6, rs2_value := 7 } }).1 ⟨rfl, rfl, rfl⟩

/-! ## C8: `HALT` stops fetching -/

/-- The tick in which `decode` processes a live `HALT`, in a run from reset:
`decode` stalls the Fetch latch, which holds the same `HALT`, and `fetch` only
copies it into the Decode latch. -/
theorem halt_decoded (raw : APEX_CPU) (code : Int → APEX_Instruction) (size : Int) (n : Nat)
    (hb : (execute (memory (writeback (ticks n (initState raw code size))))).stage_DRF.busy = 0)
    (hs : (execute (memory (writeback (ticks n (initState raw code size))))).stage_DRF.stalled
      = 0)
    (hop : (execute (memory (writeback (ticks n (initState raw code size))))).stage_DRF.opcode
      = "HALT") :
    (decode (execute (memory (writeback (ticks n (initState raw code size)))))).stage_F.stalled
      = 1
    ∧ ((ticks (n + 1) (initState raw code size)).stage_F.opcode = "HALT"
      ∧ (ticks (n + 1) (initState raw code size)).stage_F.busy = 0
      ∧ (ticks (n + 1) (initState raw code size)).stage_F.stalled = 1)
    ∧ ((ticks (n + 1) (initState raw code size)).stage_DRF.opcode = "HALT"
      ∧ (ticks (n + 1) (initState raw code size)).stage_DRF.busy = 0
      ∧ (ticks (n + 1) (initState raw code size)).stage_DRF.stalled = 1) := by
  have one : ¬ ((1 : Int) = 0) := by decide
  have hFb : (ticks n (initState raw code size)).stage_F.busy = 0 := by
    rw [ticks_stage_F_busy]; rfl
  have hDF : (ticks n (initState raw code size)).stage_DRF.opcode
      = (ticks n (initState raw code size)).stage_F.opcode := by
    cases n with
    | zero =>
      exfalso
      have : (execute (memory (writeback (initState raw code size)))).stage_DRF.busy = 1 := by
        simp; rfl
      rw [show ticks 0 (initState raw code size) = initState raw code size from rfl, this] at hb
      exact one hb
    | succ m => rw [ticks_succ, tick_stage_DRF]
  rw [ticks_succ, tick_stage_DRF, tick_stage_F]
  generalize ticks n (initState raw code size) = s at hb hs hop hFb hDF ⊢
  have xF : (execute (memory (writeback s))).stage_F.opcode = "HALT" := by
    have : (execute (memory (writeback s))).stage_DRF.opcode = s.stage_DRF.opcode := by simp
    rw [this, hDF] at hop
    simpa using hop
  have xFb : (execute (memory (writeback s))).stage_F.busy = 0 := by simpa using hFb
  generalize execute (memory (writeback s)) = x at hb hs hop xF xFb ⊢
  have hd : (decode x).stage_F.stalled = 1 := by
    rw [decode_live x ⟨hb, hs⟩, decode_dispatch_HALT x hop]; rfl
  have hfo : (decode x).stage_F.opcode = "HALT" := by rw [decode_stage_F_opcode]; exact xF
  have hfb : (decode x).stage_F.busy = 0 := by rw [decode_stage_F_busy]; exact xFb
  have hf : fetch (decode x) = { decode x with stage_DRF := (decode x).stage_F } :=
    fetch_held _ (fun h => one (hd ▸ h.2))
  rw [hf]
  exact ⟨hd, ⟨hfo, hfb, hd⟩, ⟨hfo, hfb, hd⟩⟩

/-- C8. `HALT` stops fetching for good: in a run from reset, suppose that in
tick `n + 1` `decode` processes a live `HALT` (the Decode latch is neither busy
nor stalled when `decode` is called).  Then in that tick and in every later one
(tick `n + k + 1` for every `k`), the Fetch latch is stalled when `fetch` is
called, so `fetch` fetches nothing and leaves the program counter alone: all it
does is copy the Fetch latch into the Decode latch; the program counter at the
end of the tick is the one `execute` left, and the Fetch latch still holds the
`HALT`.  This holds although `writeback` clears the stalled flag of the Fetch
latch whenever an older register-writing instruction commits: `decode` sets it
again before `fetch` runs. -/
theorem halt_stops_fetching (raw : APEX_CPU) (code : Int → APEX_Instruction) (size : Int)
    (n : Nat)
    (hb : (execute (memory (writeback (ticks n (initState raw code size))))).stage_DRF.busy = 0)
    (hs : (execute (memory (writeback (ticks n (initState raw code size))))).stage_DRF.stalled
      = 0)
    (hop : (execute (memory (writeback (ticks n (initState raw code size))))).stage_DRF.opcode
      = "HALT")
    (k : Nat) :
    (decode (execute (memory (writeback
        (ticks (n + k) (initState raw code size)))))).stage_F.stalled = 1
    ∧ fetch (decode (execute (memory (writeback (ticks (n + k) (initState raw code size))))))
        = { decode (execute (memory (writeback (ticks (n + k) (initState raw code size))))) with
            stage_DRF := (decode (execute (memory (writeback
              (ticks (n + k) (initState raw code size)))))).stage_F }
    ∧ (ticks (n + k + 1) (initState raw code size)).pc
        = (execute (memory (writeback (ticks (n + k) (initState raw code size))))).pc
    ∧ (ticks (n + k + 1) (initState raw code size)).stage_F.opcode = "HALT" := by
  have one : ¬ ((1 : Int) = 0) := by decide
  have inv : ∀ j,
      (decode (execute (memory (writeback
        (ticks (n + j) (initState raw code size)))))).stage_F.stalled = 1
      ∧ ((ticks (n + j + 1) (initState raw code size)).stage_F.opcode = "HALT"
        ∧ (ticks (n + j + 1) (initState raw code size)).stage_F.busy = 0
        ∧ (ticks (n + j + 1) (initState raw code size)).stage_F.stalled = 1)
      ∧ ((ticks (n + j + 1) (initState raw code size)).stage_DRF.opcode = "HALT"
        ∧ (ticks (n + j + 1) (initState raw code size)).stage_DRF.busy = 0
        ∧ (ticks (n + j + 1) (initState raw code size)).stage_DRF.stalled = 1) := by
    intro j
    induction j with
    | zero => exact halt_decoded raw code size n hb hs hop
    | succ j ih =>
      obtain ⟨_, hF, hD⟩ := ih
      have h := halt_hold_step _ hF hD
      rw [← ticks_succ] at h
      rw [show n + (j + 1) = n + j + 1 from rfl]
      exact ⟨h.1, ⟨h.2.1, h.2.2.1, h.2.2.2.1⟩, ⟨h.2.2.2.2.1, h.2.2.2.2.2.1, h.2.2.2.2.2.2⟩⟩
  obtain ⟨hd, hF, _⟩ := inv k
  have hf := fetch_held (decode (execute (memory (writeback
    (ticks (n + k) (initState raw code size)))))) (fun h => one (hd ▸ h.2))
  refine ⟨hd, hf, ?_, hF.1⟩
  rw [ticks_succ, tick_pc, hf]
  show (decode _).pc = _
  rw [decode_pc]

/-- C8 at a concrete run: in the end-to-end program `decode` processes the
`HALT` in tick 7; in tick 9 the `writeback` of the `ADD` clears the stalled flag
of the Fetch latch, and still `fetch` finds the latch stalled and the program
counter stays at 4016. -/
theorem halt_stops_fetching_witness :
    (writeback (ticks 8 (initState zeroCPU endToEndProgram 4))).stage_F.stalled = 0
    ∧ (decode (execute (memory (writeback
        (ticks (6 + 2) (initState zeroCPU endToEndProgram 4)))))).stage_F.stalled = 1
    ∧ (ticks (6 + 2 + 1) (initState zeroCPU endToEndProgram 4)).pc
        = (execute (memory (writeback (ticks (6 + 2) (initState zeroCPU endToEndProgram 4))))).pc :=
  have h := halt_stops_fetching zeroCPU endToEndProgram 4 6 (by decide) (by decide) (by decide) 2
  ⟨by decide, h.1, h.2.2.1⟩

/-! ## C9, C10: Writeback -/

/-- C9. Writeback commit: when the Writeback latch is neither busy nor stalled
and its opcode is one of `MOVC`, `ADD`, `SUB`, `AND`, `OR`, `EX-OR` (the
exclusive-or), `LOAD`, `MUL`, then after `writeback` register `rd` holds the
latch's result buffer, the readiness bit of `rd` is 0, the stalled flags of the
Fetch and Decode latches are 0, and every other register and readiness bit is
unchanged; when the opcode is `STORE`, `BZ`, `BNZ`, `JUMP` or `HALT`, no
register, no readiness bit and no stalled flag (of any of the five latches)
changes. -/
theorem writeback_commits_result (cpu : APEX_CPU)
    (hb : cpu.stage_WB.busy = 0) (hs : cpu.stage_WB.stalled = 0) :
    (cpu.stage_WB.opcode ∈ ["MOVC", "ADD", "SUB", "AND", "OR", "EX-OR", "LOAD", "MUL"] →
        (writeback cpu).regs cpu.stage_WB.rd = cpu.stage_WB.buffer
        ∧ (writeback cpu).regs_valid cpu.stage_WB.rd = 0
        ∧ (writeback cpu).stage_F.stalled = 0
        ∧ (writeback cpu).stage_DRF.stalled = 0
        ∧ ∀ r, r ≠ cpu.stage_WB.rd →
            (writeback cpu).regs r = cpu.regs r
            ∧ (writeback cpu).regs_valid r = cpu.regs_valid r)
    ∧ (cpu.stage_WB.opcode ∈ ["STORE", "BZ", "BNZ", "JUMP", "HALT"] →
        (writeback cpu).regs = cpu.regs
        ∧ (writeback cpu).regs_valid = cpu.regs_valid
        ∧ (writeback cpu).stage_F.stalled = cpu.stage_F.stalled
        ∧ (writeback cpu).stage_DRF.stalled = cpu.stage_DRF.stalled
        ∧ (writeback cpu).stage_EX.stalled = cpu.stage_EX.stalled
        ∧ (writeback cpu).stage_MEM.stalled = cpu.stage_MEM.stalled
        ∧ (writeback cpu).stage_WB.stalled = cpu.stage_WB.stalled) := by
  have hl : live cpu.stage_WB := ⟨hb, hs⟩
  rw [writeback_eq, if_pos hl]
  constructor
  · intro hop
    have hw : isRegWriter cpu.stage_WB.opcode := by
      simp only [List.mem_cons, List.mem_singleton, List.not_mem_nil, or_false] at hop
      unfold isRegWriter; tauto
    rw [if_pos hw]
    refine ⟨?_, ?_, rfl, rfl, ?_⟩
    · simp [writeback_commit, arrSet]
    · simp [writeback_commit, arrSet]
    · intro r hr
      simp [writeback_commit, arrSet, hr]
  · intro hop
    have hw : ¬ isRegWriter cpu.stage_WB.opcode := by
      simp only [List.mem_cons, List.mem_singleton, List.not_mem_nil, or_false] at hop
      unfold isRegWriter
      rcases hop with h | h | h | h | h <;> rw [h] <;> decide
    rw [if_neg hw]
    exact ⟨rfl, rfl, rfl, rfl, rfl, rfl, rfl⟩

/-- C9 at a concrete machine: an `ADD` with destination 3 and result buffer 7 in
the Writeback latch. -/
theorem writeback_commits_result_witness :
    (writeback { zeroCPU with stage_WB := { liveLatch "ADD" 3 1 2 0 with buffer := 7 } }).regs 3 = 7
    ∧ (writeback { zeroCPU with stage_WB := { liveLatch "ADD" 3 1 2 0 with buffer := 7 } }).regs_valid 3
        = 0 :=
  have h := (writeback_commits_result
    { zeroCPU with stage_WB := { liveLatch "ADD" 3 1 2 0 with buffer := 7 } } rfl rfl).1
    (by decide)
  ⟨h.1, h.2.1⟩

/-- C10. Completion counting: when the Writeback latch is neither busy nor
stalled, `writeback` raises the completed-instruction counter by exactly 1
whatever the opcode is; it never changes a data cell; and for every opcode other
than the eight register-writing ones (`STORE`, `BZ`, `BNZ`, `JUMP`, `HALT` and
any opcode that matches no dispatch rule) it changes no register and no readiness
bit. -/
theorem writeback_counts_every_opcode (cpu : APEX_CPU)
    (hb : cpu.stage_WB.busy = 0) (hs : cpu.stage_WB.stalled = 0) :
    (writeback cpu).ins_completed = cpu.ins_completed + 1
    ∧ (writeback cpu).data_memory = cpu.data_memory
    ∧ (cpu.stage_WB.opcode ∉ ["MOVC", "ADD", "SUB", "AND", "OR", "EX-OR", "LOAD", "MUL"] →
        (writeback cpu).regs = cpu.regs ∧ (writeback cpu).regs_valid = cpu.regs_valid) := by
  have hl : live cpu.stage_WB := ⟨hb, hs⟩
  refine ⟨?_, writeback_data_memory cpu, ?_⟩
  · rw [writeback_eq, if_pos hl]
    split_ifs <;> rfl
  · intro hop
    have hw : ¬ isRegWriter cpu.stage_WB.opcode := by
      simp only [List.mem_cons, List.mem_singleton, List.not_mem_nil, or_false] at hop
      unfold isRegWriter; tauto
    rw [writeback_eq, if_pos hl, if_neg hw]
    exact ⟨rfl, rfl⟩

/-- C10 at a concrete machine: an opcode no dispatch rule matches is counted. -/
theorem writeback_counts_every_opcode_witness :
    (writeback { zeroCPU with stage_WB := liveLatch "NOP" 0 0 0 0 }).ins_completed = 0 + 1 :=
  (writeback_counts_every_opcode
    { zeroCPU with stage_WB := liveLatch "NOP" 0 0 0 0 } rfl rfl).1

/-! ## C11, C12: Fetch, and the bubbles -/

/-- C11. Fetch step: when the Fetch latch is neither busy nor stalled and the
program counter indexes an instruction of the program, `fetch` sets the Fetch
latch's `pc` to the old program counter and its `opcode`, `rd`, `rs1`, `rs2`,
`imm` to those of `code_memory[(pc - 4000) / 4]`, and sets the program counter
to `pc + 4`; when the Fetch latch is busy or stalled, `fetch` leaves the program
counter and the Fetch latch unchanged.  In both cases the Decode latch becomes an
exact copy of the Fetch latch, and registers, readiness bits, data memory, zero
flag, cycle counter and completed-instruction counter are unchanged. -/
theorem fetch_step (cpu : APEX_CPU) :
    (cpu.stage_F.busy = 0 ∧ cpu.stage_F.stalled = 0
        ∧ 0 ≤ get_code_index cpu.pc ∧ get_code_index cpu.pc < cpu.code_memory_size →
      (fetch cpu).stage_F.pc = cpu.pc
      ∧ (fetch cpu).stage_F.opcode = (cpu.code_memory (get_code_index cpu.pc)).opcode
      ∧ (fetch cpu).stage_F.rd = (cpu.code_memory (get_code_index cpu.pc)).rd
      ∧ (fetch cpu).stage_F.rs1 = (cpu.code_memory (get_code_index cpu.pc)).rs1
      ∧ (fetch cpu).stage_F.rs2 = (cpu.code_memory (get_code_index cpu.pc)).rs2
      ∧ (fetch cpu).stage_F.imm = (cpu.code_memory (get_code_index cpu.pc)).imm
      ∧ (fetch cpu).pc = cpu.pc + 4)
    ∧ (¬ (cpu.stage_F.busy = 0 ∧ cpu.stage_F.stalled = 0) →
      (fetch cpu).pc = cpu.pc ∧ (fetch cpu).stage_F = cpu.stage_F)
    ∧ (fetch cpu).stage_DRF = (fetch cpu).stage_F
    ∧ (fetch cpu).regs = cpu.regs
    ∧ (fetch cpu).regs_valid = cpu.regs_valid
    ∧ (fetch cpu).data_memory = cpu.data_memory
    ∧ (fetch cpu).zeroflag = cpu.zeroflag
    ∧ (fetch cpu).clock = cpu.clock
    ∧ (fetch cpu).ins_completed = cpu.ins_completed := by
  refine ⟨?_, ?_, fetch_stage_DRF cpu, fetch_regs cpu, fetch_regs_valid cpu,
    fetch_data_memory cpu, fetch_zeroflag cpu, fetch_clock cpu, fetch_ins_completed cpu⟩
  · intro h
    have hl : cpu.stage_F.busy = 0 ∧ cpu.stage_F.stalled = 0 := ⟨h.1, h.2.1⟩
    unfold fetch
    rw [if_pos hl]
    exact ⟨rfl, rfl, rfl, rfl, rfl, rfl, rfl⟩
  · intro hl
    unfold fetch
    rw [if_neg hl]
    exact ⟨rfl, rfl⟩

/-- C11 at a concrete machine: the reset state of the end-to-end program fetches
the `MOVC` at 4000 and moves the program counter to 4004. -/
theorem fetch_step_witness :
    (fetch (initState zeroCPU endToEndProgram 4)).stage_F.opcode = "MOVC"
    ∧ (fetch (initState zeroCPU endToEndProgram 4)).pc = 4004 :=
  have h := (fetch_step (initState zeroCPU endToEndProgram 4)).1
    ⟨rfl, rfl, by decide, by decide⟩
  ⟨h.2.1, h.2.2.2.2.2.2⟩

/-- C12. Bubbles have no side effects: when the Decode latch is busy or stalled,
`decode` changes nothing except making the Execute latch a copy of the Decode
latch; likewise `execute` with the Memory latch and `memory` with the Writeback
latch; and when the Writeback latch is busy or stalled, `writeback` changes
nothing at all.  So registers, readiness bits, data memory, program counter,
zero flag, cycle counter and completed-instruction counter are unchanged in all
four cases. -/
theorem bubbles_have_no_side_effects (cpu : APEX_CPU) :
    (¬ (cpu.stage_DRF.busy = 0 ∧ cpu.stage_DRF.stalled = 0) →
      decode cpu = { cpu with stage_EX := cpu.stage_DRF })
    ∧ (¬ (cpu.stage_EX.busy = 0 ∧ cpu.stage_EX.stalled = 0) →
      execute cpu = { cpu with stage_MEM := cpu.stage_EX })
    ∧ (¬ (cpu.stage_MEM.busy = 0 ∧ cpu.stage_MEM.stalled = 0) →
      memory cpu = { cpu with stage_WB := cpu.stage_MEM })
    ∧ (¬ (cpu.stage_WB.busy = 0 ∧ cpu.stage_WB.stalled = 0) →
      writeback cpu = cpu) := by
  refine ⟨?_, ?_, ?_, ?_⟩
  · intro h; unfold decode; rw [if_neg h]
  · intro h; unfold execute; simp only [if_neg h]
  · intro h; unfold memory; rw [if_neg h]
  · intro h; unfold writeback; rw [if_neg h]

/-- C12 at a concrete machine: the reset state, whose Writeback latch is busy. -/
theorem bubbles_have_no_side_effects_witness :
    writeback (initState zeroCPU endToEndProgram 4) = initState zeroCPU endToEndProgram 4 :=
  (bubbles_have_no_side_effects (initState zeroCPU endToEndProgram 4)).2.2.2 (by decide)

/-! ## C13: the reset state -/

/-- C13, the divergence. After a successful `APEX_cpu_init` (here: the
end-to-end program loaded into a zeroed block) a readiness bit holds 16843009,
not 1: `memset(cpu->regs_valid, 1, ...)` writes the byte 1 into each of the four
bytes of every `int`, where `decode` marks a pending register with the value
1. -/
theorem reset_readiness_bit_is_not_one :
    APEX_cpu_init (some "input.asm") (some zeroCPU) (fun _ => some (endToEndProgram, 4))
      = some (initState zeroCPU endToEndProgram 4)
    ∧ (initState zeroCPU endToEndProgram 4).regs_valid 0 = 16843009
    ∧ (initState zeroCPU endToEndProgram 4).regs_valid 0 ≠ 1 := by
  refine ⟨rfl, rfl, ?_⟩
  show (16843009 : Int) ≠ 1
  decide

/-- X1. Reset state: after a successful `APEX_cpu_init` the program counter is
4000, every register is 0, every readiness bit holds the non-zero value
16843009 (`0x01010101`, so every register is pending), every data-memory cell
is 0, the Fetch latch is neither busy nor stalled, and the Decode, Execute,
Memory and Writeback latches are all busy and not stalled. -/
theorem reset_state (filename : Option String) (raw : Option APEX_CPU)
    (create_code_memory : String → Option ((Int → APEX_Instruction) × Int))
    (cpu : APEX_CPU)
    (h : APEX_cpu_init filename raw create_code_memory = some cpu) :
    cpu.pc = 4000
    ∧ (∀ r, cpu.regs r = 0)
    ∧ (∀ r, cpu.regs_valid r = 16843009 ∧ cpu.regs_valid r ≠ 0)
    ∧ (∀ a, cpu.data_memory a = 0)
    ∧ cpu.stage_F.busy = 0 ∧ cpu.stage_F.stalled = 0
    ∧ cpu.stage_DRF.busy = 1 ∧ cpu.stage_DRF.stalled = 0
    ∧ cpu.stage_EX.busy = 1 ∧ cpu.stage_EX.stalled = 0
    ∧ cpu.stage_MEM.busy = 1 ∧ cpu.stage_MEM.stalled = 0
    ∧ cpu.stage_WB.busy = 1 ∧ cpu.stage_WB.stalled = 0 := by
  unfold APEX_cpu_init at h
  cases filename with
  | none => simp at h
  | some name =>
    cases raw with
    | none => simp at h
    | some r0 =>
      cases hc : create_code_memory name with
      | none => simp [hc] at h
      | some p =>
        obtain ⟨code, size⟩ := p
        simp only [hc, Option.some.injEq] at h
        subst h
        refine ⟨rfl, fun _ => rfl, fun _ => ⟨rfl, ?_⟩, fun _ => rfl, rfl, rfl, rfl, rfl, rfl, rfl,
          rfl, rfl, rfl, rfl⟩
        show (16843009 : Int) ≠ 0
        decide

/-- X1 at a concrete machine: the end-to-end program loaded into a zeroed
block. -/
theorem reset_state_witness :
    (initState zeroCPU endToEndProgram 4).pc = 4000
    ∧ (initState zeroCPU endToEndProgram 4).stage_WB.busy = 1 :=
  have h := reset_state (some "input.asm") (some zeroCPU)
    (fun _ => some (endToEndProgram, 4)) (initState zeroCPU endToEndProgram 4) rfl
  ⟨h.1, h.2.2.2.2.2.2.2.2.2.2.2.2.1⟩

/-! ## C14: a readiness bit of 0 with a write in flight -/

/-- C14, the divergence. In the run of `MOVC R0,#1; MOVC R0,#2; ADD R1,R0,R0;
HALT` from reset, `decode` processes the `ADD` in tick 5 with both source bits
at 0 (the `writeback` of that tick has committed the first `MOVC`, and `MOVC`
never marks its destination pending), while the second `MOVC`, older than the
`ADD` and with destination `R0`, is live in the Writeback latch and commits only
in tick 6.  The snapshots are the stale `R0 = 1`, and the run exits after 9
ticks with `R0 = 2` and `R1 = 1 + 1 = 2`, where the value of `R0` after all
older instructions would give `R1 = 4`. -/
theorem ready_bit_with_write_in_flight :
    (atDecode (ticks 4 (initState zeroCPU movcTwiceThenAdd 4))).stage_DRF.opcode = "ADD"
    ∧ (atDecode (ticks 4 (initState zeroCPU movcTwiceThenAdd 4))).stage_DRF.busy = 0
    ∧ (atDecode (ticks 4 (initState zeroCPU movcTwiceThenAdd 4))).stage_DRF.stalled = 0
    ∧ (atDecode (ticks 4 (initState zeroCPU movcTwiceThenAdd 4))).stage_DRF.rs1 = 0
    ∧ (atDecode (ticks 4 (initState zeroCPU movcTwiceThenAdd 4))).stage_DRF.rs2 = 0
    ∧ (atDecode (ticks 4 (initState zeroCPU movcTwiceThenAdd 4))).regs_valid 0 = 0
    ∧ (atDecode (ticks 4 (initState zeroCPU movcTwiceThenAdd 4))).stage_WB.opcode = "MOVC"
    ∧ (atDecode (ticks 4 (initState zeroCPU movcTwiceThenAdd 4))).stage_WB.busy = 0
    ∧ (atDecode (ticks 4 (initState zeroCPU movcTwiceThenAdd 4))).stage_WB.stalled = 0
    ∧ (atDecode (ticks 4 (initState zeroCPU movcTwiceThenAdd 4))).stage_WB.rd = 0
    ∧ (atDecode (ticks 4 (initState zeroCPU movcTwiceThenAdd 4))).stage_WB.buffer = 2
    ∧ (decode (atDecode (ticks 4 (initState zeroCPU movcTwiceThenAdd 4)))).stage_EX.rs1_value = 1
    ∧ (decode (atDecode (ticks 4 (initState zeroCPU movcTwiceThenAdd 4)))).stage_EX.rs2_value = 1
    ∧ APEX_cpu_run 9 (initState zeroCPU movcTwiceThenAdd 4)
        = some (ticks 9 (initState zeroCPU movcTwiceThenAdd 4))
    ∧ (ticks 9 (initState zeroCPU movcTwiceThenAdd 4)).regs 0 = 2
    ∧ (ticks 9 (initState zeroCPU movcTwiceThenAdd 4)).regs 1 = 2 := by
  refine ⟨by decide, by decide, by decide, by decide, by decide, by decide, by decide,
    by decide, by decide, by decide, by decide, by decide, by decide, ?_, by decide, by decide⟩
  exact APEX_cpu_run_of_ticks 9 _ (fun k hk => by interval_cases k <;> decide) (by decide) 9
    (Nat.le_refl 9)

/-! ## C15: the operand selection of `SUB` -/

/-- C15, the divergence. `SUB R3,R0,R1` with `R0 = R1 = 5` (operand snapshots 5
and 5, `imm = 0`): neither live register value is zero, so the specified result
is `5 - 5 = 0` with the zero flag set; `execute` tests the register indices
instead, finds `rs1 = 0`, and produces `rs2 snapshot - imm = 5` with the zero
flag cleared. -/
theorem sub_selects_on_register_index :
    subFromR0.stage_EX.opcode = "SUB"
    ∧ subFromR0.stage_EX.busy = 0 ∧ subFromR0.stage_EX.stalled = 0
    ∧ subFromR0.regs subFromR0.stage_EX.rs1 ≠ 0
    ∧ subFromR0.regs subFromR0.stage_EX.rs2 ≠ 0
    ∧ subFromR0.stage_EX.rs1_value - subFromR0.stage_EX.rs2_value = 0
    ∧ (execute subFromR0).stage_EX.buffer = 5
    ∧ (execute subFromR0).stage_MEM.buffer = 5
    ∧ (execute subFromR0).zeroflag = 0 := by
  refine ⟨rfl, rfl, rfl, by decide, by decide, by decide, ?_, ?_, ?_⟩ <;>
  simp [execute, execute_sub, setZeroFlag, subFromR0, liveLatch, zeroCPU, zeroStage]

/-! ## C16: a `HALT` that is counted twice -/

/-- C16, the divergence. In the run of the three-instruction program
`MOVC R0,#1; HALT; MOVC R1,#2` from reset, the `writeback` of the `MOVC` in
tick 5 releases the stalled Decode latch, and `decode` hands the same `HALT` to
Execute a second time; `writeback` counts the `HALT` in tick 6 and again in
tick 8.  The loop exits after 8 ticks with the counter at 3, the program length,
although only two instructions were ever fetched (the program counter is 4008)
and the third never ran (`R1` is still 0). -/
theorem halt_counted_twice :
    (ticks 5 (initState zeroCPU haltInTheMiddle 3)).stage_WB.opcode = "HALT"
    ∧ (ticks 5 (initState zeroCPU haltInTheMiddle 3)).stage_WB.busy = 0
    ∧ (ticks 5 (initState zeroCPU haltInTheMiddle 3)).stage_WB.stalled = 0
    ∧ (ticks 5 (initState zeroCPU haltInTheMiddle 3)).ins_completed = 1
    ∧ (ticks 6 (initState zeroCPU haltInTheMiddle 3)).ins_completed = 2
    ∧ (ticks 7 (initState zeroCPU haltInTheMiddle 3)).stage_WB.opcode = "HALT"
    ∧ (ticks 7 (initState zeroCPU haltInTheMiddle 3)).stage_WB.busy = 0
    ∧ (ticks 7 (initState zeroCPU haltInTheMiddle 3)).stage_WB.stalled = 0
    ∧ (ticks 7 (initState zeroCPU haltInTheMiddle 3)).ins_completed = 2
    ∧ (ticks 8 (initState zeroCPU haltInTheMiddle 3)).ins_completed = 3
    ∧ APEX_cpu_run 8 (initState zeroCPU haltInTheMiddle 3)
        = some (ticks 8 (initState zeroCPU haltInTheMiddle 3))
    ∧ (∀ k, k ≤ 8 → (ticks k (initState zeroCPU haltInTheMiddle 3)).pc ≤ 4008)
    ∧ (ticks 8 (initState zeroCPU haltInTheMiddle 3)).pc = 4008
    ∧ (ticks 8 (initState zeroCPU haltInTheMiddle 3)).regs 1 = 0 := by
  refine ⟨by decide, by decide, by decide, by decide, by decide, by decide, by decide,
    by decide, by decide, by decide, ?_, ?_, by decide, by decide⟩
  · exact APEX_cpu_run_of_ticks 8 _ (fun k hk => by interval_cases k <;> decide) (by decide) 8
      (Nat.le_refl 8)
  · intro k hk
    interval_cases k <;> decide

/-! ## C17: who writes the zero flag -/

/-- C17, the claim as stated fails: a live `BZ` that finds the zero flag at 1
clears it, so `execute` changes the zero flag for an opcode other than `ADD`,
`SUB` and `MUL`. -/
theorem bz_clears_zero_flag :
    bzTaken.stage_EX.opcode = "BZ"
    ∧ bzTaken.stage_EX.busy = 0 ∧ bzTaken.stage_EX.stalled = 0
    ∧ bzTaken.zeroflag = 1
    ∧ (execute bzTaken).zeroflag = 0
    ∧ (execute bzTaken).zeroflag ≠ bzTaken.zeroflag := by
  refine ⟨rfl, rfl, rfl, rfl, ?_, ?_⟩ <;>
  simp [execute, execute_bz, bzTaken, liveLatch, zeroCPU, zeroStage]

/-- C17, amended. Zero-flag writers: `execute` changes the zero flag only when
its latch holds a live `ADD`, `SUB` or `MUL` (the flag becomes 1 when the
computed result is 0 and 0 otherwise) or a live `BZ` that finds the flag at 1
(the flag becomes 0); in every other case, `BNZ` included, the flag after
`execute` equals the flag before it; and `fetch`, `decode`, `memory` and
`writeback` never change it. -/
theorem zero_flag_writers (cpu : APEX_CPU) :
    (cpu.stage_EX.busy = 0 ∧ cpu.stage_EX.stalled = 0
        ∧ cpu.stage_EX.opcode ∈ ["ADD", "SUB", "MUL"] →
      (execute cpu).zeroflag = if (execute cpu).stage_EX.buffer = 0 then 1 else 0)
    ∧ (cpu.stage_EX.busy = 0 ∧ cpu.stage_EX.stalled = 0 ∧ cpu.stage_EX.opcode = "BZ" →
      (execute cpu).zeroflag = if cpu.zeroflag = 1 then 0 else cpu.zeroflag)
    ∧ (¬ (cpu.stage_EX.busy = 0 ∧ cpu.stage_EX.stalled = 0
          ∧ cpu.stage_EX.opcode ∈ ["ADD", "SUB", "MUL", "BZ"]) →
      (execute cpu).zeroflag = cpu.zeroflag)
    ∧ (fetch cpu).zeroflag = cpu.zeroflag
    ∧ (decode cpu).zeroflag = cpu.zeroflag
    ∧ (memory cpu).zeroflag = cpu.zeroflag
    ∧ (writeback cpu).zeroflag = cpu.zeroflag := by
  refine ⟨?_, ?_, ?_, fetch_zeroflag cpu, decode_zeroflag cpu, memory_zeroflag cpu,
    writeback_zeroflag cpu⟩
  · rintro ⟨hb, hs, hop⟩
    have hl : live cpu.stage_EX := ⟨hb, hs⟩
    simp only [List.mem_cons, List.mem_singleton, List.not_mem_nil, or_false] at hop
    rw [execute_live cpu hl]
    rcases hop with h | h | h
    · rw [execute_dispatch_ADD cpu h, execute_add_eq]
    · rw [execute_dispatch_SUB cpu h, execute_sub_eq]
    · rw [execute_dispatch_MUL cpu h, execute_mul_eq]
  · rintro ⟨hb, hs, hop⟩
    have hl : live cpu.stage_EX := ⟨hb, hs⟩
    rw [execute_live cpu hl, execute_dispatch_BZ cpu hop]
    unfold execute_bz
    split_ifs <;> rfl
  · intro h
    by_cases hl : live cpu.stage_EX
    · have hne : cpu.stage_EX.opcode ∉ ["ADD", "SUB", "MUL", "BZ"] :=
        fun hop => h ⟨hl.1, hl.2, hop⟩
      simp only [List.mem_cons, List.mem_singleton, List.not_mem_nil, or_false, not_or] at hne
      rw [execute_live cpu hl]
      show (execute_dispatch cpu).zeroflag = cpu.zeroflag
      unfold execute_dispatch
      repeat' first
        | intro hc
        | with_reducible apply ite_cases (fun c : APEX_CPU => c.zeroflag = cpu.zeroflag)
      all_goals first
        | rfl
        | (exact absurd hc hne.1)
        | (exact absurd hc hne.2.1)
        | (exact absurd hc hne.2.2.1)
        | (exact absurd hc hne.2.2.2)
        | (unfold execute_bnz; split_ifs <;> rfl)
    · rw [execute_bubble cpu hl]

/-- C17, amended, at a concrete machine: a live `JUMP` leaves the zero flag. -/
theorem zero_flag_writers_witness :
    (execute { zeroCPU with zeroflag := 1, stage_EX := liveLatch "JUMP" 0 1 0 8 }).zeroflag = 1 :=
  (zero_flag_writers { zeroCPU with zeroflag := 1, stage_EX := liveLatch "JUMP" 0 1 0 8 }).2.2.1
    (by decide)

/-! ## C18: the deadlock of a program that starts with an ALU instruction -/

/-- The second tick from reset when the first instruction is an ALU instruction:
`decode` finds the source registers pending and stalls, and no latch is live
afterwards. -/
theorem second_tick_stalls (raw : APEX_CPU) (code : Int → APEX_Instruction) (size : Int)
    (hop : isALU (code 0).opcode) :
    allHeld (ticks 2 (initState raw code size))
    ∧ (ticks 2 (initState raw code size)).ins_completed = raw.ins_completed
    ∧ (ticks 2 (initState raw code size)).regs = (fun _ => 0)
    ∧ (ticks 2 (initState raw code size)).pc = 4004
    ∧ (ticks 2 (initState raw code size)).stage_F
        = { fetchedLatch 4000 (code 0) with stalled := 1 } := by
  show allHeld (tick (tick (initState raw code size))) ∧ _
  rw [show ticks 2 (initState raw code size) = tick (tick (initState raw code size)) from rfl,
    tick_initState]
  generalize hs1 : ({ initState raw code size with
        clock := raw.clock + 1
        pc := 4004
        stage_F := fetchedLatch 4000 (code 0)
        stage_DRF := fetchedLatch 4000 (code 0) } : APEX_CPU) = s1
  have hF : s1.stage_F = fetchedLatch 4000 (code 0) := by rw [← hs1]
  have hD : s1.stage_DRF = fetchedLatch 4000 (code 0) := by rw [← hs1]
  have hEb : s1.stage_EX.busy = 1 := by rw [← hs1]; rfl
  have hMb : s1.stage_MEM.busy = 1 := by rw [← hs1]; rfl
  have hWb : s1.stage_WB.busy = 1 := by rw [← hs1]; rfl
  have hv : ∀ r, s1.regs_valid r = memsetOnes := by rw [← hs1]; intro r; rfl
  have hregs : s1.regs = (fun _ => 0) := by rw [← hs1]; rfl
  have hic : s1.ins_completed = raw.ins_completed := by rw [← hs1]; rfl
  have hpc : s1.pc = 4004 := by rw [← hs1]
  have one : ¬ ((1 : Int) = 0) := by decide
  have e1 : writeback s1 = s1 := by
    rw [writeback_eq, if_neg (fun h => one (hWb ▸ h.1))]
  have hlM : ¬ live s1.stage_MEM := fun h => one (hMb ▸ h.1)
  have hlE : ¬ live s1.stage_EX := fun h => one (hEb ▸ h.1)
  -- the machine on which `decode` runs
  generalize hx : execute (memory s1) = x
  have xF : x.stage_F = fetchedLatch 4000 (code 0) := by rw [← hx]; simpa using hF
  have xD : x.stage_DRF = fetchedLatch 4000 (code 0) := by rw [← hx]; simpa using hD
  have xv : ∀ r, x.regs_valid r = memsetOnes := by rw [← hx]; simpa using hv
  have xregs : x.regs = (fun _ => 0) := by rw [← hx]; simpa using hregs
  have xic : x.ins_completed = raw.ins_completed := by rw [← hx]; simpa using hic
  have xpc : x.pc = 4004 := by
    rw [← hx, execute_bubble _ (by rw [memory_stage_EX]; exact hlE)]
    show (memory s1).pc = 4004
    rw [memory_pc, hpc]
  have xMEM : ¬ live x.stage_MEM := by
    rw [← hx, execute_stage_MEM, execute_bubble _ (by rw [memory_stage_EX]; exact hlE)]
    show ¬ live (memory s1).stage_EX
    rw [memory_stage_EX]; exact hlE
  have xWB : ¬ live x.stage_WB := by
    rw [← hx, execute_stage_WB, memory_stage_WB, memory_eq, if_neg hlM]; exact hlM
  have xl : live x.stage_DRF := by rw [xD]; exact ⟨rfl, rfl⟩
  have xop : isALU x.stage_DRF.opcode := by rw [xD]; exact hop
  have xnr : ¬ (x.regs_valid x.stage_DRF.rs1 = 0 ∧ x.regs_valid x.stage_DRF.rs2 = 0) := by
    rw [xv, xv]; unfold memsetOnes; decide
  have hd : decode x =
      { x with
        regs_valid := decode_mark x
        stage_F := { x.stage_F with stalled := 1 }
        stage_DRF := { x.stage_DRF with stalled := 1 }
        stage_EX := { x.stage_DRF with stalled := 1 } } := by
    rw [decode_live x xl, decode_dispatch_ALU x xop, decode_alu_eq, if_neg xnr]
  have hf : fetch (decode x) = { decode x with stage_DRF := (decode x).stage_F } :=
    fetch_held _ (by rw [hd]; exact fun h => one h.2)
  have ht : tick s1 = { fetch (decode x) with clock := (fetch (decode x)).clock + 1 } := by
    show { fetch (decode (execute (memory (writeback s1)))) with
      clock := (fetch (decode (execute (memory (writeback s1))))).clock + 1 } = _
    rw [e1, hx]
  rw [ht, hf, hd]
  refine ⟨⟨fun h => one h.2, fun h => one h.2, fun h => one h.2, xMEM, xWB⟩, xic, xregs, xpc, ?_⟩
  show { x.stage_F with stalled := 1 } = _
  rw [xF]

/-- C18. Reset-pending deadlock: when the first instruction of the program is
`ADD`, `SUB`, `AND`, `OR`, `EX-OR` or `MUL`, the run from reset with the
completed-instruction counter at 0 never completes an instruction: after any
number `n` of ticks the counter is still 0 and every register is still 0; only
the first instruction is ever fetched (the program counter is 4000 before the
first tick and 4004 ever after, and the Fetch latch holds the instruction
fetched at 4000); and the run loop does not exit, whatever the number of ticks
allowed. -/
theorem reset_pending_deadlock (raw : APEX_CPU) (code : Int → APEX_Instruction) (size : Int)
    (hsize : 0 < size) (hi : raw.ins_completed = 0)
    (hop : (code 0).opcode ∈ ["ADD", "SUB", "AND", "OR", "EX-OR", "MUL"]) :
    (∀ n, (ticks n (initState raw code size)).ins_completed = 0
        ∧ (∀ r, (ticks n (initState raw code size)).regs r = 0)
        ∧ (ticks n (initState raw code size)).pc = (if n = 0 then 4000 else 4004)
        ∧ (1 ≤ n →
            (ticks n (initState raw code size)).stage_F.pc = 4000
            ∧ (ticks n (initState raw code size)).stage_F.opcode = (code 0).opcode))
    ∧ ∀ fuel, APEX_cpu_run fuel (initState raw code size) = none := by
  have ha : isALU (code 0).opcode := by
    simp only [List.mem_cons, List.mem_singleton, List.not_mem_nil, or_false] at hop
    exact hop
  have key : ∀ n, (ticks n (initState raw code size)).ins_completed = 0
      ∧ (∀ r, (ticks n (initState raw code size)).regs r = 0)
      ∧ (ticks n (initState raw code size)).pc = (if n = 0 then 4000 else 4004)
      ∧ (1 ≤ n →
          (ticks n (initState raw code size)).stage_F.pc = 4000
          ∧ (ticks n (initState raw code size)).stage_F.opcode = (code 0).opcode) := by
    intro n
    rcases Nat.lt_or_ge n 2 with h | h
    · interval_cases n
      · exact ⟨hi, fun _ => rfl, rfl, fun h => absurd h (by decide)⟩
      · show (tick (initState raw code size)).ins_completed = 0 ∧ _
        rw [tick_initState]
        exact ⟨hi, fun _ => rfl, rfl, fun _ => ⟨rfl, rfl⟩⟩
    · obtain ⟨k, rfl⟩ : ∃ k, n = 2 + k := ⟨n - 2, by omega⟩
      obtain ⟨h2, hic, hregs, hpc, hF⟩ := second_tick_stalls raw code size ha
      obtain ⟨_, kic, kregs, _, _, kpc, kF⟩ := ticks_allHeld k _ h2
      rw [ticks_add]
      refine ⟨by rw [kic, hic, hi], fun r => by rw [kregs, hregs], ?_, fun _ => ?_⟩
      · rw [kpc, hpc, if_neg (by omega)]
      · rw [kF, hF]; exact ⟨rfl, rfl⟩
  refine ⟨key, fun fuel => ?_⟩
  apply APEX_cpu_run_none
  intro k _
  rw [(key k).1, ticks_code_memory_size]
  exact fun h => absurd (show size = 0 from h.symm) (by omega)

/-- C18 at a concrete machine: the one-instruction program `ADD R2,R0,R1`. -/
theorem reset_pending_deadlock_witness :
    APEX_cpu_run 1000
      (initState zeroCPU (fun _ => { opcode := "ADD", rd := 2, rs1 := 0, rs2 := 1, imm := 0 }) 1)
      = none :=
  (reset_pending_deadlock zeroCPU
    (fun _ => { opcode := "ADD", rd := 2, rs1 := 0, rs2 := 1, imm := 0 }) 1
    (by decide) rfl (by decide)).2 1000

/-! ## C19: a taken branch squashes nothing -/

/-- C19. A taken branch squashes nothing: let a tick start with a live `BZ`,
`BNZ` or `JUMP` in the Execute latch, and let `s = memory (writeback cpu)` be
the machine on which `execute` runs in that tick.  Then `execute` changes
nothing but the program counter, the zero flag and the Memory latch; the latch
`decode` hands to Execute and the readiness bits at the end of the tick are
those obtained when `execute` only hands its latch over
(`{ s with stage_MEM := s.stage_EX }`, what a branch that is not taken does), so
they are the same whether or not the branch redirects; no register changes after
`writeback`; and the latch handed to Execute carries the instruction of the
Decode latch (same `pc`, opcode, operands and busy flag), so the instruction
fetched right after the branch is decoded and passed on.  The redirect targets
are `pc + imm` of the branch latch for a `BZ` that finds the zero flag at 1 and
for a `BNZ` that finds it at 0, and `rs1 snapshot + imm` for a `JUMP`; and when
the Fetch latch is neither busy nor stalled after `decode`, `fetch` fetches the
instruction at the program counter `execute` left (the target) in that same
tick and leaves the program counter at that value plus 4. -/
theorem taken_branch_squashes_nothing (cpu : APEX_CPU)
    (hb : cpu.stage_EX.busy = 0) (hs : cpu.stage_EX.stalled = 0)
    (hop : cpu.stage_EX.opcode ∈ ["BZ", "BNZ", "JUMP"]) :
    execute (memory (writeback cpu))
        = { memory (writeback cpu) with
            pc := (execute (memory (writeback cpu))).pc
            zeroflag := (execute (memory (writeback cpu))).zeroflag
            stage_MEM := (memory (writeback cpu)).stage_EX }
    ∧ (tick cpu).stage_EX
        = (decode { memory (writeback cpu) with
            stage_MEM := (memory (writeback cpu)).stage_EX }).stage_EX
    ∧ (tick cpu).regs_valid
        = (decode { memory (writeback cpu) with
            stage_MEM := (memory (writeback cpu)).stage_EX }).regs_valid
    ∧ (tick cpu).regs = (writeback cpu).regs
    ∧ (tick cpu).stage_EX.pc = cpu.stage_DRF.pc
    ∧ (tick cpu).stage_EX.opcode = cpu.stage_DRF.opcode
    ∧ (tick cpu).stage_EX.rd = cpu.stage_DRF.rd
    ∧ (tick cpu).stage_EX.rs1 = cpu.stage_DRF.rs1
    ∧ (tick cpu).stage_EX.rs2 = cpu.stage_DRF.rs2
    ∧ (tick cpu).stage_EX.imm = cpu.stage_DRF.imm
    ∧ (tick cpu).stage_EX.busy = cpu.stage_DRF.busy
    ∧ (cpu.stage_EX.opcode = "BZ" ∧ cpu.zeroflag = 1 →
        (execute (memory (writeback cpu))).pc = cpu.stage_EX.pc + cpu.stage_EX.imm)
    ∧ (cpu.stage_EX.opcode = "BNZ" ∧ cpu.zeroflag = 0 →
        (execute (memory (writeback cpu))).pc = cpu.stage_EX.pc + cpu.stage_EX.imm)
    ∧ (cpu.stage_EX.opcode = "JUMP" →
        (execute (memory (writeback cpu))).pc = cpu.stage_EX.rs1_value + cpu.stage_EX.imm)
    ∧ ((decode (execute (memory (writeback cpu)))).stage_F.busy = 0
        ∧ (decode (execute (memory (writeback cpu)))).stage_F.stalled = 0 →
      (tick cpu).pc = (execute (memory (writeback cpu))).pc + 4
      ∧ (tick cpu).stage_F.pc = (execute (memory (writeback cpu))).pc
      ∧ (tick cpu).stage_F.opcode
          = (cpu.code_memory (get_code_index (execute (memory (writeback cpu))).pc)).opcode) := by
  have hEX : (memory (writeback cpu)).stage_EX = cpu.stage_EX := by simp
  have hz : (memory (writeback cpu)).zeroflag = cpu.zeroflag := by simp
  have hl : live (memory (writeback cpu)).stage_EX := by rw [hEX]; exact ⟨hb, hs⟩
  have hcg := decode_congr (execute (memory (writeback cpu)))
    { memory (writeback cpu) with stage_MEM := (memory (writeback cpu)).stage_EX }
    (by simp) (by simp) (by simp) (by simp)
  have hEXt : (tick cpu).stage_EX = (decode (execute (memory (writeback cpu)))).stage_DRF := by
    unfold tick; simp [decode_stage_EX]
  have hD : ∀ x : APEX_CPU, (decode x).stage_EX = (decode x).stage_DRF := decode_stage_EX
  refine ⟨?_, ?_, ?_, ?_, ?_, ?_, ?_, ?_, ?_, ?_, ?_, ?_, ?_, ?_, ?_⟩
  · simp only [List.mem_cons, List.mem_singleton, List.not_mem_nil, or_false] at hop
    generalize memory (writeback cpu) = s at hEX hl
    rw [← hEX] at hop
    rcases hop with h | h | h
    · rw [execute_live s hl, execute_dispatch_BZ s h]
      unfold execute_bz; split_ifs <;> rfl
    · rw [execute_live s hl, execute_dispatch_BNZ s h]
      unfold execute_bnz; split_ifs <;> rfl
    · rw [execute_live s hl, execute_dispatch_JUMP s h]
  · rw [hEXt, hD, hcg.2.2]
  · rw [← hcg.1]; unfold tick; simp
  · unfold tick; simp
  · rw [hEXt]; simp
  · rw [hEXt]; simp
  · rw [hEXt]; simp
  · rw [hEXt]; simp
  · rw [hEXt]; simp
  · rw [hEXt]; simp
  · rw [hEXt]; simp
  · rintro ⟨h, hzf⟩
    rw [execute_live _ hl, execute_dispatch_BZ _ (by rw [hEX]; exact h)]
    unfold execute_bz
    rw [if_pos (by rw [hz]; exact hzf)]
    show (memory (writeback cpu)).stage_EX.pc + (memory (writeback cpu)).stage_EX.imm = _
    rw [hEX]
  · rintro ⟨h, hzf⟩
    rw [execute_live _ hl, execute_dispatch_BNZ _ (by rw [hEX]; exact h)]
    unfold execute_bnz
    rw [if_pos (by rw [hz]; exact hzf)]
    show (memory (writeback cpu)).stage_EX.pc + (memory (writeback cpu)).stage_EX.imm = _
    rw [hEX]
  · intro h
    rw [execute_live _ hl, execute_dispatch_JUMP _ (by rw [hEX]; exact h)]
    show (memory (writeback cpu)).stage_EX.rs1_value + (memory (writeback cpu)).stage_EX.imm = _
    rw [hEX]
  · intro hF
    rw [tick_pc, tick_stage_F, fetch_live _ hF]
    refine ⟨?_, ?_, ?_⟩
    · show (decode (execute (memory (writeback cpu)))).pc + 4 = _
      rw [decode_pc]
    · show (decode (execute (memory (writeback cpu)))).pc = _
      rw [decode_pc]
    · show ((decode (execute (memory (writeback cpu)))).code_memory
        (get_code_index (decode (execute (memory (writeback cpu)))).pc)).opcode = _
      simp

/-- C19 at a concrete machine: a `JUMP` to 4008 in Execute with the `MOVC`
fetched at 4004 behind it; the `MOVC` is handed to Execute, and `fetch` fetches
the `ADD` at 4008 in the same tick. -/
theorem taken_branch_squashes_nothing_witness :
    (tick jumpTaken).stage_EX.opcode = "MOVC"
    ∧ (execute (memory (writeback jumpTaken))).pc = 4000 + 8
    ∧ (tick jumpTaken).pc = (execute (memory (writeback jumpTaken))).pc + 4 :=
  have h := taken_branch_squashes_nothing jumpTaken rfl rfl (by decide)
  ⟨h.2.2.2.2.2.1, h.2.2.2.2.2.2.2.2.2.2.2.2.2.1 rfl,
    (h.2.2.2.2.2.2.2.2.2.2.2.2.2.2 ⟨by decide, by decide⟩).1⟩

/-! ## C20: `ADD` under the loader's convention -/

/-- C20. `ADD` is plain addition when `imm = 0` and the operand snapshots equal
the current register values at `rs1` and `rs2`: for a live `ADD` in the Execute
latch, the result buffer after `execute` (in the Execute latch and in the copy
handed to Memory) is `rs1 snapshot + rs2 snapshot`, whichever of the three
branches of the selection is taken, and the zero flag is 1 iff that sum is 0. -/
theorem add_is_plain_addition (cpu : APEX_CPU)
    (hb : cpu.stage_EX.busy = 0) (hs : cpu.stage_EX.stalled = 0)
    (hop : cpu.stage_EX.opcode = "ADD") (himm : cpu.stage_EX.imm = 0)
    (h1 : cpu.stage_EX.rs1_value = cpu.regs cpu.stage_EX.rs1)
    (h2 : cpu.stage_EX.rs2_value = cpu.regs cpu.stage_EX.rs2) :
    (execute cpu).stage_EX.buffer = cpu.stage_EX.rs1_value + cpu.stage_EX.rs2_value
    ∧ (execute cpu).stage_MEM.buffer = cpu.stage_EX.rs1_value + cpu.stage_EX.rs2_value
    ∧ add_result cpu = cpu.stage_EX.rs1_value + cpu.stage_EX.rs2_value
    ∧ ((execute cpu).zeroflag = 1 ↔ cpu.stage_EX.rs1_value + cpu.stage_EX.rs2_value = 0)
    ∧ ((execute cpu).zeroflag = 0 ↔ cpu.stage_EX.rs1_value + cpu.stage_EX.rs2_value ≠ 0) := by
  have hl : live cpu.stage_EX := ⟨hb, hs⟩
  have hr : add_result cpu = cpu.stage_EX.rs1_value + cpu.stage_EX.rs2_value := by
    unfold add_result
    rw [himm]
    split_ifs with c1 c2
    · rw [h1, c1]; ring
    · rw [h2, c2]
    · rfl
  rw [execute_live cpu hl, execute_dispatch_ADD cpu hop, execute_add_eq]
  refine ⟨hr, hr, hr, ?_, ?_⟩
  · show (if add_result cpu = 0 then (1 : Int) else 0) = 1 ↔ _
    rw [hr]
    split_ifs with c <;> simp [c]
  · show (if add_result cpu = 0 then (1 : Int) else 0) = 0 ↔ _
    rw [hr]
    split_ifs with c <;> simp [c]

/-- C20 at a concrete machine: `ADD R3,R1,R2` with `R1 = 0` and `R2 = 7` takes
the first special case and still produces `0 + 7`. -/
theorem add_is_plain_addition_witness :
    (execute { zeroCPU with
      regs := fun r => if r = 2 then 7 else 0
      stage_EX := { liveLatch "ADD" 3 1 2 0 with rs1_value := 0, rs2_value := 7 } }).stage_EX.buffer
      = 0 + 7 :=
  (add_is_plain_addition { zeroCPU with
      regs := fun r => if r = 2 then 7 else 0
      stage_EX := { liveLatch "ADD" 3 1 2 0 with rs1_value := 0, rs2_value := 7 } }
    rfl rfl rfl rfl (by decide) (by decide)).1

end APEX
